import Mathlib

/-!
# MiniC front-end: shallow embedding and verification

Shallow embedding of the MiniC compiler front-end (recursive-descent parser,
scope resolver, type checker) translated from the Rust sources:
`src/lexer_regex.rs` (the `Token` enum), `src/parser/ast.rs` (the AST),
`src/parser/mod.rs` (the parser), `src/scope/mod.rs` (the scope resolver) and
`src/type_checker/mod.rs` (the type checker).

Conventions of the embedding:
* `&mut self` methods become functions threading an explicit state value and
  returning `(result, state)` pairs.
* The parser's cursor `self.pos` is threaded as a `Nat`; every parse function
  returns `Option result × Nat` so that the cursor position is preserved also
  on failure, exactly as the mutable `self.pos` is in the source.
* The parser's `while` loops become auxiliary recursive `..._loop` functions;
  a `fuel : Nat` argument makes the mutual recursion obviously terminating
  (the source loops can only advance the cursor or fail, and all inputs used
  in the theorems below are given ample fuel, so fuel exhaustion never occurs
  on them).
* `Rc<ScopeNode>` sharing is modelled by an arena: the analyzer's `all_scopes`
  vector is the arena and an `Rc` is the index of its node in that vector
  (each `enter_scope` allocates exactly one new `Rc` and pushes it, so
  `Rc::ptr_eq` is equality of arena indices).
* Rust's `i64` literals are modelled as `Int`, `f64` payloads as `Float`
  (no claim inspects a float value: only constructors are matched on).
-/

namespace MiniC

/-! ## Tokens (`src/lexer_regex.rs`, enum `Token`) -/

inductive Token where
  | Function
  | Int
  | Float
  | String
  | Bool
  | Identifier (s : String)
  | IntLit (n : Int)
  | FloatLit (f : Float)
  | StringLit (s : String)
  | BoolLit (b : Bool)
  | Return
  | If
  | Else
  | While
  | For
  | AssignOp
  | EqualsOp
  | NotEqualsOp
  | LessEqOp
  | GreaterEqOp
  | LessOp
  | GreaterOp
  | AndOp
  | OrOp
  | BitAndOp
  | BitOrOp
  | ParenL
  | ParenR
  | BraceL
  | BraceR
  | BracketL
  | BracketR
  | Comma
  | Semicolon
  | Quotes
  | Colon
  | Plus
  | Minus
  | Mult
  | Div
  | Mod
  | Xor
  | Not
  | Question
  | Dot
  | Arrow
  | PlusPlus
  | MinusMinus
  | PlusAssign
  | MinusAssign
  | MultAssign
  | DivAssign
  | ModAssign
  | LShiftAssign
  | RShiftAssign
  | AndAssign
  | XorAssign
  | OrAssign
  | LShift
  | RShift
  | Hash
  | Comment (s : String)
  | BlockComment (s : String)
  | Preprocessor (s : String)
  | Enum
  | Struct
  | Typedef
  | Static
  | Const
  | Volatile
  | Extern
  | Auto
  | Register
  | Case
  | Default
  | Break
  | Continue
  | Goto
  | Switch
  | Do
  | Union
  | Signed
  | Unsigned
  | Short
  | Long
  | Double
  | Char
  | Void
  | Error (s : String)

/-! ## AST (`src/parser/ast.rs`) -/

inductive Constant where
  | Integer (n : Int)
  | Float (f : Float)
  | Char (c : Char)

inductive TypeSpecifier where
  | Int
  | Float
  | Double
  | Char
  | Short
  | Long
  | Signed
  | Unsigned
  | Void
  | Struct (s : String)
  | Union (s : String)
  | Enum (s : String)
  | Typedef (s : String)
  deriving DecidableEq

inductive TypeQualifier where
  | Const
  | Volatile
  deriving DecidableEq

inductive StorageClass where
  | Auto
  | Register
  | Static
  | Extern
  | Typedef
  deriving DecidableEq

inductive BinaryOperator where
  | Plus | Minus | Mult | Div | Mod
  | Less | LessEq | Greater | GreaterEq | Equals | NotEquals
  | And | Or | BitAnd | BitOr | Xor
  | LShift | RShift
  deriving DecidableEq

inductive UnaryOperator where
  | Plus | Minus | Not | BitNot | AddressOf | Dereference
  | PreIncrement | PreDecrement
  deriving DecidableEq

inductive AssignmentOperator where
  | Assign | PlusAssign | MinusAssign | MultAssign | DivAssign | ModAssign
  | LShiftAssign | RShiftAssign | AndAssign | XorAssign | OrAssign
  deriving DecidableEq

inductive PostfixOperator where
  | PlusPlus
  | MinusMinus
  deriving DecidableEq

mutual
inductive Expression where
  | Identifier (s : String)
  | Constant (c : Constant)
  | StringLiteral (s : String)
  | BinaryOp (l : Expression) (op : BinaryOperator) (r : Expression)
  | UnaryOp (op : UnaryOperator) (e : Expression)
  | Assignment (l : Expression) (op : AssignmentOperator) (r : Expression)
  | Conditional (cond t f : Expression)
  | FunctionCall (name : String) (args : List Expression)
  | ArrayAccess (arr idx : Expression)
  | MemberAccess (obj : Expression) (member : String)
  | PointerAccess (ptr : Expression) (member : String)
  | PostfixOp (e : Expression) (op : PostfixOperator)
  | SizeOf (t : SizeOfType)
  | Cast (t : TypeSpecifier) (e : Expression)

inductive SizeOfType where
  | Type (t : TypeSpecifier)
  | Expression (e : Expression)
end

inductive Designator where
  | Member (s : String)
  | Array (e : Expression)

mutual
inductive Initializer where
  | mk (kind : InitializerKind)

inductive InitializerKind where
  | Assignment (e : Expression)
  | List (l : List Initializer)
  | Designated (d : Designator) (i : Initializer)
end

/-- Accessor for the single field of the `Initializer` struct. -/
def Initializer.kind : Initializer → InitializerKind
  | .mk k => k

structure Parameter where
  param_type : String
  name : String
  deriving DecidableEq

structure Declarator where
  name : String
  pointer_depth : Nat
  array_sizes : List (Option Expression)
  function_params : Option (List Parameter)

structure VariableDeclaration where
  storage_class : Option StorageClass
  type_qualifiers : List TypeQualifier
  type_specifier : TypeSpecifier
  declarator : Declarator
  initializer : Option Initializer

set_option linter.dupNamespace false
set_option linter.unusedVariables false

mutual
inductive Statement where
  | Declaration (v : VariableDeclaration)
  | Assignment (name : String) (e : Expression)
  | Return (e : Option Expression)
  | Expression (e : Expression)
  | Block (stmts : List Statement)
  | If (cond : Expression) (t : Statement) (e : Option Statement)
  | While (cond : Expression) (body : Statement)
  | For (init : Option Statement) (cond : Option Expression)
        (update : Option Expression) (body : Statement)
  | DoWhile (body : Statement) (cond : Expression)
  | Switch (e : Expression) (cases : List Case)
  | Break
  | Continue
  | Goto (label : String)
  | Label (label : String) (s : Statement)

inductive Case where
  | Case (e : Expression) (stmts : List Statement)
  | Default (stmts : List Statement)
end

structure FunctionDefinition where
  return_type : String
  name : String
  parameters : List Parameter
  body : List Statement

structure FunctionDeclaration where
  return_type : String
  name : String
  parameters : List Parameter

inductive PrintfArg where
  | StringLiteral (s : String)
  | Expression (e : Expression)

structure PrintfStatement where
  args : List PrintfArg

structure StructDeclarator where
  declarator : Option Declarator
  bitfield : Option Expression

inductive SpecifierQualifier where
  | TypeSpecifier (t : TypeSpecifier)
  | TypeQualifier (q : TypeQualifier)
  deriving DecidableEq

structure StructDeclaration where
  specifiers : List SpecifierQualifier
  declarators : List StructDeclarator

structure StructMember where
  specifiers : List SpecifierQualifier
  declarators : List StructDeclarator

structure UnionDeclaration where
  name : Option String
  members : List StructMember

structure Enumerator where
  name : String
  value : Option Expression

structure EnumDeclaration where
  name : Option String
  enumerators : List Enumerator

structure TypedefDeclaration where
  type_specifier : TypeSpecifier
  declarator : Declarator

inductive ReplacementItem where
  | Identifier (s : String)
  | Constant (c : Constant)
  | StringLiteral (s : String)

inductive PreprocessorDirective where
  | Include (path : String)
  | Define (name : String) (replacement : List ReplacementItem)
  | Ifdef (name : String)
  | Ifndef (name : String)
  | Endif

inductive ExternalDeclaration where
  | Printf (p : PrintfStatement)
  | Struct (s : StructDeclaration)
  | Union (u : UnionDeclaration)
  | Enum (e : EnumDeclaration)
  | Typedef (t : TypedefDeclaration)
  | Variable (v : VariableDeclaration)
  | Function (f : FunctionDefinition)
  | FunctionDeclaration (f : FunctionDeclaration)

structure TranslationUnit where
  preprocessor_list : List PreprocessorDirective
  external_declarations : List ExternalDeclaration

/-! ## The expression parser (`src/parser/mod.rs`, lines 743–1259)

Each Rust method `fn parse_x(&mut self) -> Option<T>` becomes
`parse_x : Nat → List Token → Nat → Option T × Nat`, taking fuel, the token
vector and the current `self.pos`, and returning the parse result together
with the final cursor position (also on failure, mirroring the mutated
`self.pos`).  `self.tokens[self.pos]` sites guarded by `self.pos < len`
become `List.get?`; the source's `while` loops become the `..._loop`
functions. -/

set_option maxHeartbeats 1600000

mutual

def parse_expression : Nat → List Token → Nat → Option Expression × Nat
  | 0, _, pos => (none, pos)
  | fuel+1, toks, pos => parse_assignment_expression fuel toks pos

def parse_assignment_expression : Nat → List Token → Nat → Option Expression × Nat
  | 0, _, pos => (none, pos)
  | fuel+1, toks, pos =>
    match parse_conditional_expression fuel toks pos with
    | (none, p) => (none, p)
    | (some left, p) =>
      match toks.get? p with
      | some .AssignOp =>
        -- after consuming `=`: missing-expression check (EOF or `;` means None)
        match toks.get? (p+1) with
        | none => (none, p+1)
        | some .Semicolon => (none, p+1)
        | some _ =>
          match parse_assignment_expression fuel toks (p+1) with
          | (none, q) => (none, q)
          | (some right, q) => (some (.Assignment left .Assign right), q)
      | some .PlusAssign =>
        match parse_assignment_expression fuel toks (p+1) with
        | (none, q) => (none, q)
        | (some right, q) => (some (.Assignment left .PlusAssign right), q)
      | some .MinusAssign =>
        match parse_assignment_expression fuel toks (p+1) with
        | (none, q) => (none, q)
        | (some right, q) => (some (.Assignment left .MinusAssign right), q)
      | some .MultAssign =>
        match parse_assignment_expression fuel toks (p+1) with
        | (none, q) => (none, q)
        | (some right, q) => (some (.Assignment left .MultAssign right), q)
      | some .DivAssign =>
        match parse_assignment_expression fuel toks (p+1) with
        | (none, q) => (none, q)
        | (some right, q) => (some (.Assignment left .DivAssign right), q)
      | some .ModAssign =>
        match parse_assignment_expression fuel toks (p+1) with
        | (none, q) => (none, q)
        | (some right, q) => (some (.Assignment left .ModAssign right), q)
      | some .LShiftAssign =>
        match parse_assignment_expression fuel toks (p+1) with
        | (none, q) => (none, q)
        | (some right, q) => (some (.Assignment left .LShiftAssign right), q)
      | some .RShiftAssign =>
        match parse_assignment_expression fuel toks (p+1) with
        | (none, q) => (none, q)
        | (some right, q) => (some (.Assignment left .RShiftAssign right), q)
      | some .AndAssign =>
        match parse_assignment_expression fuel toks (p+1) with
        | (none, q) => (none, q)
        | (some right, q) => (some (.Assignment left .AndAssign right), q)
      | some .XorAssign =>
        match parse_assignment_expression fuel toks (p+1) with
        | (none, q) => (none, q)
        | (some right, q) => (some (.Assignment left .XorAssign right), q)
      | some .OrAssign =>
        match parse_assignment_expression fuel toks (p+1) with
        | (none, q) => (none, q)
        | (some right, q) => (some (.Assignment left .OrAssign right), q)
      | _ => (some left, p)

def parse_conditional_expression : Nat → List Token → Nat → Option Expression × Nat
  | 0, _, pos => (none, pos)
  | fuel+1, toks, pos =>
    match parse_logical_or_expression fuel toks pos with
    | (none, p) => (none, p)
    | (some condition, p) =>
      match toks.get? p with
      | some .Question =>
        match parse_expression fuel toks (p+1) with
        | (none, q) => (none, q)
        | (some t, q) =>
          match toks.get? q with
          | some .Colon =>
            match parse_conditional_expression fuel toks (q+1) with
            | (none, r) => (none, r)
            | (some f, r) => (some (.Conditional condition t f), r)
          | _ => (none, q)
      | _ => (some condition, p)

def parse_logical_or_expression : Nat → List Token → Nat → Option Expression × Nat
  | 0, _, pos => (none, pos)
  | fuel+1, toks, pos =>
    match parse_logical_and_expression fuel toks pos with
    | (none, p) => (none, p)
    | (some left, p) => parse_logical_or_loop fuel toks left p

def parse_logical_or_loop : Nat → List Token → Expression → Nat → Option Expression × Nat
  | 0, _, _, pos => (none, pos)
  | fuel+1, toks, left, pos =>
    match toks.get? pos with
    | some .OrOp =>
      match parse_logical_and_expression fuel toks (pos+1) with
      | (none, p) => (none, p)
      | (some right, p) => parse_logical_or_loop fuel toks (.BinaryOp left .Or right) p
    | _ => (some left, pos)

def parse_logical_and_expression : Nat → List Token → Nat → Option Expression × Nat
  | 0, _, pos => (none, pos)
  | fuel+1, toks, pos =>
    match parse_bitwise_or_expression fuel toks pos with
    | (none, p) => (none, p)
    | (some left, p) => parse_logical_and_loop fuel toks left p

def parse_logical_and_loop : Nat → List Token → Expression → Nat → Option Expression × Nat
  | 0, _, _, pos => (none, pos)
  | fuel+1, toks, left, pos =>
    match toks.get? pos with
    | some .AndOp =>
      match parse_bitwise_or_expression fuel toks (pos+1) with
      | (none, p) => (none, p)
      | (some right, p) => parse_logical_and_loop fuel toks (.BinaryOp left .And right) p
    | _ => (some left, pos)

def parse_bitwise_or_expression : Nat → List Token → Nat → Option Expression × Nat
  | 0, _, pos => (none, pos)
  | fuel+1, toks, pos =>
    match parse_bitwise_xor_expression fuel toks pos with
    | (none, p) => (none, p)
    | (some left, p) => parse_bitwise_or_loop fuel toks left p

def parse_bitwise_or_loop : Nat → List Token → Expression → Nat → Option Expression × Nat
  | 0, _, _, pos => (none, pos)
  | fuel+1, toks, left, pos =>
    match toks.get? pos with
    | some .BitOrOp =>
      match parse_bitwise_xor_expression fuel toks (pos+1) with
      | (none, p) => (none, p)
      | (some right, p) => parse_bitwise_or_loop fuel toks (.BinaryOp left .BitOr right) p
    | _ => (some left, pos)

def parse_bitwise_xor_expression : Nat → List Token → Nat → Option Expression × Nat
  | 0, _, pos => (none, pos)
  | fuel+1, toks, pos =>
    match parse_bitwise_and_expression fuel toks pos with
    | (none, p) => (none, p)
    | (some left, p) => parse_bitwise_xor_loop fuel toks left p

def parse_bitwise_xor_loop : Nat → List Token → Expression → Nat → Option Expression × Nat
  | 0, _, _, pos => (none, pos)
  | fuel+1, toks, left, pos =>
    match toks.get? pos with
    | some .Xor =>
      match parse_bitwise_and_expression fuel toks (pos+1) with
      | (none, p) => (none, p)
      | (some right, p) => parse_bitwise_xor_loop fuel toks (.BinaryOp left .Xor right) p
    | _ => (some left, pos)

def parse_bitwise_and_expression : Nat → List Token → Nat → Option Expression × Nat
  | 0, _, pos => (none, pos)
  | fuel+1, toks, pos =>
    match parse_equality_expression fuel toks pos with
    | (none, p) => (none, p)
    | (some left, p) => parse_bitwise_and_loop fuel toks left p

def parse_bitwise_and_loop : Nat → List Token → Expression → Nat → Option Expression × Nat
  | 0, _, _, pos => (none, pos)
  | fuel+1, toks, left, pos =>
    match toks.get? pos with
    | some .BitAndOp =>
      match parse_equality_expression fuel toks (pos+1) with
      | (none, p) => (none, p)
      | (some right, p) => parse_bitwise_and_loop fuel toks (.BinaryOp left .BitAnd right) p
    | _ => (some left, pos)

def parse_equality_expression : Nat → List Token → Nat → Option Expression × Nat
  | 0, _, pos => (none, pos)
  | fuel+1, toks, pos =>
    match parse_relational_expression fuel toks pos with
    | (none, p) => (none, p)
    | (some left, p) => parse_equality_loop fuel toks left p

def parse_equality_loop : Nat → List Token → Expression → Nat → Option Expression × Nat
  | 0, _, _, pos => (none, pos)
  | fuel+1, toks, left, pos =>
    match toks.get? pos with
    | some .EqualsOp =>
      match parse_relational_expression fuel toks (pos+1) with
      | (none, p) => (none, p)
      | (some right, p) => parse_equality_loop fuel toks (.BinaryOp left .Equals right) p
    | some .NotEqualsOp =>
      match parse_relational_expression fuel toks (pos+1) with
      | (none, p) => (none, p)
      | (some right, p) => parse_equality_loop fuel toks (.BinaryOp left .NotEquals right) p
    | _ => (some left, pos)

def parse_relational_expression : Nat → List Token → Nat → Option Expression × Nat
  | 0, _, pos => (none, pos)
  | fuel+1, toks, pos =>
    match parse_shift_expression fuel toks pos with
    | (none, p) => (none, p)
    | (some left, p) => parse_relational_loop fuel toks left p

def parse_relational_loop : Nat → List Token → Expression → Nat → Option Expression × Nat
  | 0, _, _, pos => (none, pos)
  | fuel+1, toks, left, pos =>
    match toks.get? pos with
    | some .LessOp =>
      match parse_shift_expression fuel toks (pos+1) with
      | (none, p) => (none, p)
      | (some right, p) => parse_relational_loop fuel toks (.BinaryOp left .Less right) p
    | some .GreaterOp =>
      match parse_shift_expression fuel toks (pos+1) with
      | (none, p) => (none, p)
      | (some right, p) => parse_relational_loop fuel toks (.BinaryOp left .Greater right) p
    | some .LessEqOp =>
      match parse_shift_expression fuel toks (pos+1) with
      | (none, p) => (none, p)
      | (some right, p) => parse_relational_loop fuel toks (.BinaryOp left .LessEq right) p
    | some .GreaterEqOp =>
      match parse_shift_expression fuel toks (pos+1) with
      | (none, p) => (none, p)
      | (some right, p) => parse_relational_loop fuel toks (.BinaryOp left .GreaterEq right) p
    | _ => (some left, pos)

def parse_shift_expression : Nat → List Token → Nat → Option Expression × Nat
  | 0, _, pos => (none, pos)
  | fuel+1, toks, pos =>
    match parse_additive_expression fuel toks pos with
    | (none, p) => (none, p)
    | (some left, p) => parse_shift_loop fuel toks left p

def parse_shift_loop : Nat → List Token → Expression → Nat → Option Expression × Nat
  | 0, _, _, pos => (none, pos)
  | fuel+1, toks, left, pos =>
    match toks.get? pos with
    | some .LShift =>
      match parse_additive_expression fuel toks (pos+1) with
      | (none, p) => (none, p)
      | (some right, p) => parse_shift_loop fuel toks (.BinaryOp left .LShift right) p
    | some .RShift =>
      match parse_additive_expression fuel toks (pos+1) with
      | (none, p) => (none, p)
      | (some right, p) => parse_shift_loop fuel toks (.BinaryOp left .RShift right) p
    | _ => (some left, pos)

def parse_additive_expression : Nat → List Token → Nat → Option Expression × Nat
  | 0, _, pos => (none, pos)
  | fuel+1, toks, pos =>
    match parse_multiplicative_expression fuel toks pos with
    | (none, p) => (none, p)
    | (some left, p) => parse_additive_loop fuel toks left p

def parse_additive_loop : Nat → List Token → Expression → Nat → Option Expression × Nat
  | 0, _, _, pos => (none, pos)
  | fuel+1, toks, left, pos =>
    match toks.get? pos with
    | some .Plus =>
      match parse_multiplicative_expression fuel toks (pos+1) with
      | (none, p) => (none, p)
      | (some right, p) => parse_additive_loop fuel toks (.BinaryOp left .Plus right) p
    | some .Minus =>
      match parse_multiplicative_expression fuel toks (pos+1) with
      | (none, p) => (none, p)
      | (some right, p) => parse_additive_loop fuel toks (.BinaryOp left .Minus right) p
    | _ => (some left, pos)

def parse_multiplicative_expression : Nat → List Token → Nat → Option Expression × Nat
  | 0, _, pos => (none, pos)
  | fuel+1, toks, pos =>
    match parse_unary_expression fuel toks pos with
    | (none, p) => (none, p)
    | (some left, p) => parse_multiplicative_loop fuel toks left p

def parse_multiplicative_loop : Nat → List Token → Expression → Nat → Option Expression × Nat
  | 0, _, _, pos => (none, pos)
  | fuel+1, toks, left, pos =>
    match toks.get? pos with
    | some .Mult =>
      match parse_unary_expression fuel toks (pos+1) with
      | (none, p) => (none, p)
      | (some right, p) => parse_multiplicative_loop fuel toks (.BinaryOp left .Mult right) p
    | some .Div =>
      match parse_unary_expression fuel toks (pos+1) with
      | (none, p) => (none, p)
      | (some right, p) => parse_multiplicative_loop fuel toks (.BinaryOp left .Div right) p
    | some .Mod =>
      match parse_unary_expression fuel toks (pos+1) with
      | (none, p) => (none, p)
      | (some right, p) => parse_multiplicative_loop fuel toks (.BinaryOp left .Mod right) p
    | _ => (some left, pos)

def parse_unary_expression : Nat → List Token → Nat → Option Expression × Nat
  | 0, _, pos => (none, pos)
  | fuel+1, toks, pos =>
    match toks.get? pos with
    | none => (none, pos)
    | some .Plus =>
      match parse_unary_expression fuel toks (pos+1) with
      | (none, p) => (none, p)
      | (some e, p) => (some (.UnaryOp .Plus e), p)
    | some .Minus =>
      match parse_unary_expression fuel toks (pos+1) with
      | (none, p) => (none, p)
      | (some e, p) => (some (.UnaryOp .Minus e), p)
    | some .Not =>
      match parse_unary_expression fuel toks (pos+1) with
      | (none, p) => (none, p)
      | (some e, p) => (some (.UnaryOp .Not e), p)
    | some .BitAndOp =>
      match parse_unary_expression fuel toks (pos+1) with
      | (none, p) => (none, p)
      | (some e, p) => (some (.UnaryOp .AddressOf e), p)
    | some .Mult =>
      match parse_unary_expression fuel toks (pos+1) with
      | (none, p) => (none, p)
      | (some e, p) => (some (.UnaryOp .Dereference e), p)
    | some _ => parse_postfix_expression fuel toks pos

def parse_postfix_expression : Nat → List Token → Nat → Option Expression × Nat
  | 0, _, pos => (none, pos)
  | fuel+1, toks, pos =>
    match parse_primary_expression fuel toks pos with
    | (none, p) => (none, p)
    | (some e, p) => parse_postfix_loop fuel toks e p

def parse_postfix_loop : Nat → List Token → Expression → Nat → Option Expression × Nat
  | 0, _, _, pos => (none, pos)
  | fuel+1, toks, e, pos =>
    match toks.get? pos with
    | some .ParenL =>
      -- function call
      match parse_call_args fuel toks (pos+1) with
      | (args, p) =>
        match toks.get? p with
        | some .ParenR =>
          match e with
          | .Identifier name => parse_postfix_loop fuel toks (.FunctionCall name args) (p+1)
          | _ => parse_postfix_loop fuel toks e (p+1)
        | _ =>
          -- no `)`: the source leaves `expr` unchanged and re-enters the loop
          -- at the same position (an infinite loop in Rust, fuel runs out here)
          parse_postfix_loop fuel toks e p
    | some .BracketL =>
      match parse_expression fuel toks (pos+1) with
      | (some index, p) =>
        match toks.get? p with
        | some .BracketR => parse_postfix_loop fuel toks (.ArrayAccess e index) (p+1)
        | _ => parse_postfix_loop fuel toks e p
      | (none, p) => parse_postfix_loop fuel toks e p
    | some .Dot =>
      match toks.get? (pos+1) with
      | some (.Identifier member) => parse_postfix_loop fuel toks (.MemberAccess e member) (pos+2)
      | _ => parse_postfix_loop fuel toks e (pos+1)
    | some .Arrow =>
      match toks.get? (pos+1) with
      | some (.Identifier member) => parse_postfix_loop fuel toks (.PointerAccess e member) (pos+2)
      | _ => parse_postfix_loop fuel toks e (pos+1)
    | some .PlusPlus => parse_postfix_loop fuel toks (.PostfixOp e .PlusPlus) (pos+1)
    | some .MinusMinus => parse_postfix_loop fuel toks (.PostfixOp e .MinusMinus) (pos+1)
    | _ => (some e, pos)

/-- Argument list of a call in `parse_postfix_expression`: first argument
unless the next token is `)`, then a comma-separated tail; a failed argument
parse is skipped (the source pushes only `Some` results). -/
def parse_call_args : Nat → List Token → Nat → List Expression × Nat
  | 0, _, pos => ([], pos)
  | fuel+1, toks, pos =>
    match toks.get? pos with
    | none => ([], pos)
    | some .ParenR => ([], pos)
    | some _ =>
      match parse_expression fuel toks pos with
      | (some arg, p) =>
        match parse_call_args_tail fuel toks p with
        | (args, q) => (arg :: args, q)
      | (none, p) =>
        match parse_call_args_tail fuel toks p with
        | (args, q) => (args, q)

def parse_call_args_tail : Nat → List Token → Nat → List Expression × Nat
  | 0, _, pos => ([], pos)
  | fuel+1, toks, pos =>
    match toks.get? pos with
    | some .Comma =>
      match parse_expression fuel toks (pos+1) with
      | (some arg, p) =>
        match parse_call_args_tail fuel toks p with
        | (args, q) => (arg :: args, q)
      | (none, p) => ([], p)
    | _ => ([], pos)

def parse_primary_expression : Nat → List Token → Nat → Option Expression × Nat
  | 0, _, pos => (none, pos)
  | fuel+1, toks, pos =>
    match toks.get? pos with
    | none => (none, pos)
    | some (.Identifier id) => (some (.Identifier id), pos+1)
    | some (.IntLit n) => (some (.Constant (.Integer n)), pos+1)
    | some (.FloatLit f) => (some (.Constant (.Float f)), pos+1)
    | some (.StringLit s) => (some (.StringLiteral s), pos+1)
    | some .ParenL =>
      match parse_expression fuel toks (pos+1) with
      | (none, p) => (none, p)
      | (some e, p) =>
        match toks.get? p with
        | some .ParenR => (some e, p+1)
        | _ => (none, p)
    | some _ => (none, pos)

end

/-! ## The statement parser (`src/parser/mod.rs`, lines 1656–1997) -/

/-- Dispatch classifier for `parse_statement`'s top-level match: one tag per
arm of the source match (the six type keywords share the declaration arm;
every other token falls to the expression-statement arm). -/
inductive StmtSel where
  | ret | ifK | forK | whileK | doK | switchK | breakK | contK | gotoK | braceL | declKw | exprK

/-- Which `parse_statement` arm a token selects. -/
def stmt_sel : Token → StmtSel
  | .Return => .ret
  | .If => .ifK
  | .For => .forK
  | .While => .whileK
  | .Do => .doK
  | .Switch => .switchK
  | .Break => .breakK
  | .Continue => .contK
  | .Goto => .gotoK
  | .BraceL => .braceL
  | .Int | .Float | .Char | .Double | .Long | .Short => .declKw
  | _ => .exprK

/-- `t == Token::Semicolon`. -/
def token_is_semicolon : Token → Bool
  | .Semicolon => true
  | _ => false

/-- `t == Token::ParenL`. -/
def token_is_parenL : Token → Bool
  | .ParenL => true
  | _ => false

/-- `t == Token::ParenR`. -/
def token_is_parenR : Token → Bool
  | .ParenR => true
  | _ => false

/-- `t == Token::BraceL`. -/
def token_is_braceL : Token → Bool
  | .BraceL => true
  | _ => false

/-- `t == Token::BraceR`. -/
def token_is_braceR : Token → Bool
  | .BraceR => true
  | _ => false

/-- `t == Token::Colon`. -/
def token_is_colon : Token → Bool
  | .Colon => true
  | _ => false

/-- `t == Token::Else`. -/
def token_is_else : Token → Bool
  | .Else => true
  | _ => false

/-- `t == Token::While`. -/
def token_is_while : Token → Bool
  | .While => true
  | _ => false

/-- `t == Token::Case`. -/
def token_is_case : Token → Bool
  | .Case => true
  | _ => false

/-- `t == Token::Default`. -/
def token_is_default : Token → Bool
  | .Default => true
  | _ => false

/-- The declaration arm of `parse_statement` after its type keyword has been
consumed: the produced node hardcodes `TypeSpecifier::Int` ("Default to int
for now") and `initializer: None`; an initializer's tokens are left in the
stream.  At the identifier position the source indexes `self.tokens`
unchecked and would panic at end of input (modelled as a failure). -/
def parse_decl_tail (toks : List Token) (pos : Nat) : Option Statement × Nat :=
  match toks.get? pos with
  | some (.Identifier id) =>
    let d : Statement := .Declaration
      { storage_class := none
        type_qualifiers := []
        type_specifier := .Int
        declarator := { name := id, pointer_depth := 0, array_sizes := [], function_params := none }
        initializer := none }
    if ((toks.get? (pos+1)).map token_is_semicolon).getD false then (some d, pos+2)
    else (some d, pos+1)
  | some _ => (none, pos)
  | none => (none, pos)

mutual

/-- `parse_statement` (the source's single match over the token at `pos` is
split into the `stmt_sel` dispatch plus one helper per statement kind; each
helper's cursor starts at the keyword token). -/
def parse_statement : Nat → List Token → Nat → Option Statement × Nat
  | 0, _, pos => (none, pos)
  | fuel+1, toks, pos =>
    match toks.get? pos with
    | none => (none, pos)
    | some t =>
      match stmt_sel t with
      | .ret => parse_return_stmt fuel toks pos
      | .ifK => parse_if_stmt fuel toks pos
      | .forK => parse_for_stmt fuel toks pos
      | .whileK => parse_while_stmt fuel toks pos
      | .doK => parse_do_stmt fuel toks pos
      | .switchK => parse_switch_stmt fuel toks pos
      | .breakK => parse_break_stmt fuel toks pos
      | .contK => parse_continue_stmt fuel toks pos
      | .gotoK => parse_goto_stmt fuel toks pos
      | .braceL => parse_block_stmt fuel toks pos
      | .declKw => parse_decl_tail toks (pos+1)
      | .exprK => parse_expr_stmt fuel toks pos

/-- The `Return` arm: an optional expression (a failed parse becomes
`Identifier("")` via `unwrap_or`), then an optional `;`. -/
def parse_return_stmt : Nat → List Token → Nat → Option Statement × Nat
  | 0, _, pos => (none, pos)
  | fuel+1, toks, pos =>
    match toks.get? (pos+1) with
    | none => (some (.Return none), pos+1)
    | some t =>
      if token_is_semicolon t then (some (.Return none), pos+2)
      else
        match parse_expression fuel toks (pos+1) with
        | (oe, p) =>
          match toks.get? p with
          | some t2 =>
            if token_is_semicolon t2 then (some (.Return (some (oe.getD (.Identifier "")))), p+1)
            else (some (.Return (some (oe.getD (.Identifier "")))), p)
          | none => (some (.Return (some (oe.getD (.Identifier "")))), p)

/-- The `If` arm: `( condition )`, then-branch, optional `else` branch. -/
def parse_if_stmt : Nat → List Token → Nat → Option Statement × Nat
  | 0, _, pos => (none, pos)
  | fuel+1, toks, pos =>
    if ((toks.get? (pos+1)).map token_is_parenL).getD false then
      match parse_expression fuel toks (pos+2) with
      | (none, p) => (none, p)
      | (some condition, p) =>
        if ((toks.get? p).map token_is_parenR).getD false then
          match parse_statement fuel toks (p+1) with
          | (none, q) => (none, q)
          | (some then_stmt, q) =>
            if ((toks.get? q).map token_is_else).getD false then
              match parse_statement fuel toks (q+1) with
              | (none, r) => (none, r)
              | (some else_stmt, r) => (some (.If condition then_stmt (some else_stmt)), r)
            else (some (.If condition then_stmt none), q)
        else (none, p)
    else (none, pos+1)

/-- The `For` arm: `(`, optional init statement, then the tail helpers. -/
def parse_for_stmt : Nat → List Token → Nat → Option Statement × Nat
  | 0, _, pos => (none, pos)
  | fuel+1, toks, pos =>
    if ((toks.get? (pos+1)).map token_is_parenL).getD false then
      match toks.get? (pos+2) with
      | none => parse_for_after_init fuel toks none (pos+2)
      | some t =>
        if token_is_semicolon t then parse_for_after_init fuel toks none (pos+2)
        else
          match parse_statement fuel toks (pos+2) with
          | (none, p) => (none, p)
          | (some i, p) => parse_for_after_init fuel toks (some i) p
    else (none, pos+1)

/-- The `for` arm after its (optional) init statement: optional condition
followed by an optional `;`. -/
def parse_for_after_init :
    Nat → List Token → Option Statement → Nat → Option Statement × Nat
  | 0, _, _, pos => (none, pos)
  | fuel+1, toks, init, pos =>
    match toks.get? pos with
    | none => parse_for_after_cond fuel toks init none pos
    | some t =>
      if token_is_semicolon t then parse_for_after_cond fuel toks init none (pos+1)
      else
        match parse_expression fuel toks pos with
        | (none, p) => (none, p)
        | (some c, p) =>
          if ((toks.get? p).map token_is_semicolon).getD false then
            parse_for_after_cond fuel toks init (some c) (p+1)
          else parse_for_after_cond fuel toks init (some c) p

/-- The `for` arm after its condition: optional update, `)`, body. -/
def parse_for_after_cond :
    Nat → List Token → Option Statement → Option Expression → Nat → Option Statement × Nat
  | 0, _, _, _, pos => (none, pos)
  | fuel+1, toks, init, cond, pos =>
    match toks.get? pos with
    | none => (none, pos)
    | some t =>
      if token_is_parenR t then
        match parse_statement fuel toks (pos+1) with
        | (none, q) => (none, q)
        | (some body, q) => (some (.For init cond none body), q)
      else
        match parse_expression fuel toks pos with
        | (none, p) => (none, p)
        | (some u, p) =>
          if ((toks.get? p).map token_is_parenR).getD false then
            match parse_statement fuel toks (p+1) with
            | (none, q) => (none, q)
            | (some body, q) => (some (.For init cond (some u) body), q)
          else (none, p)

/-- The `While` arm. -/
def parse_while_stmt : Nat → List Token → Nat → Option Statement × Nat
  | 0, _, pos => (none, pos)
  | fuel+1, toks, pos =>
    if ((toks.get? (pos+1)).map token_is_parenL).getD false then
      match parse_expression fuel toks (pos+2) with
      | (none, p) => (none, p)
      | (some condition, p) =>
        if ((toks.get? p).map token_is_parenR).getD false then
          match parse_statement fuel toks (p+1) with
          | (none, q) => (none, q)
          | (some body, q) => (some (.While condition body), q)
        else (none, p)
    else (none, pos+1)

/-- The `Do` arm: body, `while ( condition )`, optional `;`. -/
def parse_do_stmt : Nat → List Token → Nat → Option Statement × Nat
  | 0, _, pos => (none, pos)
  | fuel+1, toks, pos =>
    match parse_statement fuel toks (pos+1) with
    | (none, p) => (none, p)
    | (some body, p) =>
      if ((toks.get? p).map token_is_while).getD false then
        if ((toks.get? (p+1)).map token_is_parenL).getD false then
          match parse_expression fuel toks (p+2) with
          | (none, q) => (none, q)
          | (some condition, q) =>
            if ((toks.get? q).map token_is_parenR).getD false then
              if ((toks.get? (q+1)).map token_is_semicolon).getD false then
                (some (.DoWhile body condition), q+2)
              else (some (.DoWhile body condition), q+1)
            else (none, q)
        else (none, p+1)
      else (none, p)

/-- The `Switch` arm: `( expression ) {`, the case list, `}`. -/
def parse_switch_stmt : Nat → List Token → Nat → Option Statement × Nat
  | 0, _, pos => (none, pos)
  | fuel+1, toks, pos =>
    if ((toks.get? (pos+1)).map token_is_parenL).getD false then
      match parse_expression fuel toks (pos+2) with
      | (none, p) => (none, p)
      | (some e, p) =>
        if ((toks.get? p).map token_is_parenR).getD false then
          if ((toks.get? (p+1)).map token_is_braceL).getD false then
            match parse_switch_cases fuel toks (p+2) with
            | (none, q) => (none, q)
            | (some cases, q) =>
              if ((toks.get? q).map token_is_braceR).getD false then
                (some (.Switch e cases), q+1)
              else (none, q)
          else (none, p+1)
        else (none, p)
    else (none, pos+1)

/-- The `Break` arm: optional `;`. -/
def parse_break_stmt : Nat → List Token → Nat → Option Statement × Nat
  | 0, _, pos => (none, pos)
  | _+1, toks, pos =>
    if ((toks.get? (pos+1)).map token_is_semicolon).getD false then (some .Break, pos+2)
    else (some .Break, pos+1)

/-- The `Continue` arm: optional `;`. -/
def parse_continue_stmt : Nat → List Token → Nat → Option Statement × Nat
  | 0, _, pos => (none, pos)
  | _+1, toks, pos =>
    if ((toks.get? (pos+1)).map token_is_semicolon).getD false then (some .Continue, pos+2)
    else (some .Continue, pos+1)

/-- The `Goto` arm: label identifier, optional `;`. -/
def parse_goto_stmt : Nat → List Token → Nat → Option Statement × Nat
  | 0, _, pos => (none, pos)
  | _+1, toks, pos =>
    match toks.get? (pos+1) with
    | some (.Identifier label) =>
      if ((toks.get? (pos+2)).map token_is_semicolon).getD false then
        (some (.Goto label), pos+3)
      else (some (.Goto label), pos+2)
    | some _ => (none, pos+1)
    | none => (none, pos+1)

/-- The `{` arm: statement list, then an optional `}`. -/
def parse_block_stmt : Nat → List Token → Nat → Option Statement × Nat
  | 0, _, pos => (none, pos)
  | fuel+1, toks, pos =>
    match parse_block_stmts fuel toks (pos+1) with
    | (stmts, p) =>
      if ((toks.get? p).map token_is_braceR).getD false then (some (.Block stmts), p+1)
      else (some (.Block stmts), p)

/-- The default arm: an expression statement with an optional `;`. -/
def parse_expr_stmt : Nat → List Token → Nat → Option Statement × Nat
  | 0, _, pos => (none, pos)
  | fuel+1, toks, pos =>
    match parse_expression fuel toks pos with
    | (none, p) => (none, p)
    | (some e, p) =>
      if ((toks.get? p).map token_is_semicolon).getD false then (some (.Expression e), p+1)
      else (some (.Expression e), p)

/-- The case list of the `switch` arm (a failing case expression propagates
failure, as the source's `?` does). -/
def parse_switch_cases : Nat → List Token → Nat → Option (List Case) × Nat
  | 0, _, pos => (none, pos)
  | fuel+1, toks, pos =>
    match toks.get? pos with
    | none => (some [], pos)
    | some t =>
      if token_is_braceR t then (some [], pos)
      else if token_is_case t then
        match parse_expression fuel toks (pos+1) with
        | (none, p) => (none, p)
        | (some case_expr, p) =>
          if ((toks.get? p).map token_is_colon).getD false then
            match parse_case_stmts fuel toks (p+1) with
            | (stmts, q) =>
              match parse_switch_cases fuel toks q with
              | (none, r) => (none, r)
              | (some cases, r) => (some (.Case case_expr stmts :: cases), r)
          else parse_switch_cases fuel toks p
      else if token_is_default t then
        if ((toks.get? (pos+1)).map token_is_colon).getD false then
          match parse_case_stmts fuel toks (pos+2) with
          | (stmts, q) =>
            match parse_switch_cases fuel toks q with
            | (none, r) => (none, r)
            | (some cases, r) => (some (.Default stmts :: cases), r)
        else parse_switch_cases fuel toks (pos+1)
      else (some [], pos)

/-- The statement list of one `case`/`default` arm. -/
def parse_case_stmts : Nat → List Token → Nat → List Statement × Nat
  | 0, _, pos => ([], pos)
  | fuel+1, toks, pos =>
    match toks.get? pos with
    | none => ([], pos)
    | some t =>
      if token_is_case t || token_is_default t || token_is_braceR t then ([], pos)
      else
        match parse_statement fuel toks pos with
        | (none, p) => ([], p)
        | (some s, p) =>
          match parse_case_stmts fuel toks p with
          | (ss, q) => (s :: ss, q)

/-- The statement list of a `{ ... }` block. -/
def parse_block_stmts : Nat → List Token → Nat → List Statement × Nat
  | 0, _, pos => ([], pos)
  | fuel+1, toks, pos =>
    match toks.get? pos with
    | none => ([], pos)
    | some t =>
      if token_is_braceR t then ([], pos)
      else
        match parse_statement fuel toks pos with
        | (none, p) => ([], p)
        | (some s, p) =>
          match parse_block_stmts fuel toks p with
          | (ss, q) => (s :: ss, q)

end

/-! ## Scope resolution (`src/scope/mod.rs`)

`Rc<ScopeNode>` values are arena indices into the analyzer's `all_scopes`
vector (every scope ever created is pushed there exactly once, so an index
identifies one `Rc` allocation and `Rc::ptr_eq` is index equality).  The
`RefCell<HashMap<String,Symbol>>` becomes an association list with
insert-replaces semantics. -/

inductive ScopeError where
  | UndeclaredVariable (s : String)
  | UndefinedFunctionCalled (s : String)
  | VariableRedefinition (s : String)
  | FunctionPrototypeRedefinition (s : String)
  deriving DecidableEq

inductive SymbolKind where
  | Variable (type_spec : TypeSpecifier) (storage_class : Option StorageClass)
  | Function (return_type : String) (parameters : List Parameter) (is_defined : Bool)
  | Parameter (param_type : String)
  deriving DecidableEq

structure Symbol where
  name : String
  kind : SymbolKind
  scope_level : Nat
  deriving DecidableEq

/-- `HashMap::get` on the association-list model of the symbol map. -/
def mapGet (m : List (String × Symbol)) (k : String) : Option Symbol :=
  (m.find? (fun p => p.1 == k)).map (fun p => p.2)

/-- `HashMap::insert` (replaces an existing binding for the key). -/
def mapInsert (m : List (String × Symbol)) (k : String) (v : Symbol) :
    List (String × Symbol) :=
  if m.any (fun p => p.1 == k) then
    m.map (fun p => if p.1 == k then (k, v) else p)
  else
    m ++ [(k, v)]

structure ScopeNode where
  symbols : List (String × Symbol)
  parent : Option Nat
  scope_level : Nat
  deriving DecidableEq

/-- `ScopeNode::new(parent)`: the new node's level is the parent's level plus
one (zero for the global scope); the stored parent is the arena index. -/
def ScopeNode.new (parent : Option (Nat × ScopeNode)) : ScopeNode :=
  { symbols := []
    parent := parent.map Prod.fst
    scope_level := (parent.map (fun p => p.2.scope_level + 1)).getD 0 }

/-- `ScopeNode::lookup`: the current node's map first, then the parent chain.
In every arena reachable from `ScopeAnalyzer.new` a node's parent index is
strictly smaller than its own index (proved below as part of the scope-tree
invariants), so the `p < i` guard that makes the recursion well-founded never
fails on reachable states. -/
def scope_lookup (scopes : List ScopeNode) (i : Nat) (name : String) : Option Symbol :=
  match scopes.get? i with
  | none => none
  | some node =>
    match mapGet node.symbols name with
    | some s => some s
    | none =>
      match node.parent with
      | none => none
      | some p => if _h : p < i then scope_lookup scopes p name else none
termination_by i

/-- `ScopeNode::lookup_current_scope` at arena index `i`. -/
def lookup_current_scope (scopes : List ScopeNode) (i : Nat) (name : String) : Option Symbol :=
  (scopes.get? i).bind (fun node => mapGet node.symbols name)

/-- `ScopeNode::insert_symbol` on the node at arena index `i`. -/
def insert_symbol (scopes : List ScopeNode) (i : Nat) (name : String) (s : Symbol) :
    List ScopeNode :=
  match scopes.get? i with
  | none => scopes
  | some node => scopes.set i { node with symbols := mapInsert node.symbols name s }

structure ScopeAnalyzer where
  current_scope : Nat
  global_scope : Nat
  errors : List ScopeError
  all_scopes : List ScopeNode
  deriving DecidableEq

/-- `ScopeAnalyzer::new`: one global scope, registered in `all_scopes`. -/
def ScopeAnalyzer.new : ScopeAnalyzer :=
  { current_scope := 0
    global_scope := 0
    errors := []
    all_scopes := [ScopeNode.new none] }

/-- `ScopeAnalyzer::enter_scope`: allocate a child of the current scope, push
it on `all_scopes`, and make it current. -/
def ScopeAnalyzer.enter_scope (sa : ScopeAnalyzer) : ScopeAnalyzer :=
  match sa.all_scopes.get? sa.current_scope with
  | none => sa
  | some cur =>
    { sa with
        all_scopes := sa.all_scopes ++ [ScopeNode.new (some (sa.current_scope, cur))]
        current_scope := sa.all_scopes.length }

/-- `ScopeAnalyzer::exit_scope`: back to the parent (no-op at global scope). -/
def ScopeAnalyzer.exit_scope (sa : ScopeAnalyzer) : ScopeAnalyzer :=
  match sa.all_scopes.get? sa.current_scope with
  | none => sa
  | some cur =>
    match cur.parent with
    | some p => { sa with current_scope := p }
    | none => sa

/-- The error value `declare_symbol` builds on a redefinition: a
prototype-redefinition for function symbols, a variable-redefinition
otherwise. -/
def redefinition_error (kind : SymbolKind) (name : String) : ScopeError :=
  match kind with
  | .Function _ _ _ => .FunctionPrototypeRedefinition name
  | _ => .VariableRedefinition name

/-- `ScopeAnalyzer::declare_symbol`: a redefinition error (recorded and
returned) iff the name is already bound in the current scope; otherwise the
symbol is inserted into the current scope with that scope's level. -/
def ScopeAnalyzer.declare_symbol (sa : ScopeAnalyzer) (name : String) (kind : SymbolKind) :
    Except ScopeError Unit × ScopeAnalyzer :=
  if (lookup_current_scope sa.all_scopes sa.current_scope name).isSome then
    let error : ScopeError := redefinition_error kind name
    (.error error, { sa with errors := sa.errors ++ [error] })
  else
    let symbol : Symbol :=
      { name := name
        kind := kind
        scope_level := ((sa.all_scopes.get? sa.current_scope).map ScopeNode.scope_level).getD 0 }
    (.ok (), { sa with all_scopes := insert_symbol sa.all_scopes sa.current_scope name symbol })

/-- `ScopeAnalyzer::lookup_symbol`: chain lookup from the current scope. -/
def ScopeAnalyzer.lookup_symbol (sa : ScopeAnalyzer) (name : String) : Option Symbol :=
  scope_lookup sa.all_scopes sa.current_scope name

/-- `ScopeAnalyzer::check_variable_access`. -/
def ScopeAnalyzer.check_variable_access (sa : ScopeAnalyzer) (name : String) :
    Except ScopeError Unit × ScopeAnalyzer :=
  match sa.lookup_symbol name with
  | some _ => (.ok (), sa)
  | none =>
    let error := ScopeError.UndeclaredVariable name
    (.error error, { sa with errors := sa.errors ++ [error] })

/-- `ScopeAnalyzer::check_function_call`. -/
def ScopeAnalyzer.check_function_call (sa : ScopeAnalyzer) (name : String) :
    Except ScopeError Unit × ScopeAnalyzer :=
  match sa.lookup_symbol name with
  | some symbol =>
    match symbol.kind with
    | .Function _ _ _ => (.ok (), sa)
    | _ =>
      let error := ScopeError.UndefinedFunctionCalled name
      (.error error, { sa with errors := sa.errors ++ [error] })
  | none =>
    let error := ScopeError.UndefinedFunctionCalled name
    (.error error, { sa with errors := sa.errors ++ [error] })

mutual

/-- `ScopeAnalyzer::analyze_expression`.  The source match has no arm for
`SizeOf` (it is non-exhaustive as written); that variant is modelled as a
no-op and is never produced by this parser nor used in any theorem below. -/
def analyze_expression : ScopeAnalyzer → Expression → ScopeAnalyzer
  | sa, .Identifier name => (sa.check_variable_access name).2
  | sa, .FunctionCall name args =>
    analyze_expression_list ((sa.check_function_call name).2) args
  | sa, .BinaryOp l _ r => analyze_expression (analyze_expression sa l) r
  | sa, .UnaryOp _ e => analyze_expression sa e
  | sa, .Assignment l _ r => analyze_expression (analyze_expression sa l) r
  | sa, .Conditional c t f =>
    analyze_expression (analyze_expression (analyze_expression sa c) t) f
  | sa, .ArrayAccess a i => analyze_expression (analyze_expression sa a) i
  | sa, .MemberAccess o _ => analyze_expression sa o
  | sa, .PointerAccess p _ => analyze_expression sa p
  | sa, .PostfixOp e _ => analyze_expression sa e
  | sa, .Cast _ e => analyze_expression sa e
  | sa, .Constant _ => sa
  | sa, .StringLiteral _ => sa
  | sa, .SizeOf _ => sa

/-- The `for arg in args` loop of the `FunctionCall` arm. -/
def analyze_expression_list : ScopeAnalyzer → List Expression → ScopeAnalyzer
  | sa, [] => sa
  | sa, e :: es => analyze_expression_list (analyze_expression sa e) es

end

/-- The initializer walk of `ScopeAnalyzer::analyze_variable_declaration`:
`Assignment` initializers are analyzed; inside a `List` (or `Designated`)
initializer only direct `Assignment` elements are analyzed. -/
def analyze_initializer_kind (sa : ScopeAnalyzer) : InitializerKind → ScopeAnalyzer
  | .Assignment e => analyze_expression sa e
  | .List inits =>
    inits.foldl
      (fun sa i =>
        match i.kind with
        | .Assignment e => analyze_expression sa e
        | _ => sa) sa
  | .Designated _ i =>
    match i.kind with
    | .Assignment e => analyze_expression sa e
    | _ => sa

/-- `ScopeAnalyzer::analyze_variable_declaration`. -/
def analyze_variable_declaration (sa : ScopeAnalyzer) (v : VariableDeclaration) : ScopeAnalyzer :=
  let kind := SymbolKind.Variable v.type_specifier v.storage_class
  let sa := (sa.declare_symbol v.declarator.name kind).2
  match v.initializer with
  | some init => analyze_initializer_kind sa init.kind
  | none => sa

/-- `ScopeAnalyzer::analyze_function_declaration`. -/
def analyze_function_declaration (sa : ScopeAnalyzer) (f : FunctionDeclaration) : ScopeAnalyzer :=
  (sa.declare_symbol f.name (SymbolKind.Function f.return_type f.parameters false)).2

mutual

/-- `ScopeAnalyzer::analyze_statement`.  The source match covers only
`Declaration`, `Assignment`, `Return`, `Expression`, `Block`, `If`, `While`,
`For` and `Break` (it is non-exhaustive as written); the remaining variants
are modelled as no-ops and never used in any theorem below. -/
def analyze_statement : ScopeAnalyzer → Statement → ScopeAnalyzer
  | sa, .Declaration v => analyze_variable_declaration sa v
  | sa, .Assignment name e =>
    analyze_expression ((sa.check_variable_access name).2) e
  | sa, .Return (some e) => analyze_expression sa e
  | sa, .Return none => sa
  | sa, .Expression e => analyze_expression sa e
  | sa, .Block stmts =>
    (analyze_statement_list (sa.enter_scope) stmts).exit_scope
  | sa, .If cond t none => analyze_statement (analyze_expression sa cond) t
  | sa, .If cond t (some e) =>
    analyze_statement (analyze_statement (analyze_expression sa cond) t) e
  | sa, .While cond body => analyze_statement (analyze_expression sa cond) body
  | sa, .For init cond update body =>
    let sa := sa.enter_scope
    let sa := match init with
      | some i => analyze_statement sa i
      | none => sa
    let sa := match cond with
      | some c => analyze_expression sa c
      | none => sa
    let sa := match update with
      | some u => analyze_expression sa u
      | none => sa
    (analyze_statement sa body).exit_scope
  | sa, .Break => sa
  | sa, .DoWhile _ _ => sa
  | sa, .Switch _ _ => sa
  | sa, .Continue => sa
  | sa, .Goto _ => sa
  | sa, .Label _ _ => sa

/-- The `for stmt in statements` loop of the `Block` arm. -/
def analyze_statement_list : ScopeAnalyzer → List Statement → ScopeAnalyzer
  | sa, [] => sa
  | sa, s :: stmts => analyze_statement_list (analyze_statement sa s) stmts

end

/-- The parameter-declaration loop of `analyze_function_definition`. -/
def declare_parameters (sa : ScopeAnalyzer) (params : List Parameter) : ScopeAnalyzer :=
  params.foldl
    (fun sa param => (sa.declare_symbol param.name (SymbolKind.Parameter param.param_type)).2) sa

/-- `ScopeAnalyzer::analyze_function_definition`: declare the function symbol,
enter one scope for the parameters and the body, analyze, exit. -/
def analyze_function_definition (sa : ScopeAnalyzer) (f : FunctionDefinition) : ScopeAnalyzer :=
  let sa := (sa.declare_symbol f.name (SymbolKind.Function f.return_type f.parameters true)).2
  let sa := sa.enter_scope
  let sa := declare_parameters sa f.parameters
  let sa := analyze_statement_list sa f.body
  sa.exit_scope

/-- `ScopeAnalyzer::analyze_external_declaration`.  The source match covers
only `Variable`, `Function` and `FunctionDeclaration` (it is non-exhaustive
as written); the remaining variants are modelled as no-ops. -/
def analyze_external_declaration (sa : ScopeAnalyzer) : ExternalDeclaration → ScopeAnalyzer
  | .Variable v => analyze_variable_declaration sa v
  | .Function f => analyze_function_definition sa f
  | .FunctionDeclaration f => analyze_function_declaration sa f
  | .Printf _ => sa
  | .Struct _ => sa
  | .Union _ => sa
  | .Enum _ => sa
  | .Typedef _ => sa

/-- Rust's `str::contains(sub)` substring test: the empty pattern always
matches, and a non-empty pattern occurs iff splitting on it yields at least
two parts. -/
def str_contains (s sub : String) : Bool :=
  sub.isEmpty || (s.splitOn sub).length ≥ 2

/-- The closure of `add_builtin_functions_from_includes`'s `has_stdio`
check: an `#include` directive whose path contains `"stdio.h"`. -/
def directive_mentions_stdio : PreprocessorDirective → Bool
  | .Include header => str_contains header "stdio.h"
  | _ => false

/-- `ScopeAnalyzer::add_builtin_functions_from_includes`: if some `#include`
directive's path contains `"stdio.h"`, declare a built-in `printf`. -/
def add_builtin_functions_from_includes (sa : ScopeAnalyzer)
    (preprocessor_list : List PreprocessorDirective) : ScopeAnalyzer :=
  let has_stdio := preprocessor_list.any directive_mentions_stdio
  if has_stdio then
    (sa.declare_symbol "printf" (SymbolKind.Function "int" [] true)).2
  else
    sa

/-- `ScopeAnalyzer::analyze_translation_unit`: built-ins from includes, then
every external declaration in order; `Ok(())` iff no error was accumulated,
otherwise `Err` with the whole accumulated list. -/
def analyze_translation_unit (sa : ScopeAnalyzer) (unit : TranslationUnit) :
    Except (List ScopeError) Unit × ScopeAnalyzer :=
  let sa := add_builtin_functions_from_includes sa unit.preprocessor_list
  let sa := unit.external_declarations.foldl analyze_external_declaration sa
  if sa.errors.isEmpty then (.ok (), sa) else (.error sa.errors, sa)

/-! ## Type checking (`src/type_checker/mod.rs`)

The source's `enum Type` is named `Ty` here (`Type` is reserved in Lean).
`get_global_scope`/`get_all_scopes` are the evident field accessors of
`ScopeAnalyzer` (the checker calls them; in the arena model they are the
`global_scope` index and the `all_scopes` vector). -/

inductive TypeChkError where
  | ErroneousVarDecl
  | FnCallParamCount
  | FnCallParamType
  | ErroneousReturnType
  | ExpressionTypeMismatch
  | ExpectedBooleanExpression
  | ErroneousBreak
  | NonBooleanCondStmt
  | EmptyExpression
  | AttemptedBoolOpOnNonBools
  | AttemptedBitOpOnNonNumeric
  | AttemptedShiftOnNonInt
  | AttemptedAddOpOnNonNumeric
  | AttemptedExponentiationOfNonNumeric
  | ReturnStmtNotFound
  deriving DecidableEq

/-- The source's `enum Type`. -/
inductive Ty where
  | Int
  | Float
  | Double
  | Char
  | Short
  | Long
  | Void
  | Bool
  | String
  | Unknown
  deriving DecidableEq

structure TypeError where
  error : TypeChkError
  line : Option Nat
  context : String
  deriving DecidableEq

structure TypeChecker where
  scope_analyzer : ScopeAnalyzer
  errors : List TypeError
  current_return_type : Option Ty
  in_loop : Bool
  current_scope : Option Nat
  source_lines : List String
  deriving DecidableEq

/-- `TypeChecker::new`: starts at the resolver's global scope. -/
def TypeChecker.new (scope_analyzer : ScopeAnalyzer) (source_lines : List String) :
    TypeChecker :=
  { scope_analyzer := scope_analyzer
    errors := []
    current_return_type := none
    in_loop := false
    current_scope := some scope_analyzer.global_scope
    source_lines := source_lines }

/-- `type_specifier_to_type`.  The source match covers `Int`–`Void` and
`Signed | Unsigned` only (non-exhaustive as written: `Struct`, `Union`,
`Enum`, `Typedef` have no arm); the missing variants are modelled as
`Unknown` (the spec's reading for unmapped specifiers) and never used in any
theorem below. -/
def type_specifier_to_type : TypeSpecifier → Ty
  | .Int => .Int
  | .Float => .Float
  | .Double => .Double
  | .Char => .Char
  | .Short => .Short
  | .Long => .Long
  | .Void => .Void
  | .Signed => .Int
  | .Unsigned => .Int
  | .Struct _ => .Unknown
  | .Union _ => .Unknown
  | .Enum _ => .Unknown
  | .Typedef _ => .Unknown

/-- `string_to_type`. -/
def string_to_type (type_str : String) : Ty :=
  if type_str == "int" then .Int
  else if type_str == "float" then .Float
  else if type_str == "double" then .Double
  else if type_str == "char" then .Char
  else if type_str == "short" then .Short
  else if type_str == "long" then .Long
  else if type_str == "void" then .Void
  else .Unknown

/-- `constant_to_type`. -/
def constant_to_type : Constant → Ty
  | .Integer _ => .Int
  | .Float _ => .Float
  | .Char _ => .Char

/-- `is_numeric_type`. -/
def is_numeric_type : Ty → Bool
  | .Int | .Float | .Double | .Char | .Short | .Long => true
  | _ => false

/-- `is_integer_type`. -/
def is_integer_type : Ty → Bool
  | .Int | .Char | .Short | .Long => true
  | _ => false

/-- `are_types_compatible`: identical types; otherwise `String` only with
`String`; otherwise any two numeric types. -/
def are_types_compatible (t1 t2 : Ty) : Bool :=
  if t1 == t2 then true
  else if t1 == Ty.String || t2 == Ty.String then
    t1 == Ty.String && t2 == Ty.String
  else if is_numeric_type t1 && is_numeric_type t2 then true
  else false

/-- `wider_type`: widening order Double > Float > Long > Int > Short > Char. -/
def wider_type (t1 t2 : Ty) : Ty :=
  match t1, t2 with
  | .Double, _ | _, .Double => .Double
  | .Float, _ | _, .Float => .Float
  | .Long, _ | _, .Long => .Long
  | .Int, _ | _, .Int => .Int
  | .Short, _ | _, .Short => .Short
  | _, _ => .Char

/-- `find_line_for_context`: 1-based index of the first source line containing
the context substring; `None` for an empty context. -/
def find_line_for_context (tc : TypeChecker) (context : String) : Option Nat :=
  if context.isEmpty then none
  else (tc.source_lines.findIdx? (fun line => str_contains line context)).map (· + 1)

/-- `record_error`. -/
def record_error (tc : TypeChecker) (kind : TypeChkError) (context : String) : TypeChecker :=
  { tc with
      errors := tc.errors ++ [{ error := kind
                                line := find_line_for_context tc context
                                context := context }] }

/-- `get_variable_type`: chain lookup of a variable or parameter from the
checker's current scope. -/
def get_variable_type (tc : TypeChecker) (name : String) : Option Ty :=
  match tc.current_scope with
  | none => none
  | some scope =>
    match scope_lookup tc.scope_analyzer.all_scopes scope name with
    | some symbol =>
      match symbol.kind with
      | .Variable type_spec _ => some (type_specifier_to_type type_spec)
      | .Parameter param_type => some (string_to_type param_type)
      | _ => none
    | none => none

/-- The function-scope search of `check_function_definition`: the first scope
in creation order at level 1 whose symbol map contains every parameter name
(`Rc::ptr_eq` identity is the arena index). -/
def find_function_scope (scopes : List ScopeNode) (params : List Parameter) : Option Nat :=
  scopes.findIdx? (fun scope =>
    scope.scope_level == 1 &&
    params.all (fun param => (mapGet scope.symbols param.name).isSome))

/-- The child-scope search of the `Block` and `For` arms of `check_statement`:
the first scope in creation order one level below the current scope whose
parent is the current scope. -/
def find_child_scope (scopes : List ScopeNode) (cur : Nat) : Option Nat :=
  match scopes.get? cur with
  | none => none
  | some cnode =>
    scopes.findIdx? (fun scope =>
      scope.scope_level == cnode.scope_level + 1 && scope.parent == some cur)

mutual

/-- `check_expression`.  The source match has no arm for `SizeOf`
(non-exhaustive as written); that variant is modelled as a failure and never
used in any theorem below. -/
def check_expression : TypeChecker → Expression → Option Ty × TypeChecker
  | tc, .Identifier name => ((get_variable_type tc name).or (some .Unknown), tc)
  | tc, .Constant c => (some (constant_to_type c), tc)
  | tc, .StringLiteral _ => (some .String, tc)
  | tc, .BinaryOp l op r => check_binary_operation tc l op r
  | tc, .UnaryOp op e => check_unary_operation tc op e
  | tc, .Assignment l op r => check_assignment_operation tc l op r
  | tc, .Conditional cond t f => check_conditional_expression tc cond t f
  | tc, .FunctionCall name args => check_function_call tc name args
  | tc, .ArrayAccess arr idx => check_array_access tc arr idx
  | tc, .MemberAccess obj _ => check_expression tc obj
  | tc, .PointerAccess ptr _ => check_expression tc ptr
  | tc, .PostfixOp e _ => check_expression tc e
  | tc, .Cast target_type e =>
    match check_expression tc e with
    | (some _, tc) => (some (type_specifier_to_type target_type), tc)
    | (none, tc) => (none, tc)
  | tc, .SizeOf _ => (none, tc)
termination_by tc e => 3 * sizeOf e

/-- `check_binary_operation`. -/
def check_binary_operation (tc : TypeChecker) (l : Expression) (op : BinaryOperator)
    (r : Expression) : Option Ty × TypeChecker :=
  match check_expression tc l with
  | (none, tc) => (none, tc)
  | (some left_type, tc) =>
    match check_expression tc r with
    | (none, tc) => (none, tc)
    | (some right_type, tc) =>
      match op with
      | .Plus | .Minus | .Mult | .Div =>
        if !is_numeric_type left_type || !is_numeric_type right_type then
          (some .Unknown, record_error tc .AttemptedAddOpOnNonNumeric "+")
        else
          (some (wider_type left_type right_type), tc)
      | .Mod =>
        if !is_integer_type left_type || !is_integer_type right_type then
          (some .Unknown, record_error tc .AttemptedAddOpOnNonNumeric "%")
        else
          (some left_type, tc)
      | .Less | .LessEq | .Greater | .GreaterEq =>
        if !is_numeric_type left_type || !is_numeric_type right_type then
          (some .Unknown, record_error tc .ExpressionTypeMismatch "comparison")
        else
          (some .Bool, tc)
      | .Equals | .NotEquals =>
        if !are_types_compatible left_type right_type then
          (some .Unknown, record_error tc .ExpressionTypeMismatch "==")
        else
          (some .Bool, tc)
      | .And | .Or =>
        if left_type != Ty.Bool || right_type != Ty.Bool then
          (some .Unknown, record_error tc .AttemptedBoolOpOnNonBools "&&")
        else
          (some .Bool, tc)
      | .BitAnd | .BitOr | .Xor =>
        if !is_integer_type left_type || !is_integer_type right_type then
          (some .Unknown, record_error tc .AttemptedBitOpOnNonNumeric "&")
        else
          (some left_type, tc)
      | .LShift | .RShift =>
        if !is_integer_type left_type || !is_integer_type right_type then
          (some .Unknown, record_error tc .AttemptedShiftOnNonInt "<<")
        else
          (some left_type, tc)
termination_by 3 * (sizeOf l + sizeOf r) + 2

/-- `check_unary_operation`. -/
def check_unary_operation (tc : TypeChecker) (op : UnaryOperator) (e : Expression) :
    Option Ty × TypeChecker :=
  match check_expression tc e with
  | (none, tc) => (none, tc)
  | (some expr_type, tc) =>
    match op with
    | .Plus | .Minus =>
      if !is_numeric_type expr_type then
        (some .Unknown, record_error tc .AttemptedAddOpOnNonNumeric "unary +/-")
      else
        (some expr_type, tc)
    | .Not =>
      if expr_type != Ty.Bool then
        (some .Unknown, record_error tc .AttemptedBoolOpOnNonBools "!")
      else
        (some .Bool, tc)
    | .BitNot =>
      if !is_integer_type expr_type then
        (some .Unknown, record_error tc .AttemptedBitOpOnNonNumeric "~")
      else
        (some expr_type, tc)
    | .AddressOf | .Dereference => (some expr_type, tc)
    | .PreIncrement | .PreDecrement =>
      if !is_numeric_type expr_type then
        (some .Unknown, record_error tc .AttemptedAddOpOnNonNumeric "++/--")
      else
        (some expr_type, tc)
termination_by 3 * sizeOf e + 2

/-- `check_assignment_operation`. -/
def check_assignment_operation (tc : TypeChecker) (l : Expression) (op : AssignmentOperator)
    (r : Expression) : Option Ty × TypeChecker :=
  match check_expression tc l with
  | (none, tc) => (none, tc)
  | (some left_type, tc) =>
    match check_expression tc r with
    | (none, tc) => (none, tc)
    | (some right_type, tc) =>
      match op with
      | .Assign =>
        if !are_types_compatible left_type right_type then
          (some .Unknown, record_error tc .ExpressionTypeMismatch "=")
        else
          (some left_type, tc)
      | .PlusAssign | .MinusAssign | .MultAssign | .DivAssign =>
        if !is_numeric_type left_type || !is_numeric_type right_type then
          (some .Unknown, record_error tc .AttemptedAddOpOnNonNumeric "+= etc")
        else
          (some left_type, tc)
      | .ModAssign =>
        if !is_integer_type left_type || !is_integer_type right_type then
          (some .Unknown, record_error tc .AttemptedAddOpOnNonNumeric "%=")
        else
          (some left_type, tc)
      | .LShiftAssign | .RShiftAssign =>
        if !is_integer_type left_type || !is_integer_type right_type then
          (some .Unknown, record_error tc .AttemptedShiftOnNonInt "<<=")
        else
          (some left_type, tc)
      | .AndAssign | .OrAssign | .XorAssign =>
        if !is_integer_type left_type || !is_integer_type right_type then
          (some .Unknown, record_error tc .AttemptedBitOpOnNonNumeric "&= etc")
        else
          (some left_type, tc)
termination_by 3 * (sizeOf l + sizeOf r) + 2

/-- `check_conditional_expression`. -/
def check_conditional_expression (tc : TypeChecker) (condition t f : Expression) :
    Option Ty × TypeChecker :=
  match check_expression tc condition with
  | (none, tc) => (some .Unknown, tc)
  | (some cond_type, tc) =>
    let tc := if cond_type != Ty.Bool then record_error tc .ExpectedBooleanExpression "?:" else tc
    match check_expression tc t with
    | (none, tc) => (some .Unknown, tc)
    | (some true_type, tc) =>
      match check_expression tc f with
      | (none, tc) => (some .Unknown, tc)
      | (some false_type, tc) =>
        if !are_types_compatible true_type false_type then
          (some .Unknown, record_error tc .ExpressionTypeMismatch "?:")
        else
          (some true_type, tc)
termination_by 3 * (sizeOf condition + sizeOf t + sizeOf f) + 2

/-- `check_function_call`: functions are looked up in the global scope; the
count error once on an arity mismatch, then each argument of the overlapping
prefix, then the declared return type. -/
def check_function_call (tc : TypeChecker) (name : String) (args : List Expression) :
    Option Ty × TypeChecker :=
  match scope_lookup tc.scope_analyzer.all_scopes tc.scope_analyzer.global_scope name with
  | some symbol =>
    match symbol.kind with
    | .Function return_type parameters _ =>
      let tc := if args.length != parameters.length then
          record_error tc .FnCallParamCount name
        else tc
      let tc := check_call_args tc name args parameters
      (some (string_to_type return_type), tc)
    | _ => (none, tc)
  | none => (none, tc)
termination_by 3 * sizeOf args + 2

/-- The `for i in 0..min_len` loop of `check_function_call`: pairs of the
overlapping prefix of arguments and declared parameters. -/
def check_call_args (tc : TypeChecker) (name : String) :
    List Expression → List Parameter → TypeChecker
  | [], _ => tc
  | _ :: _, [] => tc
  | arg :: args, param :: params =>
    let tc :=
      match check_expression tc arg with
      | (some arg_type, tc) =>
        let param_type := string_to_type param.param_type
        if arg_type != Ty.Unknown && !are_types_compatible param_type arg_type then
          record_error tc .FnCallParamType name
        else tc
      | (none, tc) => tc
    check_call_args tc name args params
termination_by args _ => 3 * sizeOf args + 1

/-- `check_array_access`: integer index, then the array sub-expression. -/
def check_array_access (tc : TypeChecker) (arr idx : Expression) :
    Option Ty × TypeChecker :=
  match check_expression tc idx with
  | (none, tc) => (some .Unknown, tc)
  | (some index_type, tc) =>
    let tc := if !is_integer_type index_type then
        record_error tc .ExpressionTypeMismatch "[]"
      else tc
    check_expression tc arr
termination_by 3 * (sizeOf arr + sizeOf idx) + 2

end

mutual

/-- `check_initializer`.  Note the source's `List` arm checks every element
and then checks the first element a second time to produce its type. -/
def check_initializer : TypeChecker → Initializer → Option Ty × TypeChecker
  | tc, .mk (.Assignment e) => check_expression tc e
  | tc, .mk (.List inits) =>
    let tc := check_initializer_list tc inits
    match inits with
    | [] => (none, tc)
    | first :: _ => check_initializer tc first
  | tc, .mk (.Designated _ i) => check_initializer tc i

/-- The `for init in initializers` loop of the `List` arm. -/
def check_initializer_list : TypeChecker → List Initializer → TypeChecker
  | tc, [] => tc
  | tc, i :: is => check_initializer_list (check_initializer tc i).2 is

end

/-- `check_variable_declaration`: an `ErroneousVarDecl` for an `Unknown`
declared type, and an `ExpressionTypeMismatch` for an initializer whose known
type is incompatible with the declared type. -/
def check_variable_declaration (tc : TypeChecker) (v : VariableDeclaration) : TypeChecker :=
  let var_type := type_specifier_to_type v.type_specifier
  let tc := if var_type == Ty.Unknown then
      record_error tc .ErroneousVarDecl v.declarator.name
    else tc
  match v.initializer with
  | some init =>
    match check_initializer tc init with
    | (some init_type, tc) =>
      if init_type != Ty.Unknown && !are_types_compatible var_type init_type then
        record_error tc .ExpressionTypeMismatch v.declarator.name
      else tc
    | (none, tc) => tc
  | none => tc

/-- The scope-entry step shared by the `Block` and `For` arms of
`check_statement`: move to the first child scope of the current scope, when
both exist. -/
def enter_child_scope (tc : TypeChecker) : TypeChecker :=
  match tc.current_scope with
  | some cur =>
    match find_child_scope tc.scope_analyzer.all_scopes cur with
    | some child => { tc with current_scope := some child }
    | none => tc
  | none => tc

/-- The condition step shared by the `If`, `While` and `For` arms of
`check_statement`: the condition's type, when known, must be `Bool`,
otherwise a `NonBooleanCondStmt` is recorded. -/
def check_cond_is_bool (tc : TypeChecker) (condition : Expression) (ctx : String) :
    TypeChecker :=
  match check_expression tc condition with
  | (some cond_type, tc) =>
    if cond_type != Ty.Bool then record_error tc .NonBooleanCondStmt ctx else tc
  | (none, tc) => tc

mutual

/-- `check_statement`: returns whether the statement "is a return statement"
(the source's `bool` result) together with the updated checker.  The source
match covers only `Declaration`, `Assignment`, `Return`, `Expression`,
`Block`, `If`, `While`, `For` and `Break` (non-exhaustive as written); the
remaining variants are modelled as no-ops returning `false`. -/
def check_statement : TypeChecker → Statement → Bool × TypeChecker
  | tc, .Declaration v => (false, check_variable_declaration tc v)
  | tc, .Assignment var_name e =>
    (false,
      match get_variable_type tc var_name with
      | some var_type =>
        match check_expression tc e with
        | (some expr_type, tc) =>
          if expr_type != Ty.Unknown && !are_types_compatible var_type expr_type then
            record_error tc .ExpressionTypeMismatch var_name
          else tc
        | (none, tc) => tc
      | none => tc)
  | tc, .Return expr_opt =>
    (true,
      match tc.current_return_type with
      | some ret_type =>
        if ret_type == Ty.Void then
          match expr_opt with
          | some _ => record_error tc .ErroneousReturnType "return"
          | none => tc
        else
          match expr_opt with
          | some e =>
            match check_expression tc e with
            | (some expr_type, tc) =>
              if expr_type != Ty.Unknown && !are_types_compatible ret_type expr_type then
                record_error tc .ErroneousReturnType "return"
              else tc
            | (none, tc) => tc
          | none => record_error tc .ErroneousReturnType "return"
      | none => tc)
  | tc, .Expression e => (false, (check_expression tc e).2)
  | tc, .Block statements =>
    let saved_scope := tc.current_scope
    let tc := enter_child_scope tc
    let (has_return, tc) := check_statements tc statements
    (has_return, { tc with current_scope := saved_scope })
  | tc, .If condition t e =>
    let tc := check_cond_is_bool tc condition "if"
    let (then_returns, tc) := check_statement tc t
    let (else_returns, tc) :=
      match e with
      | some else_stmt => check_statement tc else_stmt
      | none => (false, tc)
    (then_returns && else_returns, tc)
  | tc, .While condition body =>
    let tc := check_cond_is_bool tc condition "while"
    let saved_in_loop := tc.in_loop
    let tc := { tc with in_loop := true }
    let (_, tc) := check_statement tc body
    (false, { tc with in_loop := saved_in_loop })
  | tc, .For init condition update body =>
    let saved_scope := tc.current_scope
    let tc := enter_child_scope tc
    let tc :=
      match init with
      | some init_stmt => (check_statement tc init_stmt).2
      | none => tc
    let tc :=
      match condition with
      | some cond => check_cond_is_bool tc cond "for"
      | none => tc
    let tc :=
      match update with
      | some update_expr => (check_expression tc update_expr).2
      | none => tc
    let saved_in_loop := tc.in_loop
    let tc := { tc with in_loop := true }
    let (_, tc) := check_statement tc body
    let tc := { tc with in_loop := saved_in_loop }
    (false, { tc with current_scope := saved_scope })
  | tc, .Break =>
    (false, if !tc.in_loop then record_error tc .ErroneousBreak "break" else tc)
  | tc, .DoWhile _ _ => (false, tc)
  | tc, .Switch _ _ => (false, tc)
  | tc, .Continue => (false, tc)
  | tc, .Goto _ => (false, tc)
  | tc, .Label _ _ => (false, tc)

/-- The `has_return` accumulation loop over a statement list (used by the
`Block` arm and by `check_function_definition`). -/
def check_statements : TypeChecker → List Statement → Bool × TypeChecker
  | tc, [] => (false, tc)
  | tc, s :: rest =>
    let (r, tc) := check_statement tc s
    let (rs, tc) := check_statements tc rest
    (r || rs, tc)

end

/-- `check_function_definition`: set the return type, re-derive the function
scope (level 1, contains all parameter names), check the body collecting
`has_return`, report `ReturnStmtNotFound` for a non-void function whose body
scan found no return, restore the saved cursors. -/
def check_function_definition (tc : TypeChecker) (f : FunctionDefinition) : TypeChecker :=
  let tc := { tc with current_return_type := some (string_to_type f.return_type) }
  let function_scope := find_function_scope tc.scope_analyzer.all_scopes f.parameters
  let saved_scope := tc.current_scope
  let tc :=
    match function_scope with
    | some idx => { tc with current_scope := some idx }
    | none => tc
  let saved_in_loop := tc.in_loop
  let tc := { tc with in_loop := false }
  let (has_return, tc) := check_statements tc f.body
  let tc :=
    match tc.current_return_type with
    | some ret_type =>
      if ret_type != Ty.Void && !has_return then record_error tc .ReturnStmtNotFound f.name
      else tc
    | none => tc
  { tc with in_loop := saved_in_loop, current_return_type := none, current_scope := saved_scope }

/-- `check_external_declaration`.  The source match covers only `Variable`,
`Function` and `FunctionDeclaration` (non-exhaustive as written); the
remaining variants are modelled as no-ops. -/
def check_external_declaration (tc : TypeChecker) : ExternalDeclaration → TypeChecker
  | .Variable v => check_variable_declaration tc v
  | .Function f => check_function_definition tc f
  | .FunctionDeclaration _ => tc
  | .Printf _ => tc
  | .Struct _ => tc
  | .Union _ => tc
  | .Enum _ => tc
  | .Typedef _ => tc

/-- `check_translation_unit`: every external declaration in order; `Ok(())`
iff no error was accumulated, otherwise `Err` with the whole list. -/
def check_translation_unit (tc : TypeChecker) (unit : TranslationUnit) :
    Except (List TypeError) Unit × TypeChecker :=
  let tc := unit.external_declarations.foldl check_external_declaration tc
  if tc.errors.isEmpty then (.ok (), tc) else (.error tc.errors, tc)

/-! ## Claim theorems: parser -/

/-- C1: for every token stream of the form literal `+` literal `*` literal
(integer literals as in `1 + 2 * 3`, and likewise float literals), the
expression parser groups multiplication tighter than addition: the result is
`BinaryOp(a, Plus, BinaryOp(b, Mult, c))`, never the reverse grouping.  The
`fuel + 100` argument is the recursion-depth budget of the embedding; depth
100 is ample for these five-token streams, so the result holds for every
sufficiently large fuel. -/
theorem parse_precedence_mult_over_plus :
    (∀ (fuel : Nat) (a b c : Int),
      parse_expression (fuel+100) [.IntLit a, .Plus, .IntLit b, .Mult, .IntLit c] 0
        = (some (.BinaryOp (.Constant (.Integer a)) .Plus
            (.BinaryOp (.Constant (.Integer b)) .Mult (.Constant (.Integer c)))), 5))
    ∧ (∀ (fuel : Nat) (x y z : Float),
      parse_expression (fuel+100) [.FloatLit x, .Plus, .FloatLit y, .Mult, .FloatLit z] 0
        = (some (.BinaryOp (.Constant (.Float x)) .Plus
            (.BinaryOp (.Constant (.Float y)) .Mult (.Constant (.Float z)))), 5)) := by
  constructor <;> intro fuel a b c <;>
    simp [parse_expression, parse_assignment_expression, parse_conditional_expression,
      parse_logical_or_expression, parse_logical_or_loop, parse_logical_and_expression,
      parse_logical_and_loop, parse_bitwise_or_expression, parse_bitwise_or_loop,
      parse_bitwise_xor_expression, parse_bitwise_xor_loop, parse_bitwise_and_expression,
      parse_bitwise_and_loop, parse_equality_expression, parse_equality_loop,
      parse_relational_expression, parse_relational_loop, parse_shift_expression,
      parse_shift_loop, parse_additive_expression, parse_additive_loop,
      parse_multiplicative_expression, parse_multiplicative_loop, parse_unary_expression,
      parse_postfix_expression, parse_postfix_loop, parse_call_args, parse_call_args_tail,
      parse_primary_expression]

/-- C9: assignment parses right-associatively: for identifiers `a = b = c`
the parser returns `Assignment(a, Assign, Assignment(b, Assign, c))`, the
right operand of the outer assignment being the inner assignment. -/
theorem parse_assignment_right_assoc (fuel : Nat) (a b c : String) :
    parse_expression (fuel+100)
        [.Identifier a, .AssignOp, .Identifier b, .AssignOp, .Identifier c] 0
      = (some (.Assignment (.Identifier a) .Assign
          (.Assignment (.Identifier b) .Assign (.Identifier c))), 5) := by
  simp [parse_expression, parse_assignment_expression, parse_conditional_expression,
    parse_logical_or_expression, parse_logical_or_loop, parse_logical_and_expression,
    parse_logical_and_loop, parse_bitwise_or_expression, parse_bitwise_or_loop,
    parse_bitwise_xor_expression, parse_bitwise_xor_loop, parse_bitwise_and_expression,
    parse_bitwise_and_loop, parse_equality_expression, parse_equality_loop,
    parse_relational_expression, parse_relational_loop, parse_shift_expression,
    parse_shift_loop, parse_additive_expression, parse_additive_loop,
    parse_multiplicative_expression, parse_multiplicative_loop, parse_unary_expression,
    parse_postfix_expression, parse_postfix_loop, parse_call_args, parse_call_args_tail,
    parse_primary_expression]

/-- C10: every in-body declaration statement (type keyword followed by an
identifier) parses to a `Statement::Declaration` whose `type_specifier` is
`TypeSpecifier::Int` regardless of which of the six type keywords appeared,
and whose `initializer` is `None`, whatever tokens follow. -/
theorem parse_statement_declaration_always_int_no_initializer
    (kw : Token)
    (hkw : kw = Token.Int ∨ kw = Token.Float ∨ kw = Token.Char ∨ kw = Token.Double ∨
      kw = Token.Long ∨ kw = Token.Short)
    (x : String) (rest : List Token) (fuel : Nat) :
    (parse_statement (fuel+1) (kw :: .Identifier x :: rest) 0).1
      = some (.Declaration
          { storage_class := none
            type_qualifiers := []
            type_specifier := .Int
            declarator :=
              { name := x, pointer_depth := 0, array_sizes := [], function_params := none }
            initializer := none }) := by
  rcases hkw with rfl | rfl | rfl | rfl | rfl | rfl <;>
    simp [parse_statement, stmt_sel, parse_decl_tail, apply_ite]

/-- Witness for C10 at the tokens of `float y = 1;`: the declared node still
carries `TypeSpecifier::Int` and no initializer. -/
theorem parse_statement_declaration_always_int_no_initializer_witness :
    (Token.Float = Token.Int ∨ Token.Float = Token.Float ∨ Token.Float = Token.Char ∨
      Token.Float = Token.Double ∨ Token.Float = Token.Long ∨ Token.Float = Token.Short)
    ∧ (parse_statement 1
          [Token.Float, .Identifier "y", .AssignOp, .IntLit 1, .Semicolon] 0).1
        = some (.Declaration
            { storage_class := none
              type_qualifiers := []
              type_specifier := .Int
              declarator :=
                { name := "y", pointer_depth := 0, array_sizes := [], function_params := none }
              initializer := none }) :=
  ⟨Or.inr (Or.inl rfl),
    parse_statement_declaration_always_int_no_initializer Token.Float
      (Or.inr (Or.inl rfl)) "y" [.AssignOp, .IntLit 1, .Semicolon] 0⟩

/-! ## Claim theorems: type compatibility (C2) -/

/-- The spec's compatibility relation, stated in its words: "identical types
are compatible; any two of {Int, Float, Double, Char, Short, Long} are
mutually compatible; `String` is compatible only with `String`; all else
incompatible" (the `String` clause is the equality case of the first
disjunct). -/
def spec_compatible (t1 t2 : Ty) : Bool :=
  t1 == t2 ||
    ((t1 == Ty.Int || t1 == Ty.Float || t1 == Ty.Double || t1 == Ty.Char ||
        t1 == Ty.Short || t1 == Ty.Long) &&
     (t2 == Ty.Int || t2 == Ty.Float || t2 == Ty.Double || t2 == Ty.Char ||
        t2 == Ty.Short || t2 == Ty.Long))

/-- The declaration `int x = 3.5;` as the checker receives it. -/
def int_x_float_decl : VariableDeclaration :=
  { storage_class := none
    type_qualifiers := []
    type_specifier := .Int
    declarator := { name := "x", pointer_depth := 0, array_sizes := [], function_params := none }
    initializer := some (.mk (.Assignment (.Constant (.Float 3.5)))) }

/-- The declaration `int x = "hi";` as the checker receives it. -/
def int_x_string_decl : VariableDeclaration :=
  { storage_class := none
    type_qualifiers := []
    type_specifier := .Int
    declarator := { name := "x", pointer_depth := 0, array_sizes := [], function_params := none }
    initializer := some (.mk (.Assignment (.StringLiteral "hi"))) }

/-- C2: the checker's `are_types_compatible` coincides with the spec's
relation on every pair of types; consequently `int x = 3.5;` produces no
type error while `int x = "hi";` produces exactly one
`ExpressionTypeMismatch` error. -/
theorem are_types_compatible_matches_spec :
    (∀ t1 t2 : Ty, are_types_compatible t1 t2 = spec_compatible t1 t2)
    ∧ (check_variable_declaration (TypeChecker.new ScopeAnalyzer.new []) int_x_float_decl).errors
        = []
    ∧ (check_variable_declaration (TypeChecker.new ScopeAnalyzer.new []) int_x_string_decl).errors
        = [{ error := .ExpressionTypeMismatch, line := none, context := "x" }] := by
  refine ⟨fun t1 t2 => by cases t1 <;> cases t2 <;> rfl, ?_, ?_⟩ <;>
    simp [check_variable_declaration, int_x_float_decl, int_x_string_decl, TypeChecker.new,
      ScopeAnalyzer.new, check_initializer, check_expression, constant_to_type,
      type_specifier_to_type, are_types_compatible, is_numeric_type, record_error,
      find_line_for_context]

/-! ## Claim theorems: declaration and shadowing (C3) -/

/-- C3: `declare_symbol` returns the redefinition error exactly when the name
is already bound in the current scope; when it is not (in particular when it
is bound only in an enclosing scope), the declaration succeeds and a chain
lookup from the current scope afterwards returns the freshly declared (inner)
binding, carrying the current scope's level. -/
theorem declare_symbol_redefinition_iff_shadowing_ok
    (sa : ScopeAnalyzer) (name : String) (kind : SymbolKind) :
    ((sa.declare_symbol name kind).1 = .error (redefinition_error kind name)
      ↔ (lookup_current_scope sa.all_scopes sa.current_scope name).isSome)
    ∧ (lookup_current_scope sa.all_scopes sa.current_scope name = none →
        (sa.declare_symbol name kind).1 = .ok ()
        ∧ ∀ node, sa.all_scopes.get? sa.current_scope = some node →
            scope_lookup (sa.declare_symbol name kind).2.all_scopes
                (sa.declare_symbol name kind).2.current_scope name
              = some { name := name, kind := kind, scope_level := node.scope_level }) := by
  constructor
  · by_cases h : (lookup_current_scope sa.all_scopes sa.current_scope name).isSome <;>
      simp [ScopeAnalyzer.declare_symbol, h]
  · intro habs
    have h : ¬ (lookup_current_scope sa.all_scopes sa.current_scope name).isSome = true := by
      simp [habs]
    refine ⟨by simp [ScopeAnalyzer.declare_symbol, h], ?_⟩
    intro node hnode
    have habs2 : mapGet node.symbols name = none := by
      rw [lookup_current_scope, hnode] at habs
      simpa using habs
    have hfind : node.symbols.find? (fun p => p.1 == name) = none := by
      simpa [mapGet] using habs2
    have hany : node.symbols.any (fun p => p.1 == name) = false := by
      rw [List.any_eq_false]
      intro x hx
      have := List.find?_eq_none.mp hfind x hx
      simpa using this
    have hlt : sa.current_scope < sa.all_scopes.length := by
      rw [List.get?_eq_getElem?] at hnode
      exact (List.getElem?_eq_some_iff.mp hnode).1
    simp only [ScopeAnalyzer.declare_symbol, h, ite_false, if_neg, not_false_iff]
    rw [scope_lookup]
    simp only [insert_symbol, hnode]
    simp [List.get?_eq_getElem?, List.getElem?_set, hlt, mapInsert, hany, mapGet,
      List.find?_append, hfind, hnode]

/-- State for the C3 witness: `x` declared in the global scope, then a nested
scope entered. -/
def c3_outer : ScopeAnalyzer := (ScopeAnalyzer.new.declare_symbol "x" (.Variable .Int none)).2

def c3_inner : ScopeAnalyzer := c3_outer.enter_scope

theorem declare_symbol_redefinition_iff_shadowing_ok_witness :
    lookup_current_scope c3_inner.all_scopes c3_inner.current_scope "x" = none
    ∧ (c3_inner.declare_symbol "x" (.Variable .Float none)).1 = .ok ()
    ∧ scope_lookup (c3_inner.declare_symbol "x" (.Variable .Float none)).2.all_scopes
        (c3_inner.declare_symbol "x" (.Variable .Float none)).2.current_scope "x"
      = some { name := "x", kind := .Variable .Float none, scope_level := 1 } := by
  have h := (declare_symbol_redefinition_iff_shadowing_ok c3_inner "x"
      (.Variable .Float none)).2 (by decide)
  exact ⟨by decide, h.1, h.2 { symbols := [], parent := some 0, scope_level := 1 } (by decide)⟩

/-! ## The body scan behind `has_return` -/

mutual

/-- The pure value of `check_statement`'s boolean result (proved below): a
`Return` counts; a `Block` counts if any member counts; an `If` counts if
both branches count; everything else does not. -/
def has_return_scan : Statement → Bool
  | .Return _ => true
  | .Block stmts => has_return_scan_list stmts
  | .If _ t e =>
    has_return_scan t
      && (match e with
          | some else_stmt => has_return_scan else_stmt
          | none => false)
  | _ => false

/-- `has_return_scan` over a statement list: whether any member counts. -/
def has_return_scan_list : List Statement → Bool
  | [] => false
  | s :: rest => has_return_scan s || has_return_scan_list rest

end

/-! ## Error-frame lemmas

Errors recorded before a traversal step sit in front of the errors the step
records, and do not change the step's behaviour otherwise: both semantic
passes only ever append to their error vector and never read it during the
traversal.  These lemmas drive the accumulate-do-not-abort claims below. -/

/-! Error-frame lemmas for the scope resolver: errors recorded before a
traversal step sit in front of the errors the step records, and do not
change its behaviour otherwise. -/

theorem declare_symbol_errors_frame (E : List ScopeError) (sa : ScopeAnalyzer)
    (name : String) (kind : SymbolKind) :
    ScopeAnalyzer.declare_symbol { sa with errors := E ++ sa.errors } name kind
      = ((sa.declare_symbol name kind).1,
          { (sa.declare_symbol name kind).2 with
              errors := E ++ (sa.declare_symbol name kind).2.errors }) := by
  by_cases h : (lookup_current_scope sa.all_scopes sa.current_scope name).isSome <;>
    simp [ScopeAnalyzer.declare_symbol, h]

theorem check_variable_access_errors_frame (E : List ScopeError) (sa : ScopeAnalyzer)
    (name : String) :
    ScopeAnalyzer.check_variable_access { sa with errors := E ++ sa.errors } name
      = ((sa.check_variable_access name).1,
          { (sa.check_variable_access name).2 with
              errors := E ++ (sa.check_variable_access name).2.errors }) := by
  cases h : sa.lookup_symbol name <;>
    simp [ScopeAnalyzer.check_variable_access, ScopeAnalyzer.lookup_symbol] at h ⊢ <;>
    simp [h]

theorem check_function_call_scope_errors_frame (E : List ScopeError) (sa : ScopeAnalyzer)
    (name : String) :
    ScopeAnalyzer.check_function_call { sa with errors := E ++ sa.errors } name
      = ((sa.check_function_call name).1,
          { (sa.check_function_call name).2 with
              errors := E ++ (sa.check_function_call name).2.errors }) := by
  cases h : sa.lookup_symbol name with
  | none =>
    simp [ScopeAnalyzer.check_function_call, ScopeAnalyzer.lookup_symbol] at h ⊢
    simp [h]
  | some symbol =>
    simp [ScopeAnalyzer.check_function_call, ScopeAnalyzer.lookup_symbol] at h ⊢
    cases hk : symbol.kind <;> simp [h, hk]



mutual

theorem analyze_expression_errors_frame (E : List ScopeError) (sa : ScopeAnalyzer)
    (e : Expression) :
    analyze_expression { sa with errors := E ++ sa.errors } e
      = { analyze_expression sa e with errors := E ++ (analyze_expression sa e).errors } := by
  cases e with
  | Identifier name => simp [analyze_expression, check_variable_access_errors_frame]
  | Constant c => simp [analyze_expression]
  | StringLiteral s => simp [analyze_expression]
  | BinaryOp l op r =>
    have ih1 := analyze_expression_errors_frame E sa l
    have ih2 := analyze_expression_errors_frame E (analyze_expression sa l) r
    simp [analyze_expression, ih1, ih2]
  | UnaryOp op e1 =>
    have ih1 := analyze_expression_errors_frame E sa e1
    simp [analyze_expression, ih1]
  | Assignment l op r =>
    have ih1 := analyze_expression_errors_frame E sa l
    have ih2 := analyze_expression_errors_frame E (analyze_expression sa l) r
    simp [analyze_expression, ih1, ih2]
  | Conditional c t f =>
    have ih1 := analyze_expression_errors_frame E sa c
    have ih2 := analyze_expression_errors_frame E (analyze_expression sa c) t
    have ih3 := analyze_expression_errors_frame E
      (analyze_expression (analyze_expression sa c) t) f
    simp [analyze_expression, ih1, ih2, ih3]
  | FunctionCall name args =>
    have h := check_function_call_scope_errors_frame E sa name
    have ih := analyze_expression_list_errors_frame E ((sa.check_function_call name).2) args
    simp [analyze_expression, h, ih]
  | ArrayAccess a i =>
    have ih1 := analyze_expression_errors_frame E sa a
    have ih2 := analyze_expression_errors_frame E (analyze_expression sa a) i
    simp [analyze_expression, ih1, ih2]
  | MemberAccess o m =>
    have ih1 := analyze_expression_errors_frame E sa o
    simp [analyze_expression, ih1]
  | PointerAccess p m =>
    have ih1 := analyze_expression_errors_frame E sa p
    simp [analyze_expression, ih1]
  | PostfixOp e1 op =>
    have ih1 := analyze_expression_errors_frame E sa e1
    simp [analyze_expression, ih1]
  | SizeOf t => simp [analyze_expression]
  | Cast t e1 =>
    have ih1 := analyze_expression_errors_frame E sa e1
    simp [analyze_expression, ih1]
termination_by sizeOf e

theorem analyze_expression_list_errors_frame (E : List ScopeError) (sa : ScopeAnalyzer)
    (es : List Expression) :
    analyze_expression_list { sa with errors := E ++ sa.errors } es
      = { analyze_expression_list sa es with
          errors := E ++ (analyze_expression_list sa es).errors } := by
  cases es with
  | nil => simp [analyze_expression_list]
  | cons e es' =>
    have ih1 := analyze_expression_errors_frame E sa e
    have ih2 := analyze_expression_list_errors_frame E (analyze_expression sa e) es'
    simp [analyze_expression_list, ih1, ih2]
termination_by sizeOf es

end



theorem enter_scope_errors_frame (E : List ScopeError) (sa : ScopeAnalyzer) :
    ScopeAnalyzer.enter_scope { sa with errors := E ++ sa.errors }
      = { sa.enter_scope with errors := E ++ sa.enter_scope.errors } := by
  cases h : sa.all_scopes[sa.current_scope]? <;>
    simp [ScopeAnalyzer.enter_scope, List.get?_eq_getElem?, h]

theorem exit_scope_errors_frame (E : List ScopeError) (sa : ScopeAnalyzer) :
    ScopeAnalyzer.exit_scope { sa with errors := E ++ sa.errors }
      = { sa.exit_scope with errors := E ++ sa.exit_scope.errors } := by
  cases h : sa.all_scopes[sa.current_scope]? with
  | none => simp [ScopeAnalyzer.exit_scope, List.get?_eq_getElem?, h]
  | some node =>
    cases hp : node.parent <;>
      simp [ScopeAnalyzer.exit_scope, List.get?_eq_getElem?, h, hp]

theorem analyze_initializer_kind_errors_frame (E : List ScopeError) (sa : ScopeAnalyzer)
    (k : InitializerKind) :
    analyze_initializer_kind { sa with errors := E ++ sa.errors } k
      = { analyze_initializer_kind sa k with
          errors := E ++ (analyze_initializer_kind sa k).errors } := by
  cases k with
  | Assignment e => simp [analyze_initializer_kind, analyze_expression_errors_frame]
  | List inits =>
    simp only [analyze_initializer_kind]
    induction inits generalizing sa with
    | nil => simp
    | cons i is ih =>
      cases i with
      | mk ik =>
        cases ik with
        | Assignment e =>
          simp only [List.foldl_cons, Initializer.kind]
          rw [analyze_expression_errors_frame]
          exact ih (analyze_expression sa e)
        | List l => simpa using ih sa
        | Designated d i2 => simpa using ih sa
  | Designated d i =>
    cases i with
    | mk ik => cases ik <;> simp [analyze_initializer_kind, analyze_expression_errors_frame,
        Initializer.kind]

theorem analyze_variable_declaration_errors_frame (E : List ScopeError) (sa : ScopeAnalyzer)
    (v : VariableDeclaration) :
    analyze_variable_declaration { sa with errors := E ++ sa.errors } v
      = { analyze_variable_declaration sa v with
          errors := E ++ (analyze_variable_declaration sa v).errors } := by
  cases hv : v.initializer with
  | none => simp [analyze_variable_declaration, hv, declare_symbol_errors_frame]
  | some init =>
    simp [analyze_variable_declaration, hv, declare_symbol_errors_frame,
      analyze_initializer_kind_errors_frame]

theorem analyze_function_declaration_errors_frame (E : List ScopeError) (sa : ScopeAnalyzer)
    (f : FunctionDeclaration) :
    analyze_function_declaration { sa with errors := E ++ sa.errors } f
      = { analyze_function_declaration sa f with
          errors := E ++ (analyze_function_declaration sa f).errors } := by
  simp [analyze_function_declaration, declare_symbol_errors_frame]

theorem declare_parameters_errors_frame (E : List ScopeError) (sa : ScopeAnalyzer)
    (params : List Parameter) :
    declare_parameters { sa with errors := E ++ sa.errors } params
      = { declare_parameters sa params with
          errors := E ++ (declare_parameters sa params).errors } := by
  simp only [declare_parameters]
  induction params generalizing sa with
  | nil => simp
  | cons p ps ih =>
    simp only [List.foldl_cons]
    rw [show (ScopeAnalyzer.declare_symbol { sa with errors := E ++ sa.errors } p.name
        (SymbolKind.Parameter p.param_type)).2
      = { (sa.declare_symbol p.name (SymbolKind.Parameter p.param_type)).2 with
          errors := E ++ (sa.declare_symbol p.name (SymbolKind.Parameter p.param_type)).2.errors }
      from by rw [declare_symbol_errors_frame]]
    exact ih (sa.declare_symbol p.name (SymbolKind.Parameter p.param_type)).2



mutual

theorem analyze_statement_errors_frame (E : List ScopeError) (sa : ScopeAnalyzer)
    (s : Statement) :
    analyze_statement { sa with errors := E ++ sa.errors } s
      = { analyze_statement sa s with errors := E ++ (analyze_statement sa s).errors } := by
  cases s with
  | Declaration v => simp [analyze_statement, analyze_variable_declaration_errors_frame]
  | Assignment name e =>
    have h := check_variable_access_errors_frame E sa name
    have ih := analyze_expression_errors_frame E ((sa.check_variable_access name).2) e
    simp [analyze_statement, h, ih]
  | Return oe =>
    cases oe with
    | none => simp [analyze_statement]
    | some e => simp [analyze_statement, analyze_expression_errors_frame]
  | Expression e => simp [analyze_statement, analyze_expression_errors_frame]
  | Block stmts =>
    have h := enter_scope_errors_frame E sa
    have ih := analyze_statement_list_errors_frame E sa.enter_scope stmts
    have h2 := exit_scope_errors_frame E (analyze_statement_list sa.enter_scope stmts)
    simp [analyze_statement, h, ih, h2]
  | If cond t e =>
    cases e with
    | none =>
      have ih0 := analyze_expression_errors_frame E sa cond
      have ih1 := analyze_statement_errors_frame E (analyze_expression sa cond) t
      simp [analyze_statement, ih0, ih1]
    | some es =>
      have ih0 := analyze_expression_errors_frame E sa cond
      have ih1 := analyze_statement_errors_frame E (analyze_expression sa cond) t
      have ih2 := analyze_statement_errors_frame E
        (analyze_statement (analyze_expression sa cond) t) es
      simp [analyze_statement, ih0, ih1, ih2]
  | While cond body =>
    have ih0 := analyze_expression_errors_frame E sa cond
    have ih1 := analyze_statement_errors_frame E (analyze_expression sa cond) body
    simp [analyze_statement, ih0, ih1]
  | For init cond update body =>
    have h := enter_scope_errors_frame E sa
    cases init with
    | none =>
      cases cond with
      | none =>
        cases update with
        | none =>
          have ih3 := analyze_statement_errors_frame E sa.enter_scope body
          have h2 := exit_scope_errors_frame E (analyze_statement sa.enter_scope body)
          simp [analyze_statement, h, ih3, h2]
        | some u =>
          have ih2 := analyze_expression_errors_frame E sa.enter_scope u
          have ih3 := analyze_statement_errors_frame E
            (analyze_expression sa.enter_scope u) body
          have h2 := exit_scope_errors_frame E
            (analyze_statement (analyze_expression sa.enter_scope u) body)
          simp [analyze_statement, h, ih2, ih3, h2]
      | some c =>
        cases update with
        | none =>
          have ih1 := analyze_expression_errors_frame E sa.enter_scope c
          have ih3 := analyze_statement_errors_frame E
            (analyze_expression sa.enter_scope c) body
          have h2 := exit_scope_errors_frame E
            (analyze_statement (analyze_expression sa.enter_scope c) body)
          simp [analyze_statement, h, ih1, ih3, h2]
        | some u =>
          have ih1 := analyze_expression_errors_frame E sa.enter_scope c
          have ih2 := analyze_expression_errors_frame E
            (analyze_expression sa.enter_scope c) u
          have ih3 := analyze_statement_errors_frame E
            (analyze_expression (analyze_expression sa.enter_scope c) u) body
          have h2 := exit_scope_errors_frame E
            (analyze_statement (analyze_expression (analyze_expression sa.enter_scope c) u) body)
          simp [analyze_statement, h, ih1, ih2, ih3, h2]
    | some i =>
      cases cond with
      | none =>
        cases update with
        | none =>
          have ihi := analyze_statement_errors_frame E sa.enter_scope i
          have ih3 := analyze_statement_errors_frame E
            (analyze_statement sa.enter_scope i) body
          have h2 := exit_scope_errors_frame E
            (analyze_statement (analyze_statement sa.enter_scope i) body)
          simp [analyze_statement, h, ihi, ih3, h2]
        | some u =>
          have ihi := analyze_statement_errors_frame E sa.enter_scope i
          have ih2 := analyze_expression_errors_frame E (analyze_statement sa.enter_scope i) u
          have ih3 := analyze_statement_errors_frame E
            (analyze_expression (analyze_statement sa.enter_scope i) u) body
          have h2 := exit_scope_errors_frame E
            (analyze_statement (analyze_expression (analyze_statement sa.enter_scope i) u) body)
          simp [analyze_statement, h, ihi, ih2, ih3, h2]
      | some c =>
        cases update with
        | none =>
          have ihi := analyze_statement_errors_frame E sa.enter_scope i
          have ih1 := analyze_expression_errors_frame E (analyze_statement sa.enter_scope i) c
          have ih3 := analyze_statement_errors_frame E
            (analyze_expression (analyze_statement sa.enter_scope i) c) body
          have h2 := exit_scope_errors_frame E
            (analyze_statement (analyze_expression (analyze_statement sa.enter_scope i) c) body)
          simp [analyze_statement, h, ihi, ih1, ih3, h2]
        | some u =>
          have ihi := analyze_statement_errors_frame E sa.enter_scope i
          have ih1 := analyze_expression_errors_frame E (analyze_statement sa.enter_scope i) c
          have ih2 := analyze_expression_errors_frame E
            (analyze_expression (analyze_statement sa.enter_scope i) c) u
          have ih3 := analyze_statement_errors_frame E
            (analyze_expression (analyze_expression (analyze_statement sa.enter_scope i) c) u)
            body
          have h2 := exit_scope_errors_frame E
            (analyze_statement
              (analyze_expression (analyze_expression (analyze_statement sa.enter_scope i) c) u)
              body)
          simp [analyze_statement, h, ihi, ih1, ih2, ih3, h2]
  | Break => simp [analyze_statement]
  | DoWhile body cond => simp [analyze_statement]
  | Switch e cases_ => simp [analyze_statement]
  | Continue => simp [analyze_statement]
  | Goto l => simp [analyze_statement]
  | Label l s1 => simp [analyze_statement]
termination_by sizeOf s

theorem analyze_statement_list_errors_frame (E : List ScopeError) (sa : ScopeAnalyzer)
    (stmts : List Statement) :
    analyze_statement_list { sa with errors := E ++ sa.errors } stmts
      = { analyze_statement_list sa stmts with
          errors := E ++ (analyze_statement_list sa stmts).errors } := by
  cases stmts with
  | nil => simp [analyze_statement_list]
  | cons s rest =>
    have ih1 := analyze_statement_errors_frame E sa s
    have ih2 := analyze_statement_list_errors_frame E (analyze_statement sa s) rest
    simp [analyze_statement_list, ih1, ih2]
termination_by sizeOf stmts

end

theorem analyze_function_definition_errors_frame (E : List ScopeError) (sa : ScopeAnalyzer)
    (f : FunctionDefinition) :
    analyze_function_definition { sa with errors := E ++ sa.errors } f
      = { analyze_function_definition sa f with
          errors := E ++ (analyze_function_definition sa f).errors } := by
  simp [analyze_function_definition, declare_symbol_errors_frame, enter_scope_errors_frame,
    declare_parameters_errors_frame, analyze_statement_list_errors_frame,
    exit_scope_errors_frame]

theorem analyze_external_declaration_errors_frame (E : List ScopeError) (sa : ScopeAnalyzer)
    (d : ExternalDeclaration) :
    analyze_external_declaration { sa with errors := E ++ sa.errors } d
      = { analyze_external_declaration sa d with
          errors := E ++ (analyze_external_declaration sa d).errors } := by
  cases d <;> simp [analyze_external_declaration, analyze_variable_declaration_errors_frame,
    analyze_function_definition_errors_frame, analyze_function_declaration_errors_frame]



theorem add_builtins_errors_frame (E : List ScopeError) (sa : ScopeAnalyzer)
    (pl : List PreprocessorDirective) :
    add_builtin_functions_from_includes { sa with errors := E ++ sa.errors } pl
      = { add_builtin_functions_from_includes sa pl with
          errors := E ++ (add_builtin_functions_from_includes sa pl).errors } := by
  by_cases h : ∃ x ∈ pl, directive_mentions_stdio x = true <;>
    simp [add_builtin_functions_from_includes, h, declare_symbol_errors_frame]

theorem analyze_decls_fold_errors_frame (E : List ScopeError) (sa : ScopeAnalyzer)
    (ds : List ExternalDeclaration) :
    ds.foldl analyze_external_declaration { sa with errors := E ++ sa.errors }
      = { ds.foldl analyze_external_declaration sa with
          errors := E ++ (ds.foldl analyze_external_declaration sa).errors } := by
  induction ds generalizing sa with
  | nil => simp
  | cons d ds ih =>
    simp only [List.foldl_cons]
    rw [analyze_external_declaration_errors_frame]
    exact ih (analyze_external_declaration sa d)

theorem analyze_translation_unit_state (sa : ScopeAnalyzer) (tu : TranslationUnit) :
    (analyze_translation_unit sa tu).2
      = tu.external_declarations.foldl analyze_external_declaration
          (add_builtin_functions_from_includes sa tu.preprocessor_list) := by
  simp only [analyze_translation_unit]
  by_cases h : (tu.external_declarations.foldl analyze_external_declaration
      (add_builtin_functions_from_includes sa tu.preprocessor_list)).errors.isEmpty <;>
    simp [h]

theorem analyze_translation_unit_errors_frame (E : List ScopeError) (sa : ScopeAnalyzer)
    (tu : TranslationUnit) :
    (analyze_translation_unit { sa with errors := E ++ sa.errors } tu).2
      = { (analyze_translation_unit sa tu).2 with
          errors := E ++ (analyze_translation_unit sa tu).2.errors } := by
  rw [analyze_translation_unit_state, analyze_translation_unit_state,
    add_builtins_errors_frame, analyze_decls_fold_errors_frame]

theorem analyze_translation_unit_errors_prefix (sa : ScopeAnalyzer) (tu : TranslationUnit) :
    sa.errors <+: (analyze_translation_unit sa tu).2.errors := by
  have h := analyze_translation_unit_errors_frame sa.errors { sa with errors := [] } tu
  simp only [List.append_nil] at h
  refine ⟨(analyze_translation_unit { sa with errors := [] } tu).2.errors, ?_⟩
  conv_rhs => rw [show analyze_translation_unit sa tu
    = analyze_translation_unit { sa with errors := sa.errors } tu from rfl, h]

theorem analyze_translation_unit_ok_iff (sa : ScopeAnalyzer) (tu : TranslationUnit) :
    ((analyze_translation_unit sa tu).1 = .ok ()
      ↔ (analyze_translation_unit sa tu).2.errors = [])
    ∧ ∀ es, (analyze_translation_unit sa tu).1 = .error es →
        es = (analyze_translation_unit sa tu).2.errors ∧ es ≠ [] := by
  simp only [analyze_translation_unit]
  by_cases h : (tu.external_declarations.foldl analyze_external_declaration
      (add_builtin_functions_from_includes sa tu.preprocessor_list)).errors.isEmpty
  · simp [h, List.isEmpty_iff.mp h]
  · simp [h]
    simpa [List.isEmpty_iff] using h



theorem record_error_errors_frame (E : List TypeError) (tc : TypeChecker)
    (k : TypeChkError) (c : String) :
    record_error { tc with errors := E ++ tc.errors } k c
      = { record_error tc k c with errors := E ++ (record_error tc k c).errors } := by
  simp [record_error, find_line_for_context]

theorem get_variable_type_errors_invariant (E : List TypeError) (tc : TypeChecker)
    (name : String) :
    get_variable_type { tc with errors := E ++ tc.errors } name = get_variable_type tc name :=
  rfl

/-- `record_error_errors_frame` with the state fields spelled out, so that it
applies also after a field of the state has been rewritten in a goal. -/
theorem record_error_errors_frame_mk (E : List TypeError) (sa : ScopeAnalyzer)
    (errs : List TypeError) (crt : Option Ty) (il : Bool) (cs : Option Nat)
    (sl : List String) (k : TypeChkError) (c : String) :
    record_error ⟨sa, E ++ errs, crt, il, cs, sl⟩ k c
      = { record_error ⟨sa, errs, crt, il, cs, sl⟩ k c with
          errors := E ++ (record_error ⟨sa, errs, crt, il, cs, sl⟩ k c).errors } :=
  record_error_errors_frame E ⟨sa, errs, crt, il, cs, sl⟩ k c



mutual

theorem check_expression_errors_frame (E : List TypeError) (tc : TypeChecker)
    (e : Expression) :
    check_expression { tc with errors := E ++ tc.errors } e
      = ((check_expression tc e).1,
          { (check_expression tc e).2 with errors := E ++ (check_expression tc e).2.errors }) := by
  cases e with
  | Identifier name => simp [check_expression, get_variable_type]
  | Constant c => simp [check_expression]
  | StringLiteral s => simp [check_expression]
  | BinaryOp l op r =>
    have ih := check_binary_operation_errors_frame E tc l op r
    simp [check_expression, ih]
  | UnaryOp op e1 =>
    have ih := check_unary_operation_errors_frame E tc op e1
    simp [check_expression, ih]
  | Assignment l op r =>
    have ih := check_assignment_operation_errors_frame E tc l op r
    simp [check_expression, ih]
  | Conditional c t f =>
    have ih := check_conditional_expression_errors_frame E tc c t f
    simp [check_expression, ih]
  | FunctionCall name args =>
    have ih := check_function_call_errors_frame E tc name args
    simp [check_expression, ih]
  | ArrayAccess a i =>
    have ih := check_array_access_errors_frame E tc a i
    simp [check_expression, ih]
  | MemberAccess o m =>
    have ih := check_expression_errors_frame E tc o
    simp [check_expression, ih]
  | PointerAccess p m =>
    have ih := check_expression_errors_frame E tc p
    simp [check_expression, ih]
  | PostfixOp e1 op =>
    have ih := check_expression_errors_frame E tc e1
    simp [check_expression, ih]
  | SizeOf t => simp [check_expression]
  | Cast t e1 =>
    have ih := check_expression_errors_frame E tc e1
    cases h : check_expression tc e1 with
    | mk v1 tc1 => cases v1 <;> simp [check_expression, ih, h]
termination_by 3 * sizeOf e

theorem check_binary_operation_errors_frame (E : List TypeError) (tc : TypeChecker)
    (l : Expression) (op : BinaryOperator) (r : Expression) :
    check_binary_operation { tc with errors := E ++ tc.errors } l op r
      = ((check_binary_operation tc l op r).1,
          { (check_binary_operation tc l op r).2 with
              errors := E ++ (check_binary_operation tc l op r).2.errors }) := by
  have ih1 := check_expression_errors_frame E tc l
  cases h1 : check_expression tc l with
  | mk v1 tc1 =>
    cases v1 with
    | none => simp [check_binary_operation, ih1, h1]
    | some left_type =>
      have ih2 := check_expression_errors_frame E tc1 r
      cases h2 : check_expression tc1 r with
      | mk v2 tc2 =>
        cases v2 with
        | none => simp [check_binary_operation, ih1, h1, ih2, h2]
        | some right_type =>
          cases op <;>
            simp only [check_binary_operation, ih1, h1, ih2, h2] <;>
            split_ifs <;>
            simp [record_error_errors_frame]
termination_by 3 * (sizeOf l + sizeOf r) + 2

theorem check_unary_operation_errors_frame (E : List TypeError) (tc : TypeChecker)
    (op : UnaryOperator) (e : Expression) :
    check_unary_operation { tc with errors := E ++ tc.errors } op e
      = ((check_unary_operation tc op e).1,
          { (check_unary_operation tc op e).2 with
              errors := E ++ (check_unary_operation tc op e).2.errors }) := by
  have ih1 := check_expression_errors_frame E tc e
  cases h1 : check_expression tc e with
  | mk v1 tc1 =>
    cases v1 with
    | none => simp [check_unary_operation, ih1, h1]
    | some expr_type =>
      cases op <;>
        simp only [check_unary_operation, ih1, h1] <;>
        split_ifs <;>
        simp [record_error_errors_frame]
termination_by 3 * sizeOf e + 2

theorem check_assignment_operation_errors_frame (E : List TypeError) (tc : TypeChecker)
    (l : Expression) (op : AssignmentOperator) (r : Expression) :
    check_assignment_operation { tc with errors := E ++ tc.errors } l op r
      = ((check_assignment_operation tc l op r).1,
          { (check_assignment_operation tc l op r).2 with
              errors := E ++ (check_assignment_operation tc l op r).2.errors }) := by
  have ih1 := check_expression_errors_frame E tc l
  cases h1 : check_expression tc l with
  | mk v1 tc1 =>
    cases v1 with
    | none => simp [check_assignment_operation, ih1, h1]
    | some left_type =>
      have ih2 := check_expression_errors_frame E tc1 r
      cases h2 : check_expression tc1 r with
      | mk v2 tc2 =>
        cases v2 with
        | none => simp [check_assignment_operation, ih1, h1, ih2, h2]
        | some right_type =>
          cases op <;>
            simp only [check_assignment_operation, ih1, h1, ih2, h2] <;>
            split_ifs <;>
            simp [record_error_errors_frame]
termination_by 3 * (sizeOf l + sizeOf r) + 2

theorem check_conditional_expression_errors_frame (E : List TypeError) (tc : TypeChecker)
    (c t f : Expression) :
    check_conditional_expression { tc with errors := E ++ tc.errors } c t f
      = ((check_conditional_expression tc c t f).1,
          { (check_conditional_expression tc c t f).2 with
              errors := E ++ (check_conditional_expression tc c t f).2.errors }) := by
  have ih1 := check_expression_errors_frame E tc c
  cases h1 : check_expression tc c with
  | mk v1 tc1 =>
    cases v1 with
    | none => simp [check_conditional_expression, ih1, h1]
    | some cond_type =>
      by_cases hb : cond_type != Ty.Bool
      · have hrec := record_error_errors_frame E tc1 .ExpectedBooleanExpression "?:"
        have ih2 := check_expression_errors_frame E
          (record_error tc1 .ExpectedBooleanExpression "?:") t
        cases h2 : check_expression (record_error tc1 .ExpectedBooleanExpression "?:") t with
        | mk v2 tc2 =>
          cases v2 with
          | none => simp [check_conditional_expression, ih1, h1, hb, hrec, ih2, h2]
          | some true_type =>
            have ih3 := check_expression_errors_frame E tc2 f
            cases h3 : check_expression tc2 f with
            | mk v3 tc3 =>
              cases v3 with
              | none => simp [check_conditional_expression, ih1, h1, hb, hrec, ih2, h2, ih3, h3]
              | some false_type =>
                by_cases hcomp : are_types_compatible true_type false_type <;>
                  simp [check_conditional_expression, ih1, h1, hb, hrec, ih2, h2, ih3, h3,
                    hcomp, record_error_errors_frame]
      · have ih2 := check_expression_errors_frame E tc1 t
        cases h2 : check_expression tc1 t with
        | mk v2 tc2 =>
          cases v2 with
          | none => simp [check_conditional_expression, ih1, h1, hb, ih2, h2]
          | some true_type =>
            have ih3 := check_expression_errors_frame E tc2 f
            cases h3 : check_expression tc2 f with
            | mk v3 tc3 =>
              cases v3 with
              | none => simp [check_conditional_expression, ih1, h1, hb, ih2, h2, ih3, h3]
              | some false_type =>
                by_cases hcomp : are_types_compatible true_type false_type <;>
                  simp [check_conditional_expression, ih1, h1, hb, ih2, h2, ih3, h3,
                    hcomp, record_error_errors_frame]
termination_by 3 * (sizeOf c + sizeOf t + sizeOf f) + 2

theorem check_function_call_errors_frame (E : List TypeError) (tc : TypeChecker)
    (name : String) (args : List Expression) :
    check_function_call { tc with errors := E ++ tc.errors } name args
      = ((check_function_call tc name args).1,
          { (check_function_call tc name args).2 with
              errors := E ++ (check_function_call tc name args).2.errors }) := by
  cases h : scope_lookup tc.scope_analyzer.all_scopes tc.scope_analyzer.global_scope name with
  | none => simp [check_function_call, h]
  | some symbol =>
    cases hk : symbol.kind with
    | Function return_type parameters is_defined =>
      by_cases hlen : args.length != parameters.length
      · have hrec := record_error_errors_frame E tc .FnCallParamCount name
        have ih := check_call_args_errors_frame E (record_error tc .FnCallParamCount name)
          name args parameters
        simp [check_function_call, h, hk, hlen, hrec, ih]
      · have ih := check_call_args_errors_frame E tc name args parameters
        simp [check_function_call, h, hk, hlen, ih]
    | Variable ts sc => simp [check_function_call, h, hk]
    | Parameter pt => simp [check_function_call, h, hk]
termination_by 3 * sizeOf args + 2

theorem check_call_args_errors_frame (E : List TypeError) (tc : TypeChecker)
    (name : String) (args : List Expression) (params : List Parameter) :
    check_call_args { tc with errors := E ++ tc.errors } name args params
      = { check_call_args tc name args params with
          errors := E ++ (check_call_args tc name args params).errors } := by
  cases args with
  | nil => simp [check_call_args]
  | cons arg rest =>
    cases params with
    | nil => simp [check_call_args]
    | cons param prest =>
      have ih1 := check_expression_errors_frame E tc arg
      cases h1 : check_expression tc arg with
      | mk v1 tc1 =>
        cases v1 with
        | none =>
          have ih2 := check_call_args_errors_frame E tc1 name rest prest
          simp [check_call_args, ih1, h1, ih2]
        | some arg_type =>
          by_cases hc : arg_type != Ty.Unknown
              && !are_types_compatible (string_to_type param.param_type) arg_type
          · have hrec := record_error_errors_frame E tc1 .FnCallParamType name
            have ih2 := check_call_args_errors_frame E
              (record_error tc1 .FnCallParamType name) name rest prest
            simp [check_call_args, ih1, h1, hc, hrec, ih2]
          · have ih2 := check_call_args_errors_frame E tc1 name rest prest
            simp [check_call_args, ih1, h1, hc, ih2]
termination_by 3 * sizeOf args + 1

theorem check_array_access_errors_frame (E : List TypeError) (tc : TypeChecker)
    (arr idx : Expression) :
    check_array_access { tc with errors := E ++ tc.errors } arr idx
      = ((check_array_access tc arr idx).1,
          { (check_array_access tc arr idx).2 with
              errors := E ++ (check_array_access tc arr idx).2.errors }) := by
  have ih1 := check_expression_errors_frame E tc idx
  cases h1 : check_expression tc idx with
  | mk v1 tc1 =>
    cases v1 with
    | none => simp [check_array_access, ih1, h1]
    | some index_type =>
      by_cases hi : !is_integer_type index_type
      · have hrec := record_error_errors_frame E tc1 .ExpressionTypeMismatch "[]"
        have ih2 := check_expression_errors_frame E
          (record_error tc1 .ExpressionTypeMismatch "[]") arr
        simp [check_array_access, ih1, h1, hi, hrec, ih2]
      · have ih2 := check_expression_errors_frame E tc1 arr
        simp [check_array_access, ih1, h1, hi, ih2]
termination_by 3 * (sizeOf arr + sizeOf idx) + 2

end

/-- `check_expression_errors_frame` with the state fields spelled out. -/
theorem check_expression_errors_frame_mk (E : List TypeError) (sa : ScopeAnalyzer)
    (errs : List TypeError) (crt : Option Ty) (il : Bool) (cs : Option Nat)
    (sl : List String) (e : Expression) :
    check_expression ⟨sa, E ++ errs, crt, il, cs, sl⟩ e
      = ((check_expression ⟨sa, errs, crt, il, cs, sl⟩ e).1,
          { (check_expression ⟨sa, errs, crt, il, cs, sl⟩ e).2 with
              errors := E ++ (check_expression ⟨sa, errs, crt, il, cs, sl⟩ e).2.errors }) :=
  check_expression_errors_frame E ⟨sa, errs, crt, il, cs, sl⟩ e



mutual

theorem check_initializer_errors_frame (E : List TypeError) (tc : TypeChecker)
    (i : Initializer) :
    check_initializer { tc with errors := E ++ tc.errors } i
      = ((check_initializer tc i).1,
          { (check_initializer tc i).2 with
              errors := E ++ (check_initializer tc i).2.errors }) := by
  cases i with
  | mk k =>
    cases k with
    | Assignment e =>
      have ih := check_expression_errors_frame E tc e
      simp [check_initializer, ih]
    | List inits =>
      have ihl := check_initializer_list_errors_frame E tc inits
      cases inits with
      | nil => simp [check_initializer, ihl]
      | cons first rest =>
        have ih2 := check_initializer_errors_frame E
          (check_initializer_list tc (first :: rest)) first
        simp [check_initializer, ihl, ih2]
    | Designated d i2 =>
      have ih := check_initializer_errors_frame E tc i2
      simp [check_initializer, ih]

theorem check_initializer_list_errors_frame (E : List TypeError) (tc : TypeChecker)
    (l : List Initializer) :
    check_initializer_list { tc with errors := E ++ tc.errors } l
      = { check_initializer_list tc l with
          errors := E ++ (check_initializer_list tc l).errors } := by
  cases l with
  | nil => simp [check_initializer_list]
  | cons i rest =>
    have ih1 := check_initializer_errors_frame E tc i
    have ih2 := check_initializer_list_errors_frame E (check_initializer tc i).2 rest
    simp [check_initializer_list, ih1, ih2]

end

theorem check_variable_declaration_errors_frame (E : List TypeError) (tc : TypeChecker)
    (v : VariableDeclaration) :
    check_variable_declaration { tc with errors := E ++ tc.errors } v
      = { check_variable_declaration tc v with
          errors := E ++ (check_variable_declaration tc v).errors } := by
  by_cases ht : type_specifier_to_type v.type_specifier == Ty.Unknown
  all_goals
    cases hv : v.initializer with
    | none => simp [check_variable_declaration, hv, ht, record_error_errors_frame]
    | some init =>
      first
      | (have hrec := record_error_errors_frame E tc .ErroneousVarDecl v.declarator.name
         have ih := check_initializer_errors_frame E
           (record_error tc .ErroneousVarDecl v.declarator.name) init
         cases h1 : check_initializer (record_error tc .ErroneousVarDecl v.declarator.name)
             init with
         | mk v1 tc1 =>
           cases v1 with
           | none => simp [check_variable_declaration, hv, ht, hrec, ih, h1]
           | some init_type =>
             by_cases hc : init_type != Ty.Unknown
                 && !are_types_compatible (type_specifier_to_type v.type_specifier) init_type <;>
               simp [check_variable_declaration, hv, ht, hrec, ih, h1, hc,
                 record_error_errors_frame])
      | (have ih := check_initializer_errors_frame E tc init
         cases h1 : check_initializer tc init with
         | mk v1 tc1 =>
           cases v1 with
           | none => simp [check_variable_declaration, hv, ht, ih, h1]
           | some init_type =>
             by_cases hc : init_type != Ty.Unknown
                 && !are_types_compatible (type_specifier_to_type v.type_specifier) init_type <;>
               simp [check_variable_declaration, hv, ht, ih, h1, hc,
                 record_error_errors_frame])



theorem enter_child_scope_errors_frame (E : List TypeError) (tc : TypeChecker) :
    enter_child_scope { tc with errors := E ++ tc.errors }
      = { enter_child_scope tc with errors := E ++ (enter_child_scope tc).errors } := by
  cases hcur : tc.current_scope with
  | none => simp [enter_child_scope, hcur]
  | some cur =>
    cases hfind : find_child_scope tc.scope_analyzer.all_scopes cur <;>
      simp [enter_child_scope, hcur, hfind]

theorem check_cond_is_bool_errors_frame (E : List TypeError) (tc : TypeChecker)
    (condition : Expression) (ctx : String) :
    check_cond_is_bool { tc with errors := E ++ tc.errors } condition ctx
      = { check_cond_is_bool tc condition ctx with
          errors := E ++ (check_cond_is_bool tc condition ctx).errors } := by
  have ih := check_expression_errors_frame E tc condition
  cases h1 : check_expression tc condition with
  | mk v1 tc1 =>
    cases v1 with
    | none => simp [check_cond_is_bool, ih, h1]
    | some cond_type =>
      by_cases hb : cond_type != Ty.Bool <;>
        simp [check_cond_is_bool, ih, h1, hb, record_error_errors_frame]

mutual

theorem check_statement_errors_frame (E : List TypeError) (tc : TypeChecker)
    (s : Statement) :
    check_statement { tc with errors := E ++ tc.errors } s
      = ((check_statement tc s).1,
          { (check_statement tc s).2 with
              errors := E ++ (check_statement tc s).2.errors }) := by
  cases s with
  | Declaration v => simp [check_statement, check_variable_declaration_errors_frame]
  | Assignment var_name e =>
    cases hv : get_variable_type tc var_name with
    | none => simp [check_statement, get_variable_type_errors_invariant, hv]
    | some var_type =>
      have ih := check_expression_errors_frame E tc e
      cases h1 : check_expression tc e with
      | mk v1 tc1 =>
        cases v1 with
        | none => simp [check_statement, get_variable_type_errors_invariant, hv, ih, h1]
        | some expr_type =>
          by_cases hc : expr_type != Ty.Unknown && !are_types_compatible var_type expr_type <;>
            simp [check_statement, get_variable_type_errors_invariant, hv, ih, h1, hc,
              record_error_errors_frame]
  | Return oe =>
    obtain ⟨sa0, errs0, crt0, il0, cs0, sl0⟩ := tc
    cases crt0 with
    | none => simp [check_statement]
    | some ret_type =>
      by_cases hv : ret_type == Ty.Void
      · cases oe <;> simp [check_statement, hv, record_error_errors_frame_mk]
      · cases oe with
        | none => simp [check_statement, hv, record_error_errors_frame_mk]
        | some e =>
          have ih := check_expression_errors_frame_mk E sa0 errs0 (some ret_type) il0 cs0 sl0 e
          cases h1 : check_expression ⟨sa0, errs0, some ret_type, il0, cs0, sl0⟩ e with
          | mk v1 tc1 =>
            cases v1 with
            | none => simp [check_statement, hv, ih, h1]
            | some expr_type =>
              by_cases hc : expr_type != Ty.Unknown
                  && !are_types_compatible ret_type expr_type <;>
                simp [check_statement, hv, ih, h1, hc, record_error_errors_frame]
  | Expression e =>
    have ih := check_expression_errors_frame E tc e
    cases h1 : check_expression tc e with
    | mk v1 tc1 => simp [check_statement, ih, h1]
  | Block statements =>
    have h := enter_child_scope_errors_frame E tc
    have ih := check_statements_errors_frame E (enter_child_scope tc) statements
    cases h1 : check_statements (enter_child_scope tc) statements with
    | mk b tc1 => simp [check_statement, h, ih, h1]
  | If condition t e =>
    have h := check_cond_is_bool_errors_frame E tc condition "if"
    have ih1 := check_statement_errors_frame E (check_cond_is_bool tc condition "if") t
    cases h1 : check_statement (check_cond_is_bool tc condition "if") t with
    | mk b1 tc1 =>
      cases e with
      | none => simp [check_statement, h, ih1, h1]
      | some else_stmt =>
        have ih2 := check_statement_errors_frame E tc1 else_stmt
        cases h2 : check_statement tc1 else_stmt with
        | mk b2 tc2 => simp [check_statement, h, ih1, h1, ih2, h2]
  | While condition body =>
    have h := check_cond_is_bool_errors_frame E tc condition "while"
    have ih := check_statement_errors_frame E
      { check_cond_is_bool tc condition "while" with in_loop := true } body
    cases h1 : check_statement
        { check_cond_is_bool tc condition "while" with in_loop := true } body with
    | mk b1 tc1 => simp [check_statement, h, ih, h1]
  | For init condition update body =>
    have h := enter_child_scope_errors_frame E tc
    cases init with
    | some init_stmt =>
      have ihi := check_statement_errors_frame E (enter_child_scope tc) init_stmt
      cases hi : check_statement (enter_child_scope tc) init_stmt with
      | mk bi tci =>
        cases condition with
        | some cond =>
          have hc := check_cond_is_bool_errors_frame E tci cond "for"
          cases update with
          | some update_expr =>
            have ihu := check_expression_errors_frame E
              (check_cond_is_bool tci cond "for") update_expr
            cases hu : check_expression (check_cond_is_bool tci cond "for") update_expr with
            | mk vu tcu =>
              have ihb := check_statement_errors_frame E { tcu with in_loop := true } body
              cases hb : check_statement { tcu with in_loop := true } body with
              | mk bb tcb => simp [check_statement, h, ihi, hi, hc, ihu, hu, ihb, hb]
          | none =>
            have ihb := check_statement_errors_frame E
              { check_cond_is_bool tci cond "for" with in_loop := true } body
            cases hb : check_statement
                { check_cond_is_bool tci cond "for" with in_loop := true } body with
            | mk bb tcb => simp [check_statement, h, ihi, hi, hc, ihb, hb]
        | none =>
          cases update with
          | some update_expr =>
            have ihu := check_expression_errors_frame E tci update_expr
            cases hu : check_expression tci update_expr with
            | mk vu tcu =>
              have ihb := check_statement_errors_frame E { tcu with in_loop := true } body
              cases hb : check_statement { tcu with in_loop := true } body with
              | mk bb tcb => simp [check_statement, h, ihi, hi, ihu, hu, ihb, hb]
          | none =>
            have ihb := check_statement_errors_frame E { tci with in_loop := true } body
            cases hb : check_statement { tci with in_loop := true } body with
            | mk bb tcb => simp [check_statement, h, ihi, hi, ihb, hb]
    | none =>
      cases condition with
      | some cond =>
        have hc := check_cond_is_bool_errors_frame E (enter_child_scope tc) cond "for"
        cases update with
        | some update_expr =>
          have ihu := check_expression_errors_frame E
            (check_cond_is_bool (enter_child_scope tc) cond "for") update_expr
          cases hu : check_expression (check_cond_is_bool (enter_child_scope tc) cond "for")
              update_expr with
          | mk vu tcu =>
            have ihb := check_statement_errors_frame E { tcu with in_loop := true } body
            cases hb : check_statement { tcu with in_loop := true } body with
            | mk bb tcb => simp [check_statement, h, hc, ihu, hu, ihb, hb]
        | none =>
          have ihb := check_statement_errors_frame E
            { check_cond_is_bool (enter_child_scope tc) cond "for" with in_loop := true } body
          cases hb : check_statement
              { check_cond_is_bool (enter_child_scope tc) cond "for" with in_loop := true }
              body with
          | mk bb tcb => simp [check_statement, h, hc, ihb, hb]
      | none =>
        cases update with
        | some update_expr =>
          have ihu := check_expression_errors_frame E (enter_child_scope tc) update_expr
          cases hu : check_expression (enter_child_scope tc) update_expr with
          | mk vu tcu =>
            have ihb := check_statement_errors_frame E { tcu with in_loop := true } body
            cases hb : check_statement { tcu with in_loop := true } body with
            | mk bb tcb => simp [check_statement, h, ihu, hu, ihb, hb]
        | none =>
          have ihb := check_statement_errors_frame E
            { enter_child_scope tc with in_loop := true } body
          cases hb : check_statement { enter_child_scope tc with in_loop := true } body with
          | mk bb tcb => simp [check_statement, h, ihb, hb]
  | Break =>
    obtain ⟨sa0, errs0, crt0, il0, cs0, sl0⟩ := tc
    cases il0 <;> simp [check_statement, record_error_errors_frame_mk]
  | DoWhile body cond => simp [check_statement]
  | Switch e cs => simp [check_statement]
  | Continue => simp [check_statement]
  | Goto l => simp [check_statement]
  | Label l s1 => simp [check_statement]
termination_by sizeOf s

theorem check_statements_errors_frame (E : List TypeError) (tc : TypeChecker)
    (stmts : List Statement) :
    check_statements { tc with errors := E ++ tc.errors } stmts
      = ((check_statements tc stmts).1,
          { (check_statements tc stmts).2 with
              errors := E ++ (check_statements tc stmts).2.errors }) := by
  cases stmts with
  | nil => simp [check_statements]
  | cons s rest =>
    have ih1 := check_statement_errors_frame E tc s
    cases h1 : check_statement tc s with
    | mk b1 tc1 =>
      have ih2 := check_statements_errors_frame E tc1 rest
      cases h2 : check_statements tc1 rest with
      | mk b2 tc2 => simp [check_statements, ih1, h1, ih2, h2]
termination_by sizeOf stmts

end



theorem check_function_definition_errors_frame (E : List TypeError) (tc : TypeChecker)
    (f : FunctionDefinition) :
    check_function_definition { tc with errors := E ++ tc.errors } f
      = { check_function_definition tc f with
          errors := E ++ (check_function_definition tc f).errors } := by
  cases hfs : find_function_scope tc.scope_analyzer.all_scopes f.parameters with
  | some idx =>
    have ih := check_statements_errors_frame E
      ⟨tc.scope_analyzer, tc.errors, some (string_to_type f.return_type), false,
        some idx, tc.source_lines⟩ f.body
    cases h1 : check_statements
        ⟨tc.scope_analyzer, tc.errors, some (string_to_type f.return_type), false,
          some idx, tc.source_lines⟩ f.body with
    | mk b tc1 =>
      cases hcrt : tc1.current_return_type with
      | none => simp [check_function_definition, hfs, ih, h1, hcrt]
      | some rt =>
        have heta : ({ tc1 with current_return_type := some rt } : TypeChecker) = tc1 := by
          rw [← hcrt]
        by_cases hv : rt != Ty.Void && !b <;>
          simp [check_function_definition, hfs, ih, h1, hcrt, hv, heta,
            record_error_errors_frame_mk]
  | none =>
    have ih := check_statements_errors_frame E
      ⟨tc.scope_analyzer, tc.errors, some (string_to_type f.return_type), false,
        tc.current_scope, tc.source_lines⟩ f.body
    cases h1 : check_statements
        ⟨tc.scope_analyzer, tc.errors, some (string_to_type f.return_type), false,
          tc.current_scope, tc.source_lines⟩ f.body with
    | mk b tc1 =>
      cases hcrt : tc1.current_return_type with
      | none => simp [check_function_definition, hfs, ih, h1, hcrt]
      | some rt =>
        have heta : ({ tc1 with current_return_type := some rt } : TypeChecker) = tc1 := by
          rw [← hcrt]
        by_cases hv : rt != Ty.Void && !b <;>
          simp [check_function_definition, hfs, ih, h1, hcrt, hv, heta,
            record_error_errors_frame_mk]

theorem check_external_declaration_errors_frame (E : List TypeError) (tc : TypeChecker)
    (d : ExternalDeclaration) :
    check_external_declaration { tc with errors := E ++ tc.errors } d
      = { check_external_declaration tc d with
          errors := E ++ (check_external_declaration tc d).errors } := by
  cases d <;> simp [check_external_declaration, check_variable_declaration_errors_frame,
    check_function_definition_errors_frame]

theorem check_decls_fold_errors_frame (E : List TypeError) (tc : TypeChecker)
    (ds : List ExternalDeclaration) :
    ds.foldl check_external_declaration { tc with errors := E ++ tc.errors }
      = { ds.foldl check_external_declaration tc with
          errors := E ++ (ds.foldl check_external_declaration tc).errors } := by
  induction ds generalizing tc with
  | nil => simp
  | cons d ds ih =>
    simp only [List.foldl_cons]
    rw [check_external_declaration_errors_frame]
    exact ih (check_external_declaration tc d)

theorem check_translation_unit_state (tc : TypeChecker) (tu : TranslationUnit) :
    (check_translation_unit tc tu).2
      = tu.external_declarations.foldl check_external_declaration tc := by
  simp only [check_translation_unit]
  by_cases h : (tu.external_declarations.foldl check_external_declaration tc).errors.isEmpty <;>
    simp [h]

theorem check_translation_unit_errors_frame (E : List TypeError) (tc : TypeChecker)
    (tu : TranslationUnit) :
    (check_translation_unit { tc with errors := E ++ tc.errors } tu).2
      = { (check_translation_unit tc tu).2 with
          errors := E ++ (check_translation_unit tc tu).2.errors } := by
  rw [check_translation_unit_state, check_translation_unit_state,
    check_decls_fold_errors_frame]

theorem check_translation_unit_errors_prefix (tc : TypeChecker) (tu : TranslationUnit) :
    tc.errors <+: (check_translation_unit tc tu).2.errors := by
  have h := check_translation_unit_errors_frame tc.errors { tc with errors := [] } tu
  simp only [List.append_nil] at h
  refine ⟨(check_translation_unit { tc with errors := [] } tu).2.errors, ?_⟩
  conv_rhs => rw [show check_translation_unit tc tu
    = check_translation_unit { tc with errors := tc.errors } tu from rfl, h]

theorem check_translation_unit_ok_iff (tc : TypeChecker) (tu : TranslationUnit) :
    ((check_translation_unit tc tu).1 = .ok ()
      ↔ (check_translation_unit tc tu).2.errors = [])
    ∧ ∀ es, (check_translation_unit tc tu).1 = .error es →
        es = (check_translation_unit tc tu).2.errors ∧ es ≠ [] := by
  simp only [check_translation_unit]
  by_cases h : (tu.external_declarations.foldl check_external_declaration tc).errors.isEmpty
  · simp [h, List.isEmpty_iff.mp h]
  · simp [h]
    simpa [List.isEmpty_iff] using h

/-! ## Claim C4: the missing-return check -/

/-! The boolean result of `check_statement` is the pure scan. -/

mutual

theorem check_statement_fst (tc : TypeChecker) (s : Statement) :
    (check_statement tc s).1 = has_return_scan s := by
  cases s with
  | Declaration v => simp [check_statement, has_return_scan]
  | Assignment var_name e => simp [check_statement, has_return_scan]
  | Return oe => simp [check_statement, has_return_scan]
  | Expression e => simp [check_statement, has_return_scan]
  | Block statements =>
    have ih := check_statements_fst (enter_child_scope tc) statements
    cases h1 : check_statements (enter_child_scope tc) statements with
    | mk b tc1 => simpa [check_statement, has_return_scan, h1] using ih
  | If condition t e =>
    have ih1 := check_statement_fst (check_cond_is_bool tc condition "if") t
    cases h1 : check_statement (check_cond_is_bool tc condition "if") t with
    | mk b1 tc1 =>
      cases e with
      | none => simp [check_statement, has_return_scan, h1]
      | some else_stmt =>
        have ih2 := check_statement_fst tc1 else_stmt
        cases h2 : check_statement tc1 else_stmt with
        | mk b2 tc2 =>
          rw [h1] at ih1
          rw [h2] at ih2
          simp [check_statement, has_return_scan, h1, h2, ih1, ih2]
  | While condition body => simp [check_statement, has_return_scan]
  | For init condition update body =>
    cases init <;> cases condition <;> cases update <;>
      simp [check_statement, has_return_scan]
  | Break => simp [check_statement, has_return_scan]
  | DoWhile body cond => simp [check_statement, has_return_scan]
  | Switch e cs => simp [check_statement, has_return_scan]
  | Continue => simp [check_statement, has_return_scan]
  | Goto l => simp [check_statement, has_return_scan]
  | Label l s1 => simp [check_statement, has_return_scan]
termination_by sizeOf s

theorem check_statements_fst (tc : TypeChecker) (stmts : List Statement) :
    (check_statements tc stmts).1 = has_return_scan_list stmts := by
  cases stmts with
  | nil => simp [check_statements, has_return_scan_list]
  | cons s rest =>
    have ih1 := check_statement_fst tc s
    cases h1 : check_statement tc s with
    | mk b1 tc1 =>
      have ih2 := check_statements_fst tc1 rest
      cases h2 : check_statements tc1 rest with
      | mk b2 tc2 =>
        rw [h1] at ih1
        rw [h2] at ih2
        simp [check_statements, has_return_scan_list, h1, h2, ih1, ih2]
termination_by sizeOf stmts

end



/-- `l₂` extends `l₁` without adding any `ReturnStmtNotFound` error. -/
def no_new_missing_return (l1 l2 : List TypeError) : Prop :=
  ∀ e ∈ l2, e ∈ l1 ∨ e.error ≠ TypeChkError.ReturnStmtNotFound

theorem no_new_missing_return_rfl (l : List TypeError) : no_new_missing_return l l :=
  fun _ he => Or.inl he

theorem no_new_missing_return_trans {a b c : List TypeError}
    (h1 : no_new_missing_return a b) (h2 : no_new_missing_return b c) :
    no_new_missing_return a c :=
  fun e he => (h2 e he).elim (fun hb => h1 e hb) Or.inr

theorem no_new_missing_return_record (tc : TypeChecker) (k : TypeChkError) (c : String)
    (hk : k ≠ TypeChkError.ReturnStmtNotFound) :
    no_new_missing_return tc.errors (record_error tc k c).errors := by
  intro e he
  simp [record_error] at he
  rcases he with he | he
  · exact Or.inl he
  · right
    rw [he]
    exact hk

/-- `if`-guarded `record_error` step. -/
theorem no_new_missing_return_ite (tc : TypeChecker) (k : TypeChkError) (c : String)
    (cond : Bool) (hk : k ≠ TypeChkError.ReturnStmtNotFound) :
    no_new_missing_return tc.errors (if cond then record_error tc k c else tc).errors := by
  cases cond
  · simpa using no_new_missing_return_rfl tc.errors
  · simpa using no_new_missing_return_record tc k c hk

mutual

theorem check_expression_no_missing_return (tc : TypeChecker) (e : Expression) :
    no_new_missing_return tc.errors (check_expression tc e).2.errors := by
  cases e with
  | Identifier name => simp [check_expression]; exact no_new_missing_return_rfl _
  | Constant c => simp [check_expression]; exact no_new_missing_return_rfl _
  | StringLiteral s => simp [check_expression]; exact no_new_missing_return_rfl _
  | BinaryOp l op r =>
    simpa [check_expression] using check_binary_operation_no_missing_return tc l op r
  | UnaryOp op e1 =>
    simpa [check_expression] using check_unary_operation_no_missing_return tc op e1
  | Assignment l op r =>
    simpa [check_expression] using check_assignment_operation_no_missing_return tc l op r
  | Conditional c t f =>
    simpa [check_expression] using check_conditional_expression_no_missing_return tc c t f
  | FunctionCall name args =>
    simpa [check_expression] using check_function_call_no_missing_return tc name args
  | ArrayAccess a i =>
    simpa [check_expression] using check_array_access_no_missing_return tc a i
  | MemberAccess o m =>
    have ih := check_expression_no_missing_return tc o
    simpa [check_expression] using ih
  | PointerAccess p m =>
    have ih := check_expression_no_missing_return tc p
    simpa [check_expression] using ih
  | PostfixOp e1 op =>
    have ih := check_expression_no_missing_return tc e1
    simpa [check_expression] using ih
  | SizeOf t => simp [check_expression]; exact no_new_missing_return_rfl _
  | Cast t e1 =>
    have ih := check_expression_no_missing_return tc e1
    cases h1 : check_expression tc e1 with
    | mk v1 tc1 =>
      rw [h1] at ih
      cases v1 <;> simpa [check_expression, h1] using ih
termination_by 3 * sizeOf e

theorem check_binary_operation_no_missing_return (tc : TypeChecker) (l : Expression)
    (op : BinaryOperator) (r : Expression) :
    no_new_missing_return tc.errors (check_binary_operation tc l op r).2.errors := by
  have ih1 := check_expression_no_missing_return tc l
  cases h1 : check_expression tc l with
  | mk v1 tc1 =>
    rw [h1] at ih1
    cases v1 with
    | none => simpa [check_binary_operation, h1] using ih1
    | some left_type =>
      have ih2 := check_expression_no_missing_return tc1 r
      cases h2 : check_expression tc1 r with
      | mk v2 tc2 =>
        rw [h2] at ih2
        have h12 := no_new_missing_return_trans ih1 ih2
        cases v2 with
        | none => simpa [check_binary_operation, h1, h2] using h12
        | some right_type =>
          cases op <;>
            · simp only [check_binary_operation, h1, h2]
              split_ifs <;>
                first
                | simpa using h12
                | exact no_new_missing_return_trans h12
                    (by apply no_new_missing_return_record _ _ _ (by simp))
termination_by 3 * (sizeOf l + sizeOf r) + 2

theorem check_unary_operation_no_missing_return (tc : TypeChecker) (op : UnaryOperator)
    (e : Expression) :
    no_new_missing_return tc.errors (check_unary_operation tc op e).2.errors := by
  have ih1 := check_expression_no_missing_return tc e
  cases h1 : check_expression tc e with
  | mk v1 tc1 =>
    rw [h1] at ih1
    cases v1 with
    | none => simpa [check_unary_operation, h1] using ih1
    | some expr_type =>
      cases op <;>
        · simp only [check_unary_operation, h1]
          first
          | simpa using ih1
          | (split_ifs <;>
              first
              | simpa using ih1
              | exact no_new_missing_return_trans ih1
                  (by apply no_new_missing_return_record _ _ _ (by simp)))
termination_by 3 * sizeOf e + 2

theorem check_assignment_operation_no_missing_return (tc : TypeChecker) (l : Expression)
    (op : AssignmentOperator) (r : Expression) :
    no_new_missing_return tc.errors (check_assignment_operation tc l op r).2.errors := by
  have ih1 := check_expression_no_missing_return tc l
  cases h1 : check_expression tc l with
  | mk v1 tc1 =>
    rw [h1] at ih1
    cases v1 with
    | none => simpa [check_assignment_operation, h1] using ih1
    | some left_type =>
      have ih2 := check_expression_no_missing_return tc1 r
      cases h2 : check_expression tc1 r with
      | mk v2 tc2 =>
        rw [h2] at ih2
        have h12 := no_new_missing_return_trans ih1 ih2
        cases v2 with
        | none => simpa [check_assignment_operation, h1, h2] using h12
        | some right_type =>
          cases op <;>
            · simp only [check_assignment_operation, h1, h2]
              split_ifs <;>
                first
                | simpa using h12
                | exact no_new_missing_return_trans h12
                    (by apply no_new_missing_return_record _ _ _ (by simp))
termination_by 3 * (sizeOf l + sizeOf r) + 2

theorem check_conditional_expression_no_missing_return (tc : TypeChecker)
    (c t f : Expression) :
    no_new_missing_return tc.errors (check_conditional_expression tc c t f).2.errors := by
  have ih1 := check_expression_no_missing_return tc c
  cases h1 : check_expression tc c with
  | mk v1 tc1 =>
    rw [h1] at ih1
    cases v1 with
    | none => simpa [check_conditional_expression, h1] using ih1
    | some cond_type =>
      have hstep : no_new_missing_return tc.errors
          (if cond_type != Ty.Bool then record_error tc1 .ExpectedBooleanExpression "?:"
            else tc1).errors :=
        no_new_missing_return_trans ih1
          (no_new_missing_return_ite tc1 _ _ _ (by simp))
      set tcA := if cond_type != Ty.Bool then record_error tc1 .ExpectedBooleanExpression "?:"
        else tc1 with htcA
      have ih2 := check_expression_no_missing_return tcA t
      cases h2 : check_expression tcA t with
      | mk v2 tc2 =>
        rw [h2] at ih2
        have h12 := no_new_missing_return_trans hstep ih2
        cases v2 with
        | none =>
          simp only [check_conditional_expression, h1, ← htcA, h2]
          simpa using h12
        | some true_type =>
          have ih3 := check_expression_no_missing_return tc2 f
          cases h3 : check_expression tc2 f with
          | mk v3 tc3 =>
            rw [h3] at ih3
            have h123 := no_new_missing_return_trans h12 ih3
            cases v3 with
            | none =>
              simp only [check_conditional_expression, h1, ← htcA, h2, h3]
              simpa using h123
            | some false_type =>
              simp only [check_conditional_expression, h1, ← htcA, h2, h3]
              split_ifs <;>
                first
                | simpa using h123
                | · simp only []
                    exact no_new_missing_return_trans h123
                      (by apply no_new_missing_return_record _ _ _ (by simp))
termination_by 3 * (sizeOf c + sizeOf t + sizeOf f) + 2

theorem check_function_call_no_missing_return (tc : TypeChecker) (name : String)
    (args : List Expression) :
    no_new_missing_return tc.errors (check_function_call tc name args).2.errors := by
  cases h : scope_lookup tc.scope_analyzer.all_scopes tc.scope_analyzer.global_scope name with
  | none => simp [check_function_call, h]; exact no_new_missing_return_rfl _
  | some symbol =>
    cases hk : symbol.kind with
    | Function return_type parameters is_defined =>
      have hstep : no_new_missing_return tc.errors
          (if args.length != parameters.length then record_error tc .FnCallParamCount name
            else tc).errors :=
        no_new_missing_return_ite tc _ _ _ (by simp)
      set tcA := if args.length != parameters.length
        then record_error tc .FnCallParamCount name else tc with htcA
      have ih := check_call_args_no_missing_return tcA name args parameters
      simp only [check_function_call, h, hk, ← htcA]
      exact no_new_missing_return_trans hstep ih
    | Variable ts sc =>
      simp [check_function_call, h, hk]; exact no_new_missing_return_rfl _
    | Parameter pt =>
      simp [check_function_call, h, hk]; exact no_new_missing_return_rfl _
termination_by 3 * sizeOf args + 2

theorem check_call_args_no_missing_return (tc : TypeChecker) (name : String)
    (args : List Expression) (params : List Parameter) :
    no_new_missing_return tc.errors (check_call_args tc name args params).errors := by
  cases args with
  | nil => simp [check_call_args]; exact no_new_missing_return_rfl _
  | cons arg rest =>
    cases params with
    | nil => simp [check_call_args]; exact no_new_missing_return_rfl _
    | cons param prest =>
      have ih1 := check_expression_no_missing_return tc arg
      cases h1 : check_expression tc arg with
      | mk v1 tc1 =>
        rw [h1] at ih1
        cases v1 with
        | none =>
          have ih2 := check_call_args_no_missing_return tc1 name rest prest
          simp only [check_call_args, h1]
          exact no_new_missing_return_trans ih1 ih2
        | some arg_type =>
          have hstep : no_new_missing_return tc.errors
              (if arg_type != Ty.Unknown
                  && !are_types_compatible (string_to_type param.param_type) arg_type
                then record_error tc1 .FnCallParamType name else tc1).errors :=
            no_new_missing_return_trans ih1
              (no_new_missing_return_ite tc1 _ _ _ (by simp))
          set tcA := if arg_type != Ty.Unknown
              && !are_types_compatible (string_to_type param.param_type) arg_type
            then record_error tc1 .FnCallParamType name else tc1 with htcA
          have ih2 := check_call_args_no_missing_return tcA name rest prest
          simp only [check_call_args, h1, ← htcA]
          exact no_new_missing_return_trans hstep ih2
termination_by 3 * sizeOf args + 1

theorem check_array_access_no_missing_return (tc : TypeChecker) (arr idx : Expression) :
    no_new_missing_return tc.errors (check_array_access tc arr idx).2.errors := by
  have ih1 := check_expression_no_missing_return tc idx
  cases h1 : check_expression tc idx with
  | mk v1 tc1 =>
    rw [h1] at ih1
    cases v1 with
    | none => simpa [check_array_access, h1] using ih1
    | some index_type =>
      have hstep : no_new_missing_return tc.errors
          (if !is_integer_type index_type then record_error tc1 .ExpressionTypeMismatch "[]"
            else tc1).errors :=
        no_new_missing_return_trans ih1
          (no_new_missing_return_ite tc1 _ _ _ (by simp))
      set tcA := if !is_integer_type index_type
        then record_error tc1 .ExpressionTypeMismatch "[]" else tc1 with htcA
      have ih2 := check_expression_no_missing_return tcA arr
      cases h2 : check_expression tcA arr with
      | mk v2 tc2 =>
        rw [h2] at ih2
        simp only [check_array_access, h1, ← htcA, h2]
        exact no_new_missing_return_trans hstep ih2
termination_by 3 * (sizeOf arr + sizeOf idx) + 2

end



theorem record_error_crt (tc : TypeChecker) (k : TypeChkError) (c : String) :
    (record_error tc k c).current_return_type = tc.current_return_type := rfl

theorem crt_ite (tc : TypeChecker) (k : TypeChkError) (c : String) (cond : Bool) :
    (if cond then record_error tc k c else tc).current_return_type
      = tc.current_return_type := by
  cases cond <;> rfl

mutual

theorem check_expression_crt (tc : TypeChecker) (e : Expression) :
    (check_expression tc e).2.current_return_type = tc.current_return_type := by
  cases e with
  | Identifier name => simp [check_expression]
  | Constant c => simp [check_expression]
  | StringLiteral s => simp [check_expression]
  | BinaryOp l op r =>
    simpa [check_expression] using check_binary_operation_crt tc l op r
  | UnaryOp op e1 =>
    simpa [check_expression] using check_unary_operation_crt tc op e1
  | Assignment l op r =>
    simpa [check_expression] using check_assignment_operation_crt tc l op r
  | Conditional c t f =>
    simpa [check_expression] using check_conditional_expression_crt tc c t f
  | FunctionCall name args =>
    simpa [check_expression] using check_function_call_crt tc name args
  | ArrayAccess a i =>
    simpa [check_expression] using check_array_access_crt tc a i
  | MemberAccess o m =>
    simpa [check_expression] using check_expression_crt tc o
  | PointerAccess p m =>
    simpa [check_expression] using check_expression_crt tc p
  | PostfixOp e1 op =>
    simpa [check_expression] using check_expression_crt tc e1
  | SizeOf t => simp [check_expression]
  | Cast t e1 =>
    have ih := check_expression_crt tc e1
    cases h1 : check_expression tc e1 with
    | mk v1 tc1 =>
      rw [h1] at ih
      cases v1 <;> simpa [check_expression, h1] using ih
termination_by 3 * sizeOf e

theorem check_binary_operation_crt (tc : TypeChecker) (l : Expression)
    (op : BinaryOperator) (r : Expression) :
    (check_binary_operation tc l op r).2.current_return_type
      = tc.current_return_type := by
  have ih1 := check_expression_crt tc l
  cases h1 : check_expression tc l with
  | mk v1 tc1 =>
    rw [h1] at ih1
    cases v1 with
    | none => simpa [check_binary_operation, h1] using ih1
    | some left_type =>
      have ih2 := check_expression_crt tc1 r
      cases h2 : check_expression tc1 r with
      | mk v2 tc2 =>
        rw [h2] at ih2
        cases v2 with
        | none =>
          simp only [check_binary_operation, h1, h2]
          simp at ih1 ih2
          simp [ih1, ih2]
        | some right_type =>
          simp at ih1 ih2
          cases op <;>
            · simp only [check_binary_operation, h1, h2]
              split_ifs <;> simp [record_error, ih1, ih2]
termination_by 3 * (sizeOf l + sizeOf r) + 2

theorem check_unary_operation_crt (tc : TypeChecker) (op : UnaryOperator)
    (e : Expression) :
    (check_unary_operation tc op e).2.current_return_type = tc.current_return_type := by
  have ih1 := check_expression_crt tc e
  cases h1 : check_expression tc e with
  | mk v1 tc1 =>
    rw [h1] at ih1
    cases v1 with
    | none => simpa [check_unary_operation, h1] using ih1
    | some expr_type =>
      simp at ih1
      cases op <;>
        · simp only [check_unary_operation, h1]
          first
          | simpa using ih1
          | (split_ifs <;> simp [record_error, ih1])
termination_by 3 * sizeOf e + 2

theorem check_assignment_operation_crt (tc : TypeChecker) (l : Expression)
    (op : AssignmentOperator) (r : Expression) :
    (check_assignment_operation tc l op r).2.current_return_type
      = tc.current_return_type := by
  have ih1 := check_expression_crt tc l
  cases h1 : check_expression tc l with
  | mk v1 tc1 =>
    rw [h1] at ih1
    cases v1 with
    | none => simpa [check_assignment_operation, h1] using ih1
    | some left_type =>
      have ih2 := check_expression_crt tc1 r
      cases h2 : check_expression tc1 r with
      | mk v2 tc2 =>
        rw [h2] at ih2
        cases v2 with
        | none =>
          simp only [check_assignment_operation, h1, h2]
          simp at ih1 ih2
          simp [ih1, ih2]
        | some right_type =>
          simp at ih1 ih2
          cases op <;>
            · simp only [check_assignment_operation, h1, h2]
              split_ifs <;> simp [record_error, ih1, ih2]
termination_by 3 * (sizeOf l + sizeOf r) + 2

theorem check_conditional_expression_crt (tc : TypeChecker) (c t f : Expression) :
    (check_conditional_expression tc c t f).2.current_return_type
      = tc.current_return_type := by
  have ih1 := check_expression_crt tc c
  cases h1 : check_expression tc c with
  | mk v1 tc1 =>
    rw [h1] at ih1
    cases v1 with
    | none => simpa [check_conditional_expression, h1] using ih1
    | some cond_type =>
      simp at ih1
      set tcA := if cond_type != Ty.Bool then record_error tc1 .ExpectedBooleanExpression "?:"
        else tc1 with htcA
      have hA : tcA.current_return_type = tc.current_return_type := by
        rw [htcA]
        rw [crt_ite]
        exact ih1
      have ih2 := check_expression_crt tcA t
      cases h2 : check_expression tcA t with
      | mk v2 tc2 =>
        rw [h2] at ih2
        cases v2 with
        | none =>
          simp only [check_conditional_expression, h1, ← htcA, h2]
          simp at ih2
          simp [ih2, hA]
        | some true_type =>
          simp at ih2
          have ih3 := check_expression_crt tc2 f
          cases h3 : check_expression tc2 f with
          | mk v3 tc3 =>
            rw [h3] at ih3
            cases v3 with
            | none =>
              simp only [check_conditional_expression, h1, ← htcA, h2, h3]
              simp at ih3
              simp [ih3, ih2, hA]
            | some false_type =>
              simp at ih3
              simp only [check_conditional_expression, h1, ← htcA, h2, h3]
              split_ifs <;> simp [record_error, ih3, ih2, hA]
termination_by 3 * (sizeOf c + sizeOf t + sizeOf f) + 2

theorem check_function_call_crt (tc : TypeChecker) (name : String)
    (args : List Expression) :
    (check_function_call tc name args).2.current_return_type
      = tc.current_return_type := by
  cases h : scope_lookup tc.scope_analyzer.all_scopes tc.scope_analyzer.global_scope name with
  | none => simp [check_function_call, h]
  | some symbol =>
    cases hk : symbol.kind with
    | Function return_type parameters is_defined =>
      set tcA := if args.length != parameters.length
        then record_error tc .FnCallParamCount name else tc with htcA
      have hA : tcA.current_return_type = tc.current_return_type := by
        rw [htcA]; exact crt_ite tc _ _ _
      have ih := check_call_args_crt tcA name args parameters
      simp only [check_function_call, h, hk, ← htcA]
      simp [ih, hA]
    | Variable ts sc => simp [check_function_call, h, hk]
    | Parameter pt => simp [check_function_call, h, hk]
termination_by 3 * sizeOf args + 2

theorem check_call_args_crt (tc : TypeChecker) (name : String)
    (args : List Expression) (params : List Parameter) :
    (check_call_args tc name args params).current_return_type
      = tc.current_return_type := by
  cases args with
  | nil => simp [check_call_args]
  | cons arg rest =>
    cases params with
    | nil => simp [check_call_args]
    | cons param prest =>
      have ih1 := check_expression_crt tc arg
      cases h1 : check_expression tc arg with
      | mk v1 tc1 =>
        rw [h1] at ih1
        simp at ih1
        cases v1 with
        | none =>
          have ih2 := check_call_args_crt tc1 name rest prest
          simp only [check_call_args, h1]
          simp [ih2, ih1]
        | some arg_type =>
          set tcA := if arg_type != Ty.Unknown
              && !are_types_compatible (string_to_type param.param_type) arg_type
            then record_error tc1 .FnCallParamType name else tc1 with htcA
          have hA : tcA.current_return_type = tc.current_return_type := by
            rw [htcA]
            rw [crt_ite]
            exact ih1
          have ih2 := check_call_args_crt tcA name rest prest
          simp only [check_call_args, h1, ← htcA]
          simp [ih2, hA]
termination_by 3 * sizeOf args + 1

theorem check_array_access_crt (tc : TypeChecker) (arr idx : Expression) :
    (check_array_access tc arr idx).2.current_return_type = tc.current_return_type := by
  have ih1 := check_expression_crt tc idx
  cases h1 : check_expression tc idx with
  | mk v1 tc1 =>
    rw [h1] at ih1
    cases v1 with
    | none => simpa [check_array_access, h1] using ih1
    | some index_type =>
      simp at ih1
      set tcA := if !is_integer_type index_type
        then record_error tc1 .ExpressionTypeMismatch "[]" else tc1 with htcA
      have hA : tcA.current_return_type = tc.current_return_type := by
        rw [htcA]
        rw [crt_ite]
        exact ih1
      have ih2 := check_expression_crt tcA arr
      cases h2 : check_expression tcA arr with
      | mk v2 tc2 =>
        rw [h2] at ih2
        simp at ih2
        simp only [check_array_access, h1, ← htcA, h2]
        simp [ih2, hA]
termination_by 3 * (sizeOf arr + sizeOf idx) + 2

end



mutual

theorem check_initializer_crt (tc : TypeChecker) (i : Initializer) :
    (check_initializer tc i).2.current_return_type = tc.current_return_type := by
  cases i with
  | mk k =>
    cases k with
    | Assignment e => simpa [check_initializer] using check_expression_crt tc e
    | List inits =>
      have ih1 := check_initializer_list_crt tc inits
      cases inits with
      | nil => simp [check_initializer, check_initializer_list]
      | cons first rest =>
        have ih2 := check_initializer_crt (check_initializer_list tc (first :: rest)) first
        cases h2 : check_initializer (check_initializer_list tc (first :: rest)) first with
        | mk vt tcB =>
          rw [h2] at ih2
          simp at ih2
          simp [check_initializer, h2, ih2, ih1]
    | Designated d i1 =>
      simpa [check_initializer] using check_initializer_crt tc i1
termination_by sizeOf i

theorem check_initializer_list_crt (tc : TypeChecker) (l : List Initializer) :
    (check_initializer_list tc l).current_return_type = tc.current_return_type := by
  cases l with
  | nil => simp [check_initializer_list]
  | cons i is =>
    have ih1 := check_initializer_crt tc i
    cases h1 : check_initializer tc i with
    | mk vt tcB =>
      rw [h1] at ih1
      simp at ih1
      have ih2 := check_initializer_list_crt tcB is
      simp [check_initializer_list, h1, ih2, ih1]
termination_by sizeOf l

end

mutual

theorem check_initializer_no_missing_return (tc : TypeChecker) (i : Initializer) :
    no_new_missing_return tc.errors (check_initializer tc i).2.errors := by
  cases i with
  | mk k =>
    cases k with
    | Assignment e =>
      simpa [check_initializer] using check_expression_no_missing_return tc e
    | List inits =>
      have ih1 := check_initializer_list_no_missing_return tc inits
      cases inits with
      | nil =>
        simp [check_initializer, check_initializer_list]
        exact no_new_missing_return_rfl _
      | cons first rest =>
        have ih2 := check_initializer_no_missing_return
          (check_initializer_list tc (first :: rest)) first
        cases h2 : check_initializer (check_initializer_list tc (first :: rest)) first with
        | mk vt tcB =>
          rw [h2] at ih2
          simp at ih2
          have h12 := no_new_missing_return_trans ih1 ih2
          simpa [check_initializer, h2] using h12
    | Designated d i1 =>
      simpa [check_initializer] using check_initializer_no_missing_return tc i1
termination_by sizeOf i

theorem check_initializer_list_no_missing_return (tc : TypeChecker) (l : List Initializer) :
    no_new_missing_return tc.errors (check_initializer_list tc l).errors := by
  cases l with
  | nil => simp [check_initializer_list]; exact no_new_missing_return_rfl _
  | cons i is =>
    have ih1 := check_initializer_no_missing_return tc i
    cases h1 : check_initializer tc i with
    | mk vt tcB =>
      rw [h1] at ih1
      simp at ih1
      have ih2 := check_initializer_list_no_missing_return tcB is
      simpa [check_initializer_list, h1] using no_new_missing_return_trans ih1 ih2
termination_by sizeOf l

end

theorem check_variable_declaration_crt (tc : TypeChecker) (v : VariableDeclaration) :
    (check_variable_declaration tc v).current_return_type = tc.current_return_type := by
  by_cases hu : type_specifier_to_type v.type_specifier == Ty.Unknown
  · cases hi : v.initializer with
    | none => simp [check_variable_declaration, hi, hu, record_error]
    | some init =>
      have ih := check_initializer_crt
        (record_error tc .ErroneousVarDecl v.declarator.name) init
      cases h1 : check_initializer
          (record_error tc .ErroneousVarDecl v.declarator.name) init with
      | mk vt tcB =>
        rw [h1] at ih
        simp [record_error] at ih
        cases vt with
        | none => simp [check_variable_declaration, hi, hu, h1, ih]
        | some it =>
          simp [check_variable_declaration, hi, hu, h1]
          split_ifs <;> simp [record_error, ih]
  · cases hi : v.initializer with
    | none => simp [check_variable_declaration, hi, hu]
    | some init =>
      have ih := check_initializer_crt tc init
      cases h1 : check_initializer tc init with
      | mk vt tcB =>
        rw [h1] at ih
        simp at ih
        cases vt with
        | none => simp [check_variable_declaration, hi, hu, h1, ih]
        | some it =>
          simp [check_variable_declaration, hi, hu, h1]
          split_ifs <;> simp [record_error, ih]

theorem check_variable_declaration_no_missing_return (tc : TypeChecker)
    (v : VariableDeclaration) :
    no_new_missing_return tc.errors (check_variable_declaration tc v).errors := by
  by_cases hu : type_specifier_to_type v.type_specifier == Ty.Unknown
  · have hstep := no_new_missing_return_record tc TypeChkError.ErroneousVarDecl
      v.declarator.name (by simp)
    cases hi : v.initializer with
    | none =>
      have heq : check_variable_declaration tc v
          = record_error tc .ErroneousVarDecl v.declarator.name := by
        simp [check_variable_declaration, hi, hu]
      rw [heq]; exact hstep
    | some init =>
      have ih := check_initializer_no_missing_return
        (record_error tc .ErroneousVarDecl v.declarator.name) init
      cases h1 : check_initializer
          (record_error tc .ErroneousVarDecl v.declarator.name) init with
      | mk vt tcB =>
        rw [h1] at ih
        simp at ih
        have h12 := no_new_missing_return_trans hstep ih
        cases vt with
        | none =>
          have heq : check_variable_declaration tc v = tcB := by
            simp [check_variable_declaration, hi, hu, h1]
          rw [heq]; exact h12
        | some it =>
          have heq : check_variable_declaration tc v
              = (if it != Ty.Unknown
                   && !are_types_compatible (type_specifier_to_type v.type_specifier) it
                 then record_error tcB .ExpressionTypeMismatch v.declarator.name
                 else tcB) := by
            simp [check_variable_declaration, hi, hu, h1]
          rw [heq]
          exact no_new_missing_return_trans h12
            (no_new_missing_return_ite tcB _ _ _ (by simp))
  · cases hi : v.initializer with
    | none =>
      have heq : check_variable_declaration tc v = tc := by
        simp [check_variable_declaration, hi, hu]
      rw [heq]; exact no_new_missing_return_rfl _
    | some init =>
      have ih := check_initializer_no_missing_return tc init
      cases h1 : check_initializer tc init with
      | mk vt tcB =>
        rw [h1] at ih
        simp at ih
        cases vt with
        | none =>
          have heq : check_variable_declaration tc v = tcB := by
            simp [check_variable_declaration, hi, hu, h1]
          rw [heq]; exact ih
        | some it =>
          have heq : check_variable_declaration tc v
              = (if it != Ty.Unknown
                   && !are_types_compatible (type_specifier_to_type v.type_specifier) it
                 then record_error tcB .ExpressionTypeMismatch v.declarator.name
                 else tcB) := by
            simp [check_variable_declaration, hi, hu, h1]
          rw [heq]
          exact no_new_missing_return_trans ih
            (no_new_missing_return_ite tcB _ _ _ (by simp))

theorem enter_child_scope_crt (tc : TypeChecker) :
    (enter_child_scope tc).current_return_type = tc.current_return_type := by
  cases hc : tc.current_scope with
  | none => simp [enter_child_scope, hc]
  | some cur =>
    cases hf : find_child_scope tc.scope_analyzer.all_scopes cur with
    | none => simp [enter_child_scope, hc, hf]
    | some child => simp [enter_child_scope, hc, hf]

theorem enter_child_scope_errors (tc : TypeChecker) :
    (enter_child_scope tc).errors = tc.errors := by
  cases hc : tc.current_scope with
  | none => simp [enter_child_scope, hc]
  | some cur =>
    cases hf : find_child_scope tc.scope_analyzer.all_scopes cur with
    | none => simp [enter_child_scope, hc, hf]
    | some child => simp [enter_child_scope, hc, hf]

theorem check_cond_is_bool_crt (tc : TypeChecker) (condition : Expression) (ctx : String) :
    (check_cond_is_bool tc condition ctx).current_return_type
      = tc.current_return_type := by
  have ih := check_expression_crt tc condition
  cases h1 : check_expression tc condition with
  | mk v1 tc1 =>
    rw [h1] at ih
    simp at ih
    cases v1 with
    | none => simp [check_cond_is_bool, h1, ih]
    | some ct =>
      simp only [check_cond_is_bool, h1]
      split_ifs <;> simp [record_error, ih]

theorem check_cond_is_bool_no_missing_return (tc : TypeChecker) (condition : Expression)
    (ctx : String) :
    no_new_missing_return tc.errors (check_cond_is_bool tc condition ctx).errors := by
  have ih := check_expression_no_missing_return tc condition
  cases h1 : check_expression tc condition with
  | mk v1 tc1 =>
    rw [h1] at ih
    simp at ih
    cases v1 with
    | none => simpa [check_cond_is_bool, h1] using ih
    | some ct =>
      simp only [check_cond_is_bool, h1]
      split_ifs <;>
        first
        | simpa using ih
        | exact no_new_missing_return_trans ih
            (by apply no_new_missing_return_record _ _ _ (by simp))



mutual

theorem check_statement_crt (tc : TypeChecker) (s : Statement) :
    (check_statement tc s).2.current_return_type = tc.current_return_type := by
  cases s with
  | Declaration v => simpa [check_statement] using check_variable_declaration_crt tc v
  | Assignment var_name e =>
    cases hv : get_variable_type tc var_name with
    | none => simp [check_statement, hv]
    | some var_type =>
      have ih := check_expression_crt tc e
      cases h1 : check_expression tc e with
      | mk v1 tc1 =>
        rw [h1] at ih
        simp at ih
        cases v1 with
        | none => simp [check_statement, hv, h1, ih]
        | some expr_type =>
          simp [check_statement, hv, h1]
          split_ifs <;> simp [record_error, ih]
  | Return oe =>
    obtain ⟨sa0, errs0, crt0, il0, cs0, sl0⟩ := tc
    cases crt0 with
    | none => simp [check_statement]
    | some ret_type =>
      by_cases hv : ret_type == Ty.Void
      · cases oe <;> simp [check_statement, hv, record_error]
      · cases oe with
        | none => simp [check_statement, hv, record_error]
        | some e =>
          have ih := check_expression_crt ⟨sa0, errs0, some ret_type, il0, cs0, sl0⟩ e
          cases h1 : check_expression ⟨sa0, errs0, some ret_type, il0, cs0, sl0⟩ e with
          | mk v1 tc1 =>
            rw [h1] at ih
            simp at ih
            cases v1 with
            | none => simp [check_statement, hv, h1, ih]
            | some expr_type =>
              simp [check_statement, hv, h1]
              split_ifs <;> simp [record_error, ih]
  | Expression e =>
    have ih := check_expression_crt tc e
    cases h1 : check_expression tc e with
    | mk v1 tc1 =>
      rw [h1] at ih
      simp at ih
      simp [check_statement, h1, ih]
  | Block statements =>
    have ih := check_statements_crt (enter_child_scope tc) statements
    cases h1 : check_statements (enter_child_scope tc) statements with
    | mk b tc1 =>
      rw [h1] at ih
      simp at ih
      simp [check_statement, h1, ih, enter_child_scope_crt]
  | If condition t e =>
    have ih1 := check_statement_crt (check_cond_is_bool tc condition "if") t
    cases h1 : check_statement (check_cond_is_bool tc condition "if") t with
    | mk b1 tc1 =>
      rw [h1] at ih1
      simp at ih1
      cases e with
      | none => simp [check_statement, h1, ih1, check_cond_is_bool_crt]
      | some else_stmt =>
        have ih2 := check_statement_crt tc1 else_stmt
        cases h2 : check_statement tc1 else_stmt with
        | mk b2 tc2 =>
          rw [h2] at ih2
          simp at ih2
          simp [check_statement, h1, h2, ih1, ih2, check_cond_is_bool_crt]
  | While condition body =>
    have ih := check_statement_crt
      { check_cond_is_bool tc condition "while" with in_loop := true } body
    cases h1 : check_statement
        { check_cond_is_bool tc condition "while" with in_loop := true } body with
    | mk b1 tc1 =>
      rw [h1] at ih
      simp at ih
      rw [check_cond_is_bool_crt] at ih
      simp [check_statement, h1, ih]
  | For init condition update body =>
    cases init with
    | some init_stmt =>
      have ihi := check_statement_crt (enter_child_scope tc) init_stmt
      cases hi : check_statement (enter_child_scope tc) init_stmt with
      | mk bi tci =>
        rw [hi] at ihi
        simp at ihi
        rw [enter_child_scope_crt] at ihi
        cases condition with
        | some cond =>
          cases update with
          | some update_expr =>
            have ihu := check_expression_crt (check_cond_is_bool tci cond "for") update_expr
            cases hu : check_expression (check_cond_is_bool tci cond "for") update_expr with
            | mk vu tcu =>
              rw [hu] at ihu
              simp at ihu
              rw [check_cond_is_bool_crt, ihi] at ihu
              have ihb := check_statement_crt { tcu with in_loop := true } body
              cases hb : check_statement { tcu with in_loop := true } body with
              | mk bb tcb =>
                rw [hb] at ihb
                simp at ihb
                rw [ihu] at ihb
                simp [check_statement, hi, hu, hb, ihb]
          | none =>
            have ihb := check_statement_crt
              { check_cond_is_bool tci cond "for" with in_loop := true } body
            cases hb : check_statement
                { check_cond_is_bool tci cond "for" with in_loop := true } body with
            | mk bb tcb =>
              rw [hb] at ihb
              simp at ihb
              rw [check_cond_is_bool_crt, ihi] at ihb
              simp [check_statement, hi, hb, ihb]
        | none =>
          cases update with
          | some update_expr =>
            have ihu := check_expression_crt tci update_expr
            cases hu : check_expression tci update_expr with
            | mk vu tcu =>
              rw [hu] at ihu
              simp at ihu
              have ihb := check_statement_crt { tcu with in_loop := true } body
              cases hb : check_statement { tcu with in_loop := true } body with
              | mk bb tcb =>
                rw [hb] at ihb
                simp at ihb
                rw [ihu, ihi] at ihb
                simp [check_statement, hi, hu, hb, ihb]
          | none =>
            have ihb := check_statement_crt { tci with in_loop := true } body
            cases hb : check_statement { tci with in_loop := true } body with
            | mk bb tcb =>
              rw [hb] at ihb
              simp at ihb
              rw [ihi] at ihb
              simp [check_statement, hi, hb, ihb]
    | none =>
      cases condition with
      | some cond =>
        cases update with
        | some update_expr =>
          have ihu := check_expression_crt
            (check_cond_is_bool (enter_child_scope tc) cond "for") update_expr
          cases hu : check_expression
              (check_cond_is_bool (enter_child_scope tc) cond "for") update_expr with
          | mk vu tcu =>
            rw [hu] at ihu
            simp at ihu
            have ihb := check_statement_crt { tcu with in_loop := true } body
            cases hb : check_statement { tcu with in_loop := true } body with
            | mk bb tcb =>
              rw [hb] at ihb
              simp at ihb
              rw [ihu, check_cond_is_bool_crt, enter_child_scope_crt] at ihb
              simp [check_statement, hu, hb, ihb]
        | none =>
          have ihb := check_statement_crt
            { check_cond_is_bool (enter_child_scope tc) cond "for" with in_loop := true }
            body
          cases hb : check_statement
              { check_cond_is_bool (enter_child_scope tc) cond "for" with in_loop := true }
              body with
          | mk bb tcb =>
            rw [hb] at ihb
            simp at ihb
            rw [check_cond_is_bool_crt, enter_child_scope_crt] at ihb
            simp [check_statement, hb, ihb]
      | none =>
        cases update with
        | some update_expr =>
          have ihu := check_expression_crt (enter_child_scope tc) update_expr
          cases hu : check_expression (enter_child_scope tc) update_expr with
          | mk vu tcu =>
            rw [hu] at ihu
            simp at ihu
            have ihb := check_statement_crt { tcu with in_loop := true } body
            cases hb : check_statement { tcu with in_loop := true } body with
            | mk bb tcb =>
              rw [hb] at ihb
              simp at ihb
              rw [ihu, enter_child_scope_crt] at ihb
              simp [check_statement, hu, hb, ihb]
        | none =>
          have ihb := check_statement_crt { enter_child_scope tc with in_loop := true } body
          cases hb : check_statement { enter_child_scope tc with in_loop := true } body with
          | mk bb tcb =>
            rw [hb] at ihb
            simp at ihb
            rw [enter_child_scope_crt] at ihb
            simp [check_statement, hb, ihb]
  | Break =>
    obtain ⟨sa0, errs0, crt0, il0, cs0, sl0⟩ := tc
    cases il0 <;> simp [check_statement, record_error]
  | DoWhile body cond => simp [check_statement]
  | Switch e cs => simp [check_statement]
  | Continue => simp [check_statement]
  | Goto l => simp [check_statement]
  | Label l s1 => simp [check_statement]
termination_by sizeOf s

theorem check_statements_crt (tc : TypeChecker) (stmts : List Statement) :
    (check_statements tc stmts).2.current_return_type = tc.current_return_type := by
  cases stmts with
  | nil => simp [check_statements]
  | cons s rest =>
    have ih1 := check_statement_crt tc s
    cases h1 : check_statement tc s with
    | mk b1 tc1 =>
      rw [h1] at ih1
      simp at ih1
      have ih2 := check_statements_crt tc1 rest
      cases h2 : check_statements tc1 rest with
      | mk b2 tc2 =>
        rw [h2] at ih2
        simp at ih2
        simp [check_statements, h1, h2, ih1, ih2]
termination_by sizeOf stmts

end



mutual

theorem check_statement_no_missing_return (tc : TypeChecker) (s : Statement) :
    no_new_missing_return tc.errors (check_statement tc s).2.errors := by
  cases s with
  | Declaration v =>
    simpa [check_statement] using check_variable_declaration_no_missing_return tc v
  | Assignment var_name e =>
    cases hv : get_variable_type tc var_name with
    | none => simp [check_statement, hv]; exact no_new_missing_return_rfl _
    | some var_type =>
      have ih := check_expression_no_missing_return tc e
      cases h1 : check_expression tc e with
      | mk v1 tc1 =>
        rw [h1] at ih
        simp at ih
        cases v1 with
        | none => simpa [check_statement, hv, h1] using ih
        | some expr_type =>
          simp only [check_statement, hv, h1]
          split_ifs <;>
            first
            | simpa using ih
            | exact no_new_missing_return_trans ih
                (by apply no_new_missing_return_record _ _ _ (by simp))
  | Return oe =>
    obtain ⟨sa0, errs0, crt0, il0, cs0, sl0⟩ := tc
    cases crt0 with
    | none => simp [check_statement]; exact no_new_missing_return_rfl _
    | some ret_type =>
      by_cases hv : ret_type == Ty.Void
      · cases oe with
        | some e =>
          simpa [check_statement, hv] using
            no_new_missing_return_record ⟨sa0, errs0, some ret_type, il0, cs0, sl0⟩
              .ErroneousReturnType "return" (by simp)
        | none => simp [check_statement, hv]; exact no_new_missing_return_rfl _
      · cases oe with
        | none =>
          simpa [check_statement, hv] using
            no_new_missing_return_record ⟨sa0, errs0, some ret_type, il0, cs0, sl0⟩
              .ErroneousReturnType "return" (by simp)
        | some e =>
          have ih := check_expression_no_missing_return
            ⟨sa0, errs0, some ret_type, il0, cs0, sl0⟩ e
          cases h1 : check_expression ⟨sa0, errs0, some ret_type, il0, cs0, sl0⟩ e with
          | mk v1 tc1 =>
            rw [h1] at ih
            simp at ih
            cases v1 with
            | none => simpa [check_statement, hv, h1] using ih
            | some expr_type =>
              simp only [check_statement, hv, h1]
              split_ifs <;>
                first
                | contradiction
                | simpa using ih
                | exact no_new_missing_return_trans ih
                    (by apply no_new_missing_return_record _ _ _ (by simp))
  | Expression e =>
    have ih := check_expression_no_missing_return tc e
    cases h1 : check_expression tc e with
    | mk v1 tc1 =>
      rw [h1] at ih
      simp at ih
      simpa [check_statement, h1] using ih
  | Block statements =>
    have ih := check_statements_no_missing_return (enter_child_scope tc) statements
    rw [enter_child_scope_errors] at ih
    cases h1 : check_statements (enter_child_scope tc) statements with
    | mk b tc1 =>
      rw [h1] at ih
      simp at ih
      simpa [check_statement, h1] using ih
  | If condition t e =>
    have hc := check_cond_is_bool_no_missing_return tc condition "if"
    have ih1 := check_statement_no_missing_return (check_cond_is_bool tc condition "if") t
    cases h1 : check_statement (check_cond_is_bool tc condition "if") t with
    | mk b1 tc1 =>
      rw [h1] at ih1
      simp at ih1
      have h01 := no_new_missing_return_trans hc ih1
      cases e with
      | none => simpa [check_statement, h1] using h01
      | some else_stmt =>
        have ih2 := check_statement_no_missing_return tc1 else_stmt
        cases h2 : check_statement tc1 else_stmt with
        | mk b2 tc2 =>
          rw [h2] at ih2
          simp at ih2
          simpa [check_statement, h1, h2] using no_new_missing_return_trans h01 ih2
  | While condition body =>
    have hc := check_cond_is_bool_no_missing_return tc condition "while"
    have ih := check_statement_no_missing_return
      { check_cond_is_bool tc condition "while" with in_loop := true } body
    cases h1 : check_statement
        { check_cond_is_bool tc condition "while" with in_loop := true } body with
    | mk b1 tc1 =>
      rw [h1] at ih
      simp at ih
      simpa [check_statement, h1] using no_new_missing_return_trans hc ih
  | For init condition update body =>
    cases init with
    | some init_stmt =>
      have ihi := check_statement_no_missing_return (enter_child_scope tc) init_stmt
      rw [enter_child_scope_errors] at ihi
      cases hi : check_statement (enter_child_scope tc) init_stmt with
      | mk bi tci =>
        rw [hi] at ihi
        simp at ihi
        cases condition with
        | some cond =>
          have hc := check_cond_is_bool_no_missing_return tci cond "for"
          have h0c := no_new_missing_return_trans ihi hc
          cases update with
          | some update_expr =>
            have ihu := check_expression_no_missing_return
              (check_cond_is_bool tci cond "for") update_expr
            cases hu : check_expression (check_cond_is_bool tci cond "for") update_expr with
            | mk vu tcu =>
              rw [hu] at ihu
              simp at ihu
              have h0u := no_new_missing_return_trans h0c ihu
              have ihb := check_statement_no_missing_return { tcu with in_loop := true } body
              cases hb : check_statement { tcu with in_loop := true } body with
              | mk bb tcb =>
                rw [hb] at ihb
                simp at ihb
                simpa [check_statement, hi, hu, hb] using
                  no_new_missing_return_trans h0u ihb
          | none =>
            have ihb := check_statement_no_missing_return
              { check_cond_is_bool tci cond "for" with in_loop := true } body
            cases hb : check_statement
                { check_cond_is_bool tci cond "for" with in_loop := true } body with
            | mk bb tcb =>
              rw [hb] at ihb
              simp at ihb
              simpa [check_statement, hi, hb] using no_new_missing_return_trans h0c ihb
        | none =>
          cases update with
          | some update_expr =>
            have ihu := check_expression_no_missing_return tci update_expr
            cases hu : check_expression tci update_expr with
            | mk vu tcu =>
              rw [hu] at ihu
              simp at ihu
              have h0u := no_new_missing_return_trans ihi ihu
              have ihb := check_statement_no_missing_return { tcu with in_loop := true } body
              cases hb : check_statement { tcu with in_loop := true } body with
              | mk bb tcb =>
                rw [hb] at ihb
                simp at ihb
                simpa [check_statement, hi, hu, hb] using
                  no_new_missing_return_trans h0u ihb
          | none =>
            have ihb := check_statement_no_missing_return { tci with in_loop := true } body
            cases hb : check_statement { tci with in_loop := true } body with
            | mk bb tcb =>
              rw [hb] at ihb
              simp at ihb
              simpa [check_statement, hi, hb] using no_new_missing_return_trans ihi ihb
    | none =>
      cases condition with
      | some cond =>
        have hc := check_cond_is_bool_no_missing_return (enter_child_scope tc) cond "for"
        rw [enter_child_scope_errors] at hc
        cases update with
        | some update_expr =>
          have ihu := check_expression_no_missing_return
            (check_cond_is_bool (enter_child_scope tc) cond "for") update_expr
          cases hu : check_expression
              (check_cond_is_bool (enter_child_scope tc) cond "for") update_expr with
          | mk vu tcu =>
            rw [hu] at ihu
            simp at ihu
            have h0u := no_new_missing_return_trans hc ihu
            have ihb := check_statement_no_missing_return { tcu with in_loop := true } body
            cases hb : check_statement { tcu with in_loop := true } body with
            | mk bb tcb =>
              rw [hb] at ihb
              simp at ihb
              simpa [check_statement, hu, hb] using no_new_missing_return_trans h0u ihb
        | none =>
          have ihb := check_statement_no_missing_return
            { check_cond_is_bool (enter_child_scope tc) cond "for" with in_loop := true }
            body
          cases hb : check_statement
              { check_cond_is_bool (enter_child_scope tc) cond "for" with in_loop := true }
              body with
          | mk bb tcb =>
            rw [hb] at ihb
            simp at ihb
            simpa [check_statement, hb] using no_new_missing_return_trans hc ihb
      | none =>
        cases update with
        | some update_expr =>
          have ihu := check_expression_no_missing_return (enter_child_scope tc) update_expr
          rw [enter_child_scope_errors] at ihu
          cases hu : check_expression (enter_child_scope tc) update_expr with
          | mk vu tcu =>
            rw [hu] at ihu
            simp at ihu
            have ihb := check_statement_no_missing_return { tcu with in_loop := true } body
            cases hb : check_statement { tcu with in_loop := true } body with
            | mk bb tcb =>
              rw [hb] at ihb
              simp at ihb
              simpa [check_statement, hu, hb] using no_new_missing_return_trans ihu ihb
        | none =>
          have ihb := check_statement_no_missing_return
            { enter_child_scope tc with in_loop := true } body
          cases hb : check_statement { enter_child_scope tc with in_loop := true } body with
          | mk bb tcb =>
            rw [hb] at ihb
            simp at ihb
            rw [enter_child_scope_errors] at ihb
            simpa [check_statement, hb] using ihb
  | Break =>
    obtain ⟨sa0, errs0, crt0, il0, cs0, sl0⟩ := tc
    cases il0 with
    | true => simp [check_statement]; exact no_new_missing_return_rfl _
    | false =>
      simpa [check_statement] using
        no_new_missing_return_record ⟨sa0, errs0, crt0, false, cs0, sl0⟩
          .ErroneousBreak "break" (by simp)
  | DoWhile body cond => simp [check_statement]; exact no_new_missing_return_rfl _
  | Switch e cs => simp [check_statement]; exact no_new_missing_return_rfl _
  | Continue => simp [check_statement]; exact no_new_missing_return_rfl _
  | Goto l => simp [check_statement]; exact no_new_missing_return_rfl _
  | Label l s1 => simp [check_statement]; exact no_new_missing_return_rfl _
termination_by sizeOf s

theorem check_statements_no_missing_return (tc : TypeChecker) (stmts : List Statement) :
    no_new_missing_return tc.errors (check_statements tc stmts).2.errors := by
  cases stmts with
  | nil => simp [check_statements]; exact no_new_missing_return_rfl _
  | cons s rest =>
    have ih1 := check_statement_no_missing_return tc s
    cases h1 : check_statement tc s with
    | mk b1 tc1 =>
      rw [h1] at ih1
      simp at ih1
      have ih2 := check_statements_no_missing_return tc1 rest
      cases h2 : check_statements tc1 rest with
      | mk b2 tc2 =>
        rw [h2] at ih2
        simp at ih2
        simpa [check_statements, h1, h2] using no_new_missing_return_trans ih1 ih2
termination_by sizeOf stmts

end



/-- C4 (amended): for every checker state and every function definition whose
declared return type is not `Void`, `check_function_definition` appends a batch
`d` of new errors, and `d` contains a `ReturnStmtNotFound` error **iff** the
recursive `has_return` scan of the body found no return: `Return` counts
directly, a `Block` counts when any element of its list counts, and an `If`
counts when both arms count — not the purely syntactic direct-statement-list
presence check stated by the original claim. -/
theorem check_function_definition_missing_return_iff (tc : TypeChecker)
    (f : FunctionDefinition) (hret : string_to_type f.return_type ≠ Ty.Void) :
    ∃ d, (check_function_definition tc f).errors = tc.errors ++ d ∧
      ((∃ e ∈ d, e.error = TypeChkError.ReturnStmtNotFound)
        ↔ has_return_scan_list f.body = false) := by
  have hrt : (string_to_type f.return_type != Ty.Void) = true := by
    simpa [bne_iff_ne] using hret
  cases hfs : find_function_scope tc.scope_analyzer.all_scopes f.parameters with
  | some idx =>
    cases hz : check_statements
        (⟨tc.scope_analyzer, [], some (string_to_type f.return_type), false,
          some idx, tc.source_lines⟩ : TypeChecker) f.body with
    | mk bz tcz4 =>
      have hfst := check_statements_fst
        (⟨tc.scope_analyzer, [], some (string_to_type f.return_type), false,
          some idx, tc.source_lines⟩ : TypeChecker) f.body
      rw [hz] at hfst
      simp at hfst
      have hcrt := check_statements_crt
        (⟨tc.scope_analyzer, [], some (string_to_type f.return_type), false,
          some idx, tc.source_lines⟩ : TypeChecker) f.body
      rw [hz] at hcrt
      simp at hcrt
      have hnm := check_statements_no_missing_return
        (⟨tc.scope_analyzer, [], some (string_to_type f.return_type), false,
          some idx, tc.source_lines⟩ : TypeChecker) f.body
      rw [hz] at hnm
      simp [no_new_missing_return] at hnm
      have hfr := check_statements_errors_frame tc.errors
        (⟨tc.scope_analyzer, [], some (string_to_type f.return_type), false,
          some idx, tc.source_lines⟩ : TypeChecker) f.body
      rw [hz] at hfr
      simp at hfr
      cases hscan : has_return_scan_list f.body with
      | true =>
        refine ⟨tcz4.errors, ?_, ?_⟩
        · simp [check_function_definition, hfs, hfr, hcrt, hfst, hscan]
        · constructor
          · rintro ⟨e, he, hrsn⟩
            exact absurd hrsn (hnm e he)
          · intro hcontr
            exact absurd hcontr (by simp)
      | false =>
        refine ⟨tcz4.errors ++
            [⟨TypeChkError.ReturnStmtNotFound,
              find_line_for_context { tcz4 with errors := tc.errors ++ tcz4.errors } f.name,
              f.name⟩], ?_, ?_⟩
        · simp [check_function_definition, hfs, hfr, hcrt, hfst, hscan, hrt, record_error]
        · constructor
          · intro _
            rfl
          · intro _
            refine ⟨⟨TypeChkError.ReturnStmtNotFound,
                find_line_for_context { tcz4 with errors := tc.errors ++ tcz4.errors }
                  f.name,
                f.name⟩, ?_, rfl⟩
            simp
  | none =>
    cases hz : check_statements
        (⟨tc.scope_analyzer, [], some (string_to_type f.return_type), false,
          tc.current_scope, tc.source_lines⟩ : TypeChecker) f.body with
    | mk bz tcz4 =>
      have hfst := check_statements_fst
        (⟨tc.scope_analyzer, [], some (string_to_type f.return_type), false,
          tc.current_scope, tc.source_lines⟩ : TypeChecker) f.body
      rw [hz] at hfst
      simp at hfst
      have hcrt := check_statements_crt
        (⟨tc.scope_analyzer, [], some (string_to_type f.return_type), false,
          tc.current_scope, tc.source_lines⟩ : TypeChecker) f.body
      rw [hz] at hcrt
      simp at hcrt
      have hnm := check_statements_no_missing_return
        (⟨tc.scope_analyzer, [], some (string_to_type f.return_type), false,
          tc.current_scope, tc.source_lines⟩ : TypeChecker) f.body
      rw [hz] at hnm
      simp [no_new_missing_return] at hnm
      have hfr := check_statements_errors_frame tc.errors
        (⟨tc.scope_analyzer, [], some (string_to_type f.return_type), false,
          tc.current_scope, tc.source_lines⟩ : TypeChecker) f.body
      rw [hz] at hfr
      simp at hfr
      cases hscan : has_return_scan_list f.body with
      | true =>
        refine ⟨tcz4.errors, ?_, ?_⟩
        · simp [check_function_definition, hfs, hfr, hcrt, hfst, hscan]
        · constructor
          · rintro ⟨e, he, hrsn⟩
            exact absurd hrsn (hnm e he)
          · intro hcontr
            exact absurd hcontr (by simp)
      | false =>
        refine ⟨tcz4.errors ++
            [⟨TypeChkError.ReturnStmtNotFound,
              find_line_for_context { tcz4 with errors := tc.errors ++ tcz4.errors } f.name,
              f.name⟩], ?_, ?_⟩
        · simp [check_function_definition, hfs, hfr, hcrt, hfst, hscan, hrt, record_error]
        · constructor
          · intro _
            rfl
          · intro _
            refine ⟨⟨TypeChkError.ReturnStmtNotFound,
                find_line_for_context { tcz4 with errors := tc.errors ++ tcz4.errors }
                  f.name,
                f.name⟩, ?_, rfl⟩
            simp

/-- A non-void function whose only `Return` sits inside a nested block: the
direct statement list has no `Return` node. -/
def c4_fun : FunctionDefinition :=
  ⟨"int", "f", [],
    [Statement.Block [Statement.Return (some (Expression.Constant (Constant.Integer 1)))]]⟩

/-- C4 counterexample to the original claim: the body of
`int f() { { return 1; } }` contains no `Return` node in its *direct* statement
list, the return type is not `Void`, and yet the checker reports no error at
all — in particular no `ReturnStmtNotFound` — because the `Block` arm of
`check_statement` propagates `has_return` from the nested list. -/
theorem missing_return_direct_list_counterexample :
    (∀ s ∈ c4_fun.body, ∀ oe, s ≠ Statement.Return oe)
    ∧ string_to_type c4_fun.return_type ≠ Ty.Void
    ∧ (check_function_definition (TypeChecker.new ScopeAnalyzer.new []) c4_fun).errors
        = [] := by
  refine ⟨?_, by decide, ?_⟩
  · intro s hs oe
    simp [c4_fun] at hs
    subst hs
    simp
  · simp [c4_fun, check_function_definition, TypeChecker.new, ScopeAnalyzer.new,
      ScopeNode.new, find_function_scope, check_statements, check_statement,
      enter_child_scope, find_child_scope, check_expression, string_to_type,
      constant_to_type, are_types_compatible, is_numeric_type, record_error,
      find_line_for_context, mapGet, List.findIdx?]

/-- Witness for the C4 theorem at a concrete input: the empty-bodied
`int f() {}` (hypothesis `int ≠ void` discharged by `decide`). -/
theorem check_function_definition_missing_return_iff_witness :
    string_to_type (⟨"int", "f", [], []⟩ : FunctionDefinition).return_type ≠ Ty.Void
    ∧ ∃ d, (check_function_definition (TypeChecker.new ScopeAnalyzer.new [])
          ⟨"int", "f", [], []⟩).errors
        = (TypeChecker.new ScopeAnalyzer.new []).errors ++ d
      ∧ ((∃ e ∈ d, e.error = TypeChkError.ReturnStmtNotFound)
          ↔ has_return_scan_list (⟨"int", "f", [], []⟩ : FunctionDefinition).body
              = false) :=
  ⟨by decide,
    check_function_definition_missing_return_iff (TypeChecker.new ScopeAnalyzer.new [])
      ⟨"int", "f", [], []⟩ (by decide)⟩

/-! ## Claim C5: function-call arity and argument checking -/

theorem check_call_args_take (name : String) (args : List Expression) :
    ∀ (params : List Parameter) (tc : TypeChecker),
      check_call_args tc name args params
        = check_call_args tc name (args.take (min args.length params.length))
            (params.take (min args.length params.length)) := by
  induction args with
  | nil => intro params tc; simp [check_call_args]
  | cons arg rest ih =>
    intro params tc
    cases params with
    | nil => simp [check_call_args]
    | cons param prest =>
      simp only [List.length_cons, Nat.succ_min_succ, List.take_succ_cons]
      cases h1 : check_expression tc arg with
      | mk v1 tc1 =>
        cases v1 with
        | none =>
          simp only [check_call_args, h1]
          exact ih prest tc1
        | some arg_type =>
          simp only [check_call_args, h1]
          exact ih prest _

theorem check_call_args_errors_split (tc : TypeChecker) (name : String)
    (args : List Expression) (params : List Parameter) :
    (check_call_args tc name args params).errors
      = tc.errors ++ (check_call_args { tc with errors := [] } name args params).errors := by
  have hfr := check_call_args_errors_frame tc.errors { tc with errors := [] } name args params
  simp only [List.append_nil] at hfr
  conv_lhs => rw [show check_call_args tc name args params
    = check_call_args { tc with errors := tc.errors } name args params from rfl, hfr]

/-- C5: for every call expression naming a function declared in the global
scope, `check_function_call` yields the declared return type as the call
expression's type, and its new errors are exactly one `FnCallParamCount` batch
(one element when the argument count differs from the declared parameter
count, empty otherwise) followed by precisely the errors of checking the
arguments against the declared parameter types — a check that by the third
conjunct only ever touches the overlapping prefix of the two lists. -/
theorem check_function_call_arity_and_prefix (tc : TypeChecker) (name : String)
    (args : List Expression) (sym : Symbol) (ret : String) (params : List Parameter)
    (dfn : Bool)
    (hlook : scope_lookup tc.scope_analyzer.all_scopes tc.scope_analyzer.global_scope name
        = some sym)
    (hkind : sym.kind = SymbolKind.Function ret params dfn) :
    (check_function_call tc name args).1 = some (string_to_type ret)
    ∧ (check_function_call tc name args).2.errors
        = (tc.errors
            ++ (if args.length ≠ params.length
                then [⟨TypeChkError.FnCallParamCount, find_line_for_context tc name, name⟩]
                else []))
          ++ (check_call_args { tc with errors := [] } name args params).errors
    ∧ check_call_args { tc with errors := [] } name args params
        = check_call_args { tc with errors := [] } name
            (args.take (min args.length params.length))
            (params.take (min args.length params.length)) := by
  refine ⟨?_, ?_, check_call_args_take name args params { tc with errors := [] }⟩
  · simp [check_function_call, hlook, hkind]
  · by_cases harity : args.length = params.length
    · have hb : (args.length != params.length) = false := by simp [harity]
      have hsplit := check_call_args_errors_split tc name args params
      simp [check_function_call, hlook, hkind, hb, harity, hsplit]
    · have hb : (args.length != params.length) = true := by
        simpa [bne_iff_ne] using harity
      have hsplit := check_call_args_errors_split (record_error tc .FnCallParamCount name)
        name args params
      have hred : ({ record_error tc .FnCallParamCount name with errors := [] }
          : TypeChecker) = { tc with errors := [] } := rfl
      rw [hred] at hsplit
      simp only [check_function_call, hlook, hkind, hb, if_true]
      rw [hsplit]
      simp [record_error, harity]



def c5_node : ScopeNode :=
  { symbols := [("f", ⟨"f", SymbolKind.Function "int" [⟨"int", "x"⟩] true, 0⟩)]
    parent := none
    scope_level := 0 }

def c5_tc : TypeChecker :=
  TypeChecker.new
    { current_scope := 0, global_scope := 0, errors := [], all_scopes := [c5_node] } []

def c5_args : List Expression :=
  [Expression.Constant (Constant.Integer 1), Expression.StringLiteral "s"]

def c5_params : List Parameter := [⟨"int", "x"⟩]

/-- Witness for the C5 theorem: a one-parameter function `f` called with two
arguments (hypotheses discharged by evaluation). -/
theorem check_function_call_arity_and_prefix_witness :
    (scope_lookup c5_tc.scope_analyzer.all_scopes c5_tc.scope_analyzer.global_scope "f"
        = some ⟨"f", SymbolKind.Function "int" c5_params true, 0⟩)
    ∧ ((⟨"f", SymbolKind.Function "int" c5_params true, 0⟩ : Symbol).kind
        = SymbolKind.Function "int" c5_params true)
    ∧ ((check_function_call c5_tc "f" c5_args).1 = some (string_to_type "int")
      ∧ (check_function_call c5_tc "f" c5_args).2.errors
          = (c5_tc.errors
              ++ (if c5_args.length ≠ c5_params.length
                  then [⟨TypeChkError.FnCallParamCount,
                    find_line_for_context c5_tc "f", "f"⟩]
                  else []))
            ++ (check_call_args { c5_tc with errors := [] } "f" c5_args c5_params).errors
      ∧ check_call_args { c5_tc with errors := [] } "f" c5_args c5_params
          = check_call_args { c5_tc with errors := [] } "f"
              (c5_args.take (min c5_args.length c5_params.length))
              (c5_params.take (min c5_args.length c5_params.length))) :=
  ⟨by simp [scope_lookup, mapGet, c5_tc, c5_node, c5_params, TypeChecker.new], rfl,
    check_function_call_arity_and_prefix c5_tc "f" c5_args
      ⟨"f", SymbolKind.Function "int" c5_params true, 0⟩ "int" c5_params true
      (by simp [scope_lookup, mapGet, c5_tc, c5_node, c5_params, TypeChecker.new]) rfl⟩

/-! ## Claim C8: error accumulation across both passes -/

/-- C8: both semantic passes accumulate errors instead of aborting.  For
every translation unit each pass answers `ok` exactly when its accumulated
error list is empty, an `error` answer carries precisely the full accumulated
list (and is nonempty), a pass never drops errors already recorded
(prefix preservation), and each external declaration only appends its own
batch of new errors — so an invalid construct cannot suppress errors of
unrelated later declarations. -/
theorem both_passes_accumulate_errors (sa : ScopeAnalyzer) (tc : TypeChecker)
    (tu : TranslationUnit) :
    ((analyze_translation_unit sa tu).1 = .ok ()
        ↔ (analyze_translation_unit sa tu).2.errors = [])
    ∧ (∀ es, (analyze_translation_unit sa tu).1 = .error es →
        es = (analyze_translation_unit sa tu).2.errors ∧ es ≠ [])
    ∧ sa.errors <+: (analyze_translation_unit sa tu).2.errors
    ∧ (∀ (sa0 : ScopeAnalyzer) (d : ExternalDeclaration),
        ∃ dnew, (analyze_external_declaration sa0 d).errors = sa0.errors ++ dnew)
    ∧ ((check_translation_unit tc tu).1 = .ok ()
        ↔ (check_translation_unit tc tu).2.errors = [])
    ∧ (∀ es, (check_translation_unit tc tu).1 = .error es →
        es = (check_translation_unit tc tu).2.errors ∧ es ≠ [])
    ∧ tc.errors <+: (check_translation_unit tc tu).2.errors
    ∧ (∀ (tc0 : TypeChecker) (d : ExternalDeclaration),
        ∃ dnew, (check_external_declaration tc0 d).errors = tc0.errors ++ dnew) := by
  refine ⟨(analyze_translation_unit_ok_iff sa tu).1,
    (analyze_translation_unit_ok_iff sa tu).2,
    analyze_translation_unit_errors_prefix sa tu,
    ?_,
    (check_translation_unit_ok_iff tc tu).1,
    (check_translation_unit_ok_iff tc tu).2,
    check_translation_unit_errors_prefix tc tu,
    ?_⟩
  · intro sa0 d
    refine ⟨(analyze_external_declaration { sa0 with errors := [] } d).errors, ?_⟩
    have h := analyze_external_declaration_errors_frame sa0.errors
      { sa0 with errors := [] } d
    simp only [List.append_nil] at h
    conv_lhs => rw [show analyze_external_declaration sa0 d
      = analyze_external_declaration { sa0 with errors := sa0.errors } d from rfl, h]
  · intro tc0 d
    refine ⟨(check_external_declaration { tc0 with errors := [] } d).errors, ?_⟩
    have h := check_external_declaration_errors_frame tc0.errors
      { tc0 with errors := [] } d
    simp only [List.append_nil] at h
    conv_lhs => rw [show check_external_declaration tc0 d
      = check_external_declaration { tc0 with errors := tc0.errors } d from rfl, h]

/-! ## Claim C7: scope-tree invariants -/

/-- The operations of the scope-tree API. -/
inductive ScopeOp where
  | enter_scope : ScopeOp
  | exit_scope : ScopeOp
  | declare_symbol (name : String) (kind : SymbolKind) : ScopeOp

/-- One step of the scope-tree API on the analyzer state. -/
def apply_scope_op (sa : ScopeAnalyzer) : ScopeOp → ScopeAnalyzer
  | .enter_scope => sa.enter_scope
  | .exit_scope => sa.exit_scope
  | .declare_symbol name kind => (sa.declare_symbol name kind).2

/-- Run a sequence of scope operations from the freshly created analyzer. -/
def run_scope_ops (ops : List ScopeOp) : ScopeAnalyzer :=
  ops.foldl apply_scope_op ScopeAnalyzer.new

/-- The scope-tree invariants: the global scope is arena index 0, the cursor
is in bounds, the global scope has no parent and level 0, every other scope
has exactly one parent — an earlier node exactly one level up — and every
stored symbol carries its owning scope's level. -/
def scope_tree_inv (sa : ScopeAnalyzer) : Prop :=
  sa.global_scope = 0
  ∧ sa.current_scope < sa.all_scopes.length
  ∧ (∀ (node : ScopeNode), sa.all_scopes[0]? = some node →
      node.parent = none ∧ node.scope_level = 0)
  ∧ (∀ (i : Nat) (node : ScopeNode), sa.all_scopes[i]? = some node → i ≠ 0 →
      ∃ p pnode, node.parent = some p ∧ p < i ∧ sa.all_scopes[p]? = some pnode ∧
        node.scope_level = pnode.scope_level + 1)
  ∧ (∀ (i : Nat) (node : ScopeNode), sa.all_scopes[i]? = some node →
      ∀ pr ∈ node.symbols, pr.2.scope_level = node.scope_level)

theorem scope_tree_inv_new : scope_tree_inv ScopeAnalyzer.new := by
  refine ⟨rfl, by simp [ScopeAnalyzer.new], ?_, ?_, ?_⟩
  · intro node h
    simp [ScopeAnalyzer.new, ScopeNode.new] at h
    simp [← h, ScopeNode.new]
  · intro i node h hi0
    match i with
    | 0 => exact absurd rfl hi0
    | i + 1 => simp [ScopeAnalyzer.new] at h
  · intro i node h pr hpr
    match i with
    | 0 =>
      simp [ScopeAnalyzer.new, ScopeNode.new] at h
      rw [← h] at hpr
      simp at hpr
    | i + 1 => simp [ScopeAnalyzer.new] at h

theorem mapInsert_mem (m : List (String × Symbol)) (k : String) (v : Symbol)
    (pr : String × Symbol) (h : pr ∈ mapInsert m k v) : pr ∈ m ∨ pr.2 = v := by
  unfold mapInsert at h
  by_cases ha : m.any (fun p => p.1 == k)
  · rw [if_pos ha] at h
    rcases List.mem_map.mp h with ⟨q, hq, hfq⟩
    by_cases hk : q.1 == k
    · rw [if_pos hk] at hfq
      right
      rw [← hfq]
    · rw [if_neg hk] at hfq
      left
      rw [← hfq]
      exact hq
  · rw [if_neg ha] at h
    rcases List.mem_append.mp h with h | h
    · exact Or.inl h
    · right
      rw [List.mem_singleton.mp h]

theorem set_get_same {l : List ScopeNode} {i : Nat} {a : ScopeNode} (h : i < l.length) :
    (l.set i a)[i]? = some a := by
  simp [List.getElem?_set, h]

theorem set_get_other {l : List ScopeNode} {i j : Nat} {a : ScopeNode} (h : i ≠ j) :
    (l.set i a)[j]? = l[j]? := by
  simp [List.getElem?_set, h]

theorem append_get_lt {l1 l2 : List ScopeNode} {i : Nat} (h : i < l1.length) :
    (l1 ++ l2)[i]? = l1[i]? := by
  simp [List.getElem?_append, h]

theorem append_get_ge {l1 l2 : List ScopeNode} {i : Nat} (h : l1.length ≤ i) :
    (l1 ++ l2)[i]? = l2[i - l1.length]? := by
  simp [List.getElem?_append, Nat.not_lt.mpr h]

theorem enter_scope_inv (sa : ScopeAnalyzer) (h : scope_tree_inv sa) :
    scope_tree_inv sa.enter_scope := by
  obtain ⟨hg, hcur, hglob, hpar, hsym⟩ := h
  unfold ScopeAnalyzer.enter_scope
  cases hget : sa.all_scopes.get? sa.current_scope with
  | none => exact ⟨hg, hcur, hglob, hpar, hsym⟩
  | some cur =>
    rw [List.get?_eq_getElem?] at hget
    have hlen0 : 0 < sa.all_scopes.length := Nat.lt_of_le_of_lt (Nat.zero_le _) hcur
    refine ⟨hg, ?_, ?_, ?_, ?_⟩
    · simp
    · intro node hnode
      rw [append_get_lt hlen0] at hnode
      exact hglob node hnode
    · intro i node hnode hi0
      rcases Nat.lt_or_ge i sa.all_scopes.length with hi | hi
      · rw [append_get_lt hi] at hnode
        rcases hpar i node hnode hi0 with ⟨p, pnode, hp1, hp2, hp3, hp4⟩
        refine ⟨p, pnode, hp1, hp2, ?_, hp4⟩
        rw [append_get_lt (Nat.lt_trans hp2 hi)]
        exact hp3
      · rcases Nat.lt_or_ge i (sa.all_scopes.length + 1) with hlt | hge
        · have hieq : i = sa.all_scopes.length := by omega
          subst hieq
          rw [append_get_ge (Nat.le_refl _)] at hnode
          simp [ScopeNode.new] at hnode
          refine ⟨sa.current_scope, cur, ?_, hcur, ?_, ?_⟩
          · rw [← hnode]
          · rw [append_get_lt hcur]
            exact hget
          · rw [← hnode]
        · rw [append_get_ge hi] at hnode
          rw [show i - sa.all_scopes.length = (i - sa.all_scopes.length - 1) + 1
            from by omega] at hnode
          simp at hnode
    · intro i node hnode pr hpr
      rcases Nat.lt_or_ge i sa.all_scopes.length with hi | hi
      · rw [append_get_lt hi] at hnode
        exact hsym i node hnode pr hpr
      · rcases Nat.lt_or_ge i (sa.all_scopes.length + 1) with hlt | hge
        · have hieq : i = sa.all_scopes.length := by omega
          subst hieq
          rw [append_get_ge (Nat.le_refl _)] at hnode
          simp [ScopeNode.new] at hnode
          rw [← hnode] at hpr
          simp at hpr
        · rw [append_get_ge hi] at hnode
          rw [show i - sa.all_scopes.length = (i - sa.all_scopes.length - 1) + 1
            from by omega] at hnode
          simp at hnode

theorem exit_scope_inv (sa : ScopeAnalyzer) (h : scope_tree_inv sa) :
    scope_tree_inv sa.exit_scope := by
  obtain ⟨hg, hcur, hglob, hpar, hsym⟩ := h
  cases hget : sa.all_scopes[sa.current_scope]? with
  | none =>
    have hstep : sa.exit_scope = sa := by
      simp [ScopeAnalyzer.exit_scope, List.get?_eq_getElem?, hget]
    rw [hstep]
    exact ⟨hg, hcur, hglob, hpar, hsym⟩
  | some cur =>
    cases hp : cur.parent with
    | none =>
      have hstep : sa.exit_scope = sa := by
        simp [ScopeAnalyzer.exit_scope, List.get?_eq_getElem?, hget, hp]
      rw [hstep]
      exact ⟨hg, hcur, hglob, hpar, hsym⟩
    | some p =>
      have hstep : sa.exit_scope = { sa with current_scope := p } := by
        simp [ScopeAnalyzer.exit_scope, List.get?_eq_getElem?, hget, hp]
      rw [hstep]
      by_cases h0 : sa.current_scope = 0
      · rw [h0] at hget
        have := (hglob cur hget).1
        rw [this] at hp
        exact absurd hp (by simp)
      · rcases hpar sa.current_scope cur hget h0 with ⟨q, qnode, hq1, hq2, hq3, hq4⟩
        rw [hp] at hq1
        have hpq : p = q := by
          injection hq1
        subst hpq
        exact ⟨hg, Nat.lt_trans hq2 hcur, hglob, hpar, hsym⟩

theorem declare_symbol_inv (sa : ScopeAnalyzer) (name : String) (kind : SymbolKind)
    (h : scope_tree_inv sa) : scope_tree_inv (sa.declare_symbol name kind).2 := by
  obtain ⟨hg, hcur, hglob, hpar, hsym⟩ := h
  by_cases hdup : (lookup_current_scope sa.all_scopes sa.current_scope name).isSome
  · have hstep : (sa.declare_symbol name kind).2
        = { sa with errors := sa.errors ++ [redefinition_error kind name] } := by
      simp [ScopeAnalyzer.declare_symbol, hdup]
    rw [hstep]
    exact ⟨hg, hcur, hglob, hpar, hsym⟩
  · cases hget : sa.all_scopes[sa.current_scope]? with
    | none =>
      exact absurd hget (by simp [List.getElem?_eq_none_iff]; omega)
    | some node =>
      have hstep : (sa.declare_symbol name kind).2
          = { sa with all_scopes := sa.all_scopes.set sa.current_scope (ScopeNode.mk (mapInsert node.symbols name ⟨name, kind, node.scope_level⟩) node.parent node.scope_level) } := by
        simp [ScopeAnalyzer.declare_symbol, hdup, insert_symbol,
          List.get?_eq_getElem?, hget]
      rw [hstep]
      refine ⟨hg, by simpa using hcur, ?_, ?_, ?_⟩
      · intro gnode hgnode
        by_cases hc0 : sa.current_scope = 0
        · rw [hc0] at hgnode
          rw [set_get_same (by rw [← hc0]; exact hcur)] at hgnode
          have hgn : gnode = ScopeNode.mk (mapInsert node.symbols name ⟨name, kind, node.scope_level⟩) node.parent node.scope_level := by
            injection hgnode.symm
          rw [hc0] at hget
          have := hglob node hget
          rw [hgn]
          exact this
        · rw [set_get_other hc0] at hgnode
          exact hglob gnode hgnode
      · intro i inode hinode hi0
        by_cases hci : sa.current_scope = i
        · rw [← hci] at hinode hi0
          rw [set_get_same hcur] at hinode
          have hin : inode = ScopeNode.mk (mapInsert node.symbols name ⟨name, kind, node.scope_level⟩) node.parent node.scope_level := by
            injection hinode.symm
          rcases hpar sa.current_scope node hget hi0 with ⟨p, pnode, hp1, hp2, hp3, hp4⟩
          refine ⟨p, pnode, ?_, by omega, ?_, ?_⟩
          · rw [hin]
            exact hp1
          · rw [set_get_other (by omega)]
            exact hp3
          · rw [hin]
            exact hp4
        · rw [set_get_other hci] at hinode
          rcases hpar i inode hinode hi0 with ⟨p, pnode, hp1, hp2, hp3, hp4⟩
          by_cases hpc : p = sa.current_scope
          · refine ⟨p, ScopeNode.mk (mapInsert node.symbols name ⟨name, kind, node.scope_level⟩) node.parent node.scope_level, hp1, hp2, ?_, ?_⟩
            · rw [hpc]
              exact set_get_same hcur
            · have hpn : pnode = node := by
                rw [hpc] at hp3
                rw [hget] at hp3
                injection hp3.symm
              rw [hp4, hpn]
          · refine ⟨p, pnode, hp1, hp2, ?_, hp4⟩
            rw [set_get_other (fun hh => hpc hh.symm)]
            exact hp3
      · intro i inode hinode pr hpr
        by_cases hci : sa.current_scope = i
        · rw [← hci] at hinode
          rw [set_get_same hcur] at hinode
          have hin : inode = ScopeNode.mk (mapInsert node.symbols name ⟨name, kind, node.scope_level⟩) node.parent node.scope_level := by
            injection hinode.symm
          rw [hin] at hpr
          simp only at hpr
          rcases mapInsert_mem node.symbols name ⟨name, kind, node.scope_level⟩ pr hpr
            with hold | hnew
          · rw [hin]
            exact hsym sa.current_scope node hget pr hold
          · rw [hin, hnew]
        · rw [set_get_other hci] at hinode
          exact hsym i inode hinode pr hpr

/-- C7: after every sequence of `enter_scope` / `exit_scope` /
`declare_symbol` operations from the fresh analyzer, the scope tree satisfies
the invariants: the global scope (arena index 0) has no parent and level 0,
every other scope has exactly one parent — an earlier scope whose level is
exactly one less — and every symbol stored in a scope carries that scope's
level. -/
theorem scope_tree_invariants_hold (ops : List ScopeOp) :
    scope_tree_inv (run_scope_ops ops) := by
  suffices h : ∀ (sa : ScopeAnalyzer), scope_tree_inv sa
      → scope_tree_inv (ops.foldl apply_scope_op sa) from
    h ScopeAnalyzer.new scope_tree_inv_new
  induction ops with
  | nil => intro sa h; exact h
  | cons op ops ih =>
    intro sa h
    simp only [List.foldl_cons]
    apply ih
    cases op with
    | enter_scope => exact enter_scope_inv sa h
    | exit_scope => exact exit_scope_inv sa h
    | declare_symbol name kind => exact declare_symbol_inv sa name kind h

/-! ## Claim C6: resolver/checker scope-structure agreement -/

/-- `int <name>;` with no initializer. -/
def c6_var (name : String) : VariableDeclaration :=
  ⟨none, [], .Int, ⟨name, 0, [], none⟩, none⟩

/-- `void f() { { int a; } { int b; } }`: one parent scope with two sibling
child blocks. -/
def c6_fun : FunctionDefinition :=
  ⟨"void", "f", [],
    [Statement.Block [Statement.Declaration (c6_var "a")],
     Statement.Block [Statement.Declaration (c6_var "b")]]⟩

def c6_tu : TranslationUnit := ⟨[], [.Function c6_fun]⟩

def c6_sa : ScopeAnalyzer := (analyze_translation_unit ScopeAnalyzer.new c6_tu).2

theorem c6_sa_eval :
    c6_sa =
      ⟨0, 0, [],
        [⟨[("f", ⟨"f", .Function "void" [] true, 0⟩)], none, 0⟩,
         ⟨[], some 0, 1⟩,
         ⟨[("a", ⟨"a", .Variable .Int none, 2⟩)], some 1, 2⟩,
         ⟨[("b", ⟨"b", .Variable .Int none, 2⟩)], some 1, 2⟩]⟩ := by
  simp [c6_sa, c6_tu, c6_fun, c6_var, analyze_translation_unit,
    add_builtin_functions_from_includes, directive_mentions_stdio,
    analyze_external_declaration, analyze_function_definition,
    declare_parameters, analyze_statement_list, analyze_statement,
    analyze_variable_declaration, ScopeAnalyzer.declare_symbol,
    lookup_current_scope, mapGet, mapInsert, insert_symbol,
    ScopeAnalyzer.enter_scope, ScopeAnalyzer.exit_scope,
    ScopeAnalyzer.new, ScopeNode.new, List.get?_eq_getElem?]



theorem findIdx?_first_aux {α : Type} (p : α → Bool) (l : List α) :
    ∀ (s i : Nat), List.findIdx? p l s = some i →
      s ≤ i ∧ ∃ a, l[i - s]? = some a ∧ p a = true
        ∧ ∀ j b, j < i - s → l[j]? = some b → p b = false := by
  induction l with
  | nil => intro s i h; simp [List.findIdx?_nil] at h
  | cons x xs ih =>
    intro s i h
    rw [List.findIdx?_cons] at h
    by_cases hp : p x
    · rw [if_pos hp] at h
      have hi : i = s := by
        injection h.symm
      subst hi
      refine ⟨Nat.le_refl _, x, by simp, hp, ?_⟩
      intro j b hj
      omega
    · rw [if_neg hp] at h
      rcases ih (s + 1) i h with ⟨hle, a, ha, hpa, hfirst⟩
      refine ⟨by omega, a, ?_, hpa, ?_⟩
      · rw [show i - s = (i - (s + 1)) + 1 from by omega]
        simpa using ha
      · intro j b hj hb
        match j with
        | 0 =>
          simp at hb
          subst hb
          exact Bool.eq_false_iff.mpr hp
        | j + 1 =>
          exact hfirst j b (by omega) (by simpa using hb)

theorem findIdx?_first {α : Type} (p : α → Bool) (l : List α) (i : Nat)
    (h : l.findIdx? p = some i) :
    ∃ a, l[i]? = some a ∧ p a = true
      ∧ ∀ j b, j < i → l[j]? = some b → p b = false := by
  have := findIdx?_first_aux p l 0 i h
  simpa using this.2

theorem find_child_scope_first (scopes : List ScopeNode) (cur idx : Nat)
    (h : find_child_scope scopes cur = some idx) :
    ∃ cnode node, scopes[cur]? = some cnode
      ∧ scopes[idx]? = some node
      ∧ node.scope_level = cnode.scope_level + 1 ∧ node.parent = some cur
      ∧ ∀ j node', j < idx → scopes[j]? = some node' →
          ¬(node'.scope_level = cnode.scope_level + 1 ∧ node'.parent = some cur) := by
  unfold find_child_scope at h
  cases hget : scopes.get? cur with
  | none => rw [hget] at h; exact absurd h (by simp)
  | some cnode =>
    rw [hget] at h
    rw [List.get?_eq_getElem?] at hget
    rcases findIdx?_first _ _ _ h with ⟨node, hnode, hpnode, hfirst⟩
    simp only [Bool.and_eq_true, beq_iff_eq] at hpnode
    refine ⟨cnode, node, hget, hnode, hpnode.1, hpnode.2, ?_⟩
    intro j node' hj hnode' hcontr
    have := hfirst j node' hj hnode'
    simp only [Bool.and_eq_false_iff, beq_eq_false_iff_ne] at this
    rcases this with h1 | h1
    · exact h1 hcontr.1
    · exact h1 hcontr.2

theorem find_function_scope_first (scopes : List ScopeNode) (params : List Parameter)
    (idx : Nat) (h : find_function_scope scopes params = some idx) :
    ∃ node, scopes[idx]? = some node
      ∧ node.scope_level = 1
      ∧ (∀ param ∈ params, (mapGet node.symbols param.name).isSome = true)
      ∧ ∀ j node', j < idx → scopes[j]? = some node' →
          ¬(node'.scope_level = 1
            ∧ ∀ param ∈ params, (mapGet node'.symbols param.name).isSome = true) := by
  unfold find_function_scope at h
  rcases findIdx?_first _ _ _ h with ⟨node, hnode, hpnode, hfirst⟩
  simp only [Bool.and_eq_true, beq_iff_eq, List.all_eq_true] at hpnode
  refine ⟨node, hnode, hpnode.1, hpnode.2, ?_⟩
  intro j node' hj hnode' hcontr
  have := hfirst j node' hj hnode'
  simp only [Bool.and_eq_false_iff, beq_eq_false_iff_ne, List.all_eq_true] at this
  rcases this with h1 | h1
  · exact h1 hcontr.1
  · simp at h1
    rcases h1 with ⟨param, hmem, hnone⟩
    have := hcontr.2 param hmem
    rw [hnone] at this
    simp at this



/-- C6 (amended): the scope the type checker re-derives is the **first**
matching scope in creation order — at a block or `for` entry the first scope
one level below the current scope whose parent is the current scope, and at a
function entry the first level-1 scope whose symbol map contains every
parameter name.  This agrees with the scope the resolver built whenever that
scope is the first such match; for the concrete two-sibling-block program
`void f() {{int a;}{int b;}}` the function entry (scope 1) and the first
block (scope 2, holding `a`) agree.  It is not the general agreement stated
by the original claim: the counterexample shows the second sibling block is
re-derived as the first sibling. -/
theorem checker_scope_rederivation_first_match :
    (∀ (scopes : List ScopeNode) (cur idx : Nat),
      find_child_scope scopes cur = some idx →
        ∃ cnode node, scopes[cur]? = some cnode
          ∧ scopes[idx]? = some node
          ∧ node.scope_level = cnode.scope_level + 1 ∧ node.parent = some cur
          ∧ ∀ j node', j < idx → scopes[j]? = some node' →
              ¬(node'.scope_level = cnode.scope_level + 1 ∧ node'.parent = some cur))
    ∧ (∀ (scopes : List ScopeNode) (params : List Parameter) (idx : Nat),
      find_function_scope scopes params = some idx →
        ∃ node, scopes[idx]? = some node
          ∧ node.scope_level = 1
          ∧ (∀ param ∈ params, (mapGet node.symbols param.name).isSome = true)
          ∧ ∀ j node', j < idx → scopes[j]? = some node' →
              ¬(node'.scope_level = 1
                ∧ ∀ param ∈ params, (mapGet node'.symbols param.name).isSome = true))
    ∧ find_function_scope c6_sa.all_scopes c6_fun.parameters = some 1
    ∧ find_child_scope c6_sa.all_scopes 1 = some 2
    ∧ (∃ nd, c6_sa.all_scopes[2]? = some nd ∧ (mapGet nd.symbols "a").isSome = true) := by
  refine ⟨find_child_scope_first, find_function_scope_first, ?_, ?_, ?_⟩
  · rw [c6_sa_eval]
    decide
  · rw [c6_sa_eval]
    decide
  · rw [c6_sa_eval]
    decide

/-- C6 counterexample to the original claim: in
`void f() {{int a;}{int b;}}` the resolver resolves cleanly and stores the
second block's local `b` in arena scope 3 (and not in scope 2), yet the
checker's child-scope search from the function scope — the `Block` arm's
`enter_child_scope` at the second block entry, whose cursor is scope 1 —
moves to scope 2, the first sibling, not to scope 3. -/
theorem sibling_blocks_rederived_scope_disagrees :
    (analyze_translation_unit ScopeAnalyzer.new c6_tu).1 = Except.ok ()
    ∧ (∃ nd, c6_sa.all_scopes[3]? = some nd ∧ (mapGet nd.symbols "b").isSome = true)
    ∧ (∀ nd, c6_sa.all_scopes[2]? = some nd → mapGet nd.symbols "b" = none)
    ∧ find_child_scope c6_sa.all_scopes 1 = some 2
    ∧ (enter_child_scope ⟨c6_sa, [], none, false, some 1, []⟩).current_scope = some 2 := by
  refine ⟨?_, ?_, ?_, ?_, ?_⟩
  · exact (analyze_translation_unit_ok_iff ScopeAnalyzer.new c6_tu).1.mpr
      (by rw [show (analyze_translation_unit ScopeAnalyzer.new c6_tu).2 = c6_sa from rfl,
        c6_sa_eval])
  · rw [c6_sa_eval]
    decide
  · intro nd h
    rw [c6_sa_eval] at h
    simp at h
    rw [← h]
    decide
  · rw [c6_sa_eval]
    decide
  · rw [c6_sa_eval]
    decide

end MiniC
